import Mathlib

/-!
Verification development for the litepub_norm resolution/validation/filter
pipeline.  The Python sources under `src/litepub_norm` are shallowly embedded:
pure functions become Lean functions, Python dictionaries holding JSON data
become the `JVal` inductive, the document tree (the Pandoc-style block
grammar produced by the normalizer) becomes the `Blk`/`Inl` inductives,
exceptions become `Except`, and external runtime services (the filesystem,
`hashlib`, `json.load`, float formatting) become explicit parameters.
-/

set_option maxHeartbeats 1600000

/-- Model of a Python `float` as far as the validators inspect it: the
validators only test `math.isnan` / `math.isinf`, and equality.  Finite
values are carried as rationals. -/
inductive PyFloat where
  | finite (q : Rat)
  | nan
  | inf
  | ninf
deriving DecidableEq, Repr

def PyFloat.isnan : PyFloat → Bool
  | .nan => true
  | _ => false

def PyFloat.isinf : PyFloat → Bool
  | .inf => true
  | .ninf => true
  | _ => false

/-- JSON values as produced by `json.load`, i.e. the Python values the
payload validators walk over.  Python distinguishes `bool`, `int`, `float`
and `str`; objects keep their key/value pairs in insertion order. -/
inductive JVal where
  | null
  | bool (b : Bool)
  | int (n : Int)
  | float (f : PyFloat)
  | str (s : String)
  | arr (items : List JVal)
  | obj (fields : List (String × JVal))
deriving Repr

/-- Python `dict` lookup for an object built from a key/value list: later
occurrences of a key overwrite earlier ones, so lookup returns the last
binding (JSON objects parsed by `json.load` behave the same way). -/
def lookupLast (key : String) : List (String × String) → Option String
  | [] => none
  | (k, v) :: rest =>
    match lookupLast key rest with
    | some r => some r
    | none => if k = key then some v else none

/-- `dict` lookup over JSON object fields (last binding wins). -/
def jLookup (key : String) : List (String × JVal) → Option JVal
  | [] => none
  | (k, v) :: rest =>
    match jLookup key rest with
    | some r => some r
    | none => if k = key then some v else none

/-- `payload.get(key)` on a JSON value: `None` when the value is not an
object or the key is absent. -/
def JVal.get (v : JVal) (key : String) : Option JVal :=
  match v with
  | .obj fields => jLookup key fields
  | _ => none

/-- `payload.get(key, default)`. -/
def JVal.getD (v : JVal) (key : String) (d : JVal) : JVal :=
  (v.get key).getD d

/-- `isinstance(v, bool)`. -/
def JVal.isBool : JVal → Bool
  | .bool _ => true
  | _ => false

/-- `isinstance(v, int)`: in Python `bool` is a subclass of `int`, so a
boolean passes this check as well. -/
def JVal.isInstInt : JVal → Bool
  | .bool _ => true
  | .int _ => true
  | _ => false

/-- `isinstance(v, (int, float))`: booleans pass (subclass of `int`). -/
def JVal.isInstNum : JVal → Bool
  | .bool _ => true
  | .int _ => true
  | .float _ => true
  | _ => false

/-- `isinstance(v, str)`. -/
def JVal.isStr : JVal → Bool
  | .str _ => true
  | _ => false

/-- `isinstance(v, list)`. -/
def JVal.isArr : JVal → Bool
  | .arr _ => true
  | _ => false

/-- `isinstance(v, dict)`. -/
def JVal.isObj : JVal → Bool
  | .obj _ => true
  | _ => false

/-- `isinstance(v, (str, int, float, bool))` (the JSON scalar check used on
table cells). -/
def JVal.isScalar : JVal → Bool
  | .str _ => true
  | .int _ => true
  | .float _ => true
  | .bool _ => true
  | _ => false

/-- `type(value).__name__` for the JSON values that can appear in payloads
(used only to build error messages). -/
def JVal.pyTypeName : JVal → String
  | .null => "NoneType"
  | .bool _ => "bool"
  | .int _ => "int"
  | .float _ => "float"
  | .str _ => "str"
  | .arr _ => "list"
  | .obj _ => "dict"

/-- `resolver.errors.ValidationError`: message plus the optional structured
fields the validators set (`code`, `semantic_id`, `spec`, `ast_path`,
`hint`; the generic `path` field is never set by the embedded validators). -/
structure ValidationError where
  message : String
  code : Option String := none
  semantic_id : Option String := none
  spec : Option String := none
  ast_path : Option String := none
  hint : Option String := none
deriving DecidableEq, Repr

/-- Character class of the regex `\w` (ASCII approximation: letters, digits,
underscore; no payload in this development uses non-ASCII format strings). -/
def isWordChar (c : Char) : Bool :=
  c.isAlphanum || c = '_'

/-- `re.findall(r"\x7b(\w+)\x7d", fmt)`: scan left to right for
brace-delimited words; on a failed match the scan resumes right after the
opening brace, as the regex engine does. -/
def findFormatTokens : List Char → List String
  | [] => []
  | c :: rest =>
    if c = '\x7b' then
      match h : rest.dropWhile isWordChar with
      | '\x7d' :: tail =>
        if rest.takeWhile isWordChar ≠ [] then
          String.mk (rest.takeWhile isWordChar) :: findFormatTokens tail
        else findFormatTokens rest
      | _ => findFormatTokens rest
    else findFormatTokens rest
termination_by l => l.length
decreasing_by
  · have hle : (rest.dropWhile isWordChar).length ≤ rest.length :=
      (List.dropWhile_suffix isWordChar).length_le
    rw [h] at hle
    simp only [List.length_cons] at hle ⊢
    omega
  · simp
  · simp
  · simp

/-- Allowed tokens in a metric format string (`_FORMAT_TOKENS`). -/
def FORMAT_TOKENS : List String := ["value", "unit"]

/-- `_MAX_FORMAT_LEN`. -/
def MAX_FORMAT_LEN : Nat := 200

/-- Python `str.strip()` (ASCII-whitespace model). -/
def pyStrip (s : String) : String :=
  String.mk (((s.toList.dropWhile Char.isWhitespace).reverse.dropWhile
    Char.isWhitespace).reverse)

/-- Python `str.lower()` (ASCII model). -/
def pyLower (s : String) : String :=
  String.mk (s.toList.map Char.toLower)

/-- Python `str.upper()` (ASCII model). -/
def pyUpper (s : String) : String :=
  String.mk (s.toList.map Char.toUpper)

/-- Python `s.startswith(pre)`. -/
def pyStartsWith (s pre : String) : Bool :=
  pre.toList.isPrefixOf s.toList

/-- Helper of `pySplitOnChar`. -/
def pySplitOnCharAux (c : Char) : List Char → List Char → List String
  | [], acc => [String.mk acc.reverse]
  | d :: rest, acc =>
    if d = c then String.mk acc.reverse :: pySplitOnCharAux c rest []
    else pySplitOnCharAux c rest (d :: acc)

/-- Python `s.split(sep)` for a one-character separator (empty parts
kept). -/
def pySplitOnChar (c : Char) (s : String) : List String :=
  pySplitOnCharAux c s.toList []

/-- Python `s.split()` (no argument): split on whitespace runs, no empty
parts. -/
def pySplitWsAux : List Char → List String
  | [] => []
  | c :: rest =>
    if Char.isWhitespace c then pySplitWsAux rest
    else
      String.mk (c :: rest.takeWhile (fun d => !Char.isWhitespace d)) ::
        pySplitWsAux (rest.dropWhile (fun d => !Char.isWhitespace d))
termination_by l => l.length
decreasing_by
  · simp
  · have hle : (rest.dropWhile (fun d => !Char.isWhitespace d)).length ≤ rest.length :=
      (List.dropWhile_suffix _).length_le
    simp only [List.length_cons]
    omega

/-- Python `s.replace(needle, repl)`: non-overlapping, left to right (the
empty-needle case, which Python treats specially, is never used by the
sources and is modelled as the identity). -/
def pyReplaceAux (needle repl : List Char) : List Char → List Char
  | [] => []
  | c :: rest =>
    if h : needle.isPrefixOf (c :: rest) ∧ needle ≠ [] then
      repl ++ pyReplaceAux needle repl ((c :: rest).drop needle.length)
    else c :: pyReplaceAux needle repl rest
termination_by l => l.length
decreasing_by
  · have hlen : needle.length ≥ 1 := by
      cases hn : needle with
      | nil => exact absurd hn h.2
      | cons a as => simp
    simp only [List.length_drop, List.length_cons]
    omega
  · simp

/-- `pyReplace s needle repl`. -/
def pyReplace (s needle repl : String) : String :=
  String.mk (pyReplaceAux needle.toList repl.toList s.toList)

/-- Python string comparison (lexicographic by code point). -/
def strLeList : List Char → List Char → Bool
  | [], _ => true
  | _ :: _, [] => false
  | a :: as, b :: bs =>
    if a.toNat < b.toNat then true
    else if b.toNat < a.toNat then false
    else strLeList as bs

/-- `a <= b` on Python strings. -/
def pyStrLe (a b : String) : Bool :=
  strLeList a.toList b.toList

/-- Stable insertion into a sorted list (helper of `pySorted`). -/
def pyInsertStr (x : String) : List String → List String
  | [] => [x]
  | y :: ys => if pyStrLe x y then x :: y :: ys else y :: pyInsertStr x ys

/-- Python `sorted(...)` on strings (stable; on lists without duplicates —
the only way the sources use it — any correct sort yields the same
output). -/
def pySorted : List String → List String
  | [] => []
  | x :: xs => pyInsertStr x (pySorted xs)

/-- `validator.metric_v1.validate_metric_v1` (the module lives at
`resolver/validators/metric_v1.py`): validates a `metric.json@v1` payload,
raising `ValidationError` with a stable code on the first violation. -/
def validate_metric_v1 (payload : JVal) (semantic_id : String)
    (strict_format : Bool := true) : Except ValidationError Unit := do
  let spec := "metric.json@v1"
  if !payload.isObj then
    throw { message := "Metric payload must be an object",
            code := some "VAL_METRIC_NOT_OBJECT",
            semantic_id := some semantic_id, spec := some spec,
            hint := some "Payload should be a JSON object with \x27label\x27 and \x27value\x27 fields" }
  -- Required: label (non-empty string)
  let label := (payload.get "label").getD .null
  match label with
  | .str s =>
    if pyStrip s = "" then
      throw { message := "Metric.label must be a non-empty string",
              code := some "VAL_METRIC_LABEL_EMPTY",
              semantic_id := some semantic_id, spec := some spec,
              hint := some "Label cannot be empty or whitespace-only" }
  | _ =>
    throw { message := "Metric.label must be a string",
            code := some "VAL_METRIC_LABEL_TYPE",
            semantic_id := some semantic_id, spec := some spec,
            hint := some "Provide a non-empty string for \x27label\x27" }
  -- Required: value (finite number, NOT bool); the bool check comes first
  -- because bool is a subclass of int in Python.
  let value := (payload.get "value").getD .null
  if value.isBool then
    throw { message := "Metric.value must be a number, not a boolean",
            code := some "VAL_METRIC_VALUE_BOOL",
            semantic_id := some semantic_id, spec := some spec,
            hint := some "Use a numeric value (int or float), not True/False" }
  if !value.isInstNum then
    throw { message := "Metric.value must be a number",
            code := some "VAL_METRIC_VALUE_TYPE",
            semantic_id := some semantic_id, spec := some spec,
            hint := some "Provide a numeric value for \x27value\x27" }
  match value with
  | .float f =>
    if f.isnan || f.isinf then
      throw { message := "Metric.value must be a finite number (not NaN or Inf)",
              code := some "VAL_METRIC_VALUE_NONFINITE",
              semantic_id := some semantic_id, spec := some spec,
              hint := some "Replace NaN/Infinity with a finite value or handle upstream" }
  | _ => pure ()
  -- Optional: unit (string if present)
  match payload.get "unit" with
  | none => pure ()
  | some .null => pure ()
  | some u =>
    if !u.isStr then
      throw { message := "Metric.unit must be a string when present",
              code := some "VAL_METRIC_UNIT_TYPE",
              semantic_id := some semantic_id, spec := some spec,
              hint := some "Unit should be a string (empty string allowed for dimensionless)" }
  -- Optional: format (string if present, with token restrictions)
  match payload.get "format" with
  | none => pure ()
  | some .null => pure ()
  | some fv =>
    match fv with
    | .str fmt => do
      if fmt.length > MAX_FORMAT_LEN then
        throw { message := "Metric.format exceeds max length (" ++ toString fmt.length
                  ++ " > " ++ toString MAX_FORMAT_LEN ++ ")",
                code := some "VAL_METRIC_FORMAT_TOO_LONG",
                semantic_id := some semantic_id, spec := some spec }
      if strict_format then
        let tokens := findFormatTokens fmt.toList
        let invalid := (tokens.filter (fun t => t ∉ FORMAT_TOKENS)).dedup
        if invalid ≠ [] then
          throw { message := "Metric.format contains disallowed tokens: "
                    ++ String.intercalate ", " invalid,
                  code := some "VAL_METRIC_FORMAT_INVALID_TOKEN",
                  semantic_id := some semantic_id, spec := some spec,
                  hint := some "Only \x7bvalue\x7d and \x7bunit\x7d tokens are allowed in format string" }
        if fmt.toList.contains '\n' || fmt.toList.contains '\r' then
          throw { message := "Metric.format must not contain newlines",
                  code := some "VAL_METRIC_FORMAT_NEWLINE",
                  semantic_id := some semantic_id, spec := some spec }
    | _ =>
      throw { message := "Metric.format must be a string when present",
              code := some "VAL_METRIC_FORMAT_TYPE",
              semantic_id := some semantic_id, spec := some spec }
  -- Optional: lower_is_better (boolean if present)
  match payload.get "lower_is_better" with
  | none => pure ()
  | some .null => pure ()
  | some v =>
    if !v.isBool then
      throw { message := "Metric.lower_is_better must be a boolean when present",
              code := some "VAL_METRIC_LOWER_IS_BETTER_TYPE",
              semantic_id := some semantic_id, spec := some spec }
  -- Optional: notes (array of strings if present)
  match payload.get "notes" with
  | none => pure ()
  | some .null => pure ()
  | some nv =>
    match nv with
    | .arr notes =>
      for p in notes.enum do
        if !p.2.isStr then
          throw { message := "Metric.notes[" ++ toString p.1 ++ "] must be a string",
                  code := some "VAL_METRIC_NOTES_ITEM_TYPE",
                  semantic_id := some semantic_id, spec := some spec,
                  hint := some "All items in notes array must be strings" }
    | _ =>
      throw { message := "Metric.notes must be an array when present",
              code := some "VAL_METRIC_NOTES_TYPE",
              semantic_id := some semantic_id, spec := some spec }
  -- Optional: meta (object if present)
  match payload.get "meta" with
  | none => pure ()
  | some .null => pure ()
  | some m =>
    if !m.isObj then
      throw { message := "Metric.meta must be an object when present",
              code := some "VAL_METRIC_META_TYPE",
              semantic_id := some semantic_id, spec := some spec }

/-- `resolver.config.ResolutionLimits` (defaults from the source). -/
structure ResolutionLimits where
  max_table_cells : Nat := 200000
  max_table_rows : Nat := 10000
  max_table_cols : Nat := 100
  max_text_len : Nat := 5000000
  max_image_bytes : Nat := 50000000
deriving DecidableEq, Repr

/-- `resolver.config.ResolutionConfig`; `target` is one of
`"internal" | "external" | "dossier"` (a `Literal` type in the source, kept
as a string here). -/
structure ResolutionConfig where
  target : String := "internal"
  strict : Bool := true
  allow_raw_pandoc : Bool := false
  limits : ResolutionLimits := {}
deriving DecidableEq, Repr

/-- `ResolutionConfig.is_strict_target`. -/
def ResolutionConfig.is_strict_target (c : ResolutionConfig) : Bool :=
  c.target = "external" || c.target = "dossier"

/-- The regex `^[a-zA-Z_][a-zA-Z0-9_]*$` used for simple-table column keys. -/
def keyPatternMatch (s : String) : Bool :=
  match s.toList with
  | [] => false
  | c :: rest =>
    (c.isAlpha || c = '_') && rest.all (fun d => d.isAlphanum || d = '_')

/-- Python `str(...)` of a set of strings as used in error messages; the
embedding lists the elements in first-occurrence order.  (CPython renders
sets in hash order; no theorem below depends on this message text.) -/
def showStrSet (l : List String) : String :=
  "\x7b" ++ String.intercalate ", " (l.map (fun s => "\x27" ++ s ++ "\x27")) ++ "\x7d"

/-- `validator.table_simple_v1._validate_cell_dtype` (module
`resolver/validators/table_simple_v1.py`): enforce a declared column dtype
on one cell value.  The boolean checks come before the numeric
`isinstance` checks because `bool` is a subclass of `int` in Python. -/
def _validate_cell_dtype (value : JVal) (dtype : String) (row_idx : Nat)
    (key : String) (semantic_id : String) (spec : String) :
    Except ValidationError Unit := do
  if dtype = "string" then
    if !value.isStr then
      throw { message := "Table.rows[" ++ toString row_idx ++ "]." ++ key
                ++ ": expected string, got " ++ value.pyTypeName,
              code := some "VAL_TABLE_DTYPE_MISMATCH",
              semantic_id := some semantic_id, spec := some spec }
  else if dtype = "int" then
    if value.isBool then
      throw { message := "Table.rows[" ++ toString row_idx ++ "]." ++ key
                ++ ": expected int, got bool",
              code := some "VAL_TABLE_DTYPE_BOOL_AS_INT",
              semantic_id := some semantic_id, spec := some spec,
              hint := some "Use integer value, not True/False" }
    if !value.isInstInt then
      throw { message := "Table.rows[" ++ toString row_idx ++ "]." ++ key
                ++ ": expected int, got " ++ value.pyTypeName,
              code := some "VAL_TABLE_DTYPE_MISMATCH",
              semantic_id := some semantic_id, spec := some spec }
  else if dtype = "float" then
    if value.isBool then
      throw { message := "Table.rows[" ++ toString row_idx ++ "]." ++ key
                ++ ": expected float, got bool",
              code := some "VAL_TABLE_DTYPE_BOOL_AS_FLOAT",
              semantic_id := some semantic_id, spec := some spec,
              hint := some "Use numeric value, not True/False" }
    if !value.isInstNum then
      throw { message := "Table.rows[" ++ toString row_idx ++ "]." ++ key
                ++ ": expected float, got " ++ value.pyTypeName,
              code := some "VAL_TABLE_DTYPE_MISMATCH",
              semantic_id := some semantic_id, spec := some spec }
    match value with
    | .float f =>
      if f.isnan || f.isinf then
        throw { message := "Table.rows[" ++ toString row_idx ++ "]." ++ key
                  ++ ": float value must be finite (not NaN/Inf)",
                code := some "VAL_TABLE_DTYPE_FLOAT_NONFINITE",
                semantic_id := some semantic_id, spec := some spec }
    | _ => pure ()
  else if dtype = "bool" then
    if !value.isBool then
      throw { message := "Table.rows[" ++ toString row_idx ++ "]." ++ key
                ++ ": expected bool, got " ++ value.pyTypeName,
              code := some "VAL_TABLE_DTYPE_MISMATCH",
              semantic_id := some semantic_id, spec := some spec }

/-- Validate one column object of a simple table; returns its key and
optional dtype (`validate_table_simple_v1`, per-column part). -/
def validateTableColumn (col : JVal) (i : Nat) (column_keys : List String)
    (semantic_id spec : String) :
    Except ValidationError (String × Option String) := do
  if !col.isObj then
    throw { message := "Table.columns[" ++ toString i ++ "] must be an object",
            code := some "VAL_TABLE_COLUMN_TYPE",
            semantic_id := some semantic_id, spec := some spec }
  let key ← match (col.get "key").getD .null with
    | .str k => pure k
    | _ =>
      throw { message := "Table.columns[" ++ toString i ++ "].key must be a string",
              code := some "VAL_TABLE_COLUMN_KEY_TYPE",
              semantic_id := some semantic_id, spec := some spec }
  if key = "" then
    throw { message := "Table.columns[" ++ toString i ++ "].key must be non-empty",
            code := some "VAL_TABLE_COLUMN_KEY_EMPTY",
            semantic_id := some semantic_id, spec := some spec }
  if !keyPatternMatch key then
    throw { message := "Table.columns[" ++ toString i ++ "].key \x27" ++ key
              ++ "\x27 must be a valid identifier (alphanumeric + underscore, not starting with digit)",
            code := some "VAL_TABLE_COLUMN_KEY_INVALID",
            semantic_id := some semantic_id, spec := some spec,
            hint := some "Use keys like \x27name\x27, \x27value_1\x27, \x27_id\x27" }
  if key ∈ column_keys then
    throw { message := "Duplicate column key: \x27" ++ key ++ "\x27",
            code := some "VAL_TABLE_COLUMN_KEY_DUPLICATE",
            semantic_id := some semantic_id, spec := some spec }
  -- Optional: label (string)
  match col.get "label" with
  | none => pure ()
  | some .null => pure ()
  | some l =>
    if !l.isStr then
      throw { message := "Table.columns[" ++ toString i ++ "].label must be a string",
              code := some "VAL_TABLE_COLUMN_LABEL_TYPE",
              semantic_id := some semantic_id, spec := some spec }
  -- Optional: unit (string)
  match col.get "unit" with
  | none => pure ()
  | some .null => pure ()
  | some u =>
    if !u.isStr then
      throw { message := "Table.columns[" ++ toString i ++ "].unit must be a string",
              code := some "VAL_TABLE_COLUMN_UNIT_TYPE",
              semantic_id := some semantic_id, spec := some spec }
  -- Optional: dtype
  match col.get "dtype" with
  | none => pure (key, none)
  | some .null => pure (key, none)
  | some d =>
    match d with
    | .str ds =>
      if ds = "string" || ds = "int" || ds = "float" || ds = "bool" then
        pure (key, some ds)
      else
        throw { message := "Table.columns[" ++ toString i
                  ++ "].dtype must be one of: string, int, float, bool",
                code := some "VAL_TABLE_COLUMN_DTYPE_INVALID",
                semantic_id := some semantic_id, spec := some spec }
    | _ =>
      throw { message := "Table.columns[" ++ toString i
                ++ "].dtype must be one of: string, int, float, bool",
              code := some "VAL_TABLE_COLUMN_DTYPE_INVALID",
              semantic_id := some semantic_id, spec := some spec }

/-- Validate one row object of a simple table (`validate_table_simple_v1`,
per-row part). -/
def validateTableRow (row : JVal) (i : Nat) (column_keys : List String)
    (column_dtypes : List (String × Option String)) (strict_keys : Bool)
    (semantic_id spec : String) : Except ValidationError Unit := do
  let fields ← match row with
    | .obj fs => pure fs
    | _ =>
      throw { message := "Table.rows[" ++ toString i ++ "] must be an object",
              code := some "VAL_TABLE_ROW_TYPE",
              semantic_id := some semantic_id, spec := some spec }
  let row_keys := (fields.map Prod.fst).dedup
  -- Extra keys (not in columns) are always forbidden
  let extra_keys := row_keys.filter (fun k => k ∉ column_keys)
  if extra_keys ≠ [] then
    throw { message := "Table.rows[" ++ toString i ++ "] has unknown keys: "
              ++ showStrSet extra_keys,
            code := some "VAL_TABLE_ROW_EXTRA_KEYS",
            semantic_id := some semantic_id, spec := some spec,
            hint := some "Row keys must match column definitions" }
  -- Missing keys: fatal under the strict rectangular policy
  if strict_keys then
    let missing_keys := column_keys.filter (fun k => k ∉ row_keys)
    if missing_keys ≠ [] then
      throw { message := "Table.rows[" ++ toString i ++ "] is missing keys: "
                ++ showStrSet missing_keys,
              code := some "VAL_TABLE_ROW_MISSING_KEYS",
              semantic_id := some semantic_id, spec := some spec,
              hint := some "All rows must have all column keys (strict rectangular policy)" }
  -- Cell values and dtype enforcement (`for key, value in row.items()`)
  for kv in fields do
    let dtype : Option String := (column_dtypes.lookup kv.1).getD none
    -- Null is always allowed
    match kv.2 with
    | .null => pure ()
    | v => do
      if !v.isScalar then
        throw { message := "Table.rows[" ++ toString i ++ "]." ++ kv.1
                  ++ " must be string|number|boolean|null",
                code := some "VAL_TABLE_CELL_TYPE",
                semantic_id := some semantic_id, spec := some spec }
      match dtype with
      | some dt => _validate_cell_dtype v dt i kv.1 semantic_id spec
      | none => pure ()

/-- Loop of `validate_table_simple_v1` over the column list, accumulating
keys and dtypes in order. -/
def validateTableColumns (cols : List JVal) (i : Nat)
    (column_keys : List String) (column_dtypes : List (String × Option String))
    (semantic_id spec : String) :
    Except ValidationError (List String × List (String × Option String)) := do
  match cols with
  | [] => pure (column_keys, column_dtypes)
  | col :: rest =>
    let (key, dt) ← validateTableColumn col i column_keys semantic_id spec
    validateTableColumns rest (i + 1) (column_keys ++ [key])
      (column_dtypes ++ [(key, dt)]) semantic_id spec

/-- Loop of `validate_table_simple_v1` over the row list. -/
def validateTableRows (rows : List JVal) (i : Nat) (column_keys : List String)
    (column_dtypes : List (String × Option String)) (strict_keys : Bool)
    (semantic_id spec : String) : Except ValidationError Unit := do
  match rows with
  | [] => pure ()
  | row :: rest =>
    validateTableRow row i column_keys column_dtypes strict_keys semantic_id spec
    validateTableRows rest (i + 1) column_keys column_dtypes strict_keys
      semantic_id spec

/-- `validator.table_simple_v1.validate_table_simple_v1` (module
`resolver/validators/table_simple_v1.py`): full validation of a
`table.simple.json@v1` payload — columns, size limits, then rows with
per-cell dtype enforcement. -/
def validate_table_simple_v1 (payload : JVal) (semantic_id : String)
    (limits : Option ResolutionLimits := none) (strict_keys : Bool := true) :
    Except ValidationError Unit := do
  let spec := "table.simple.json@v1"
  if !payload.isObj then
    throw { message := "Table payload must be an object",
            code := some "VAL_TABLE_NOT_OBJECT",
            semantic_id := some semantic_id, spec := some spec }
  -- Required: columns (non-empty array)
  let columns ← match (payload.get "columns").getD .null with
    | .arr cs => pure cs
    | _ =>
      throw { message := "Table.columns must be an array",
              code := some "VAL_TABLE_COLUMNS_TYPE",
              semantic_id := some semantic_id, spec := some spec }
  if columns.length = 0 then
    throw { message := "Table.columns must be a non-empty array",
            code := some "VAL_TABLE_COLUMNS_EMPTY",
            semantic_id := some semantic_id, spec := some spec }
  let (column_keys, column_dtypes) ←
    validateTableColumns columns 0 [] [] semantic_id spec
  -- Required: rows (array)
  let rows ← match (payload.get "rows").getD .null with
    | .arr rs => pure rs
    | _ =>
      throw { message := "Table.rows must be an array",
              code := some "VAL_TABLE_ROWS_TYPE",
              semantic_id := some semantic_id, spec := some spec }
  -- Size limits are applied before per-row validation (fail fast)
  match limits with
  | some lim => do
    if columns.length > lim.max_table_cols then
      throw { message := "Table exceeds max columns (" ++ toString columns.length
                ++ " > " ++ toString lim.max_table_cols ++ ")",
              code := some "VAL_TABLE_EXCEEDS_MAX_COLS",
              semantic_id := some semantic_id, spec := some spec }
    if rows.length > lim.max_table_rows then
      throw { message := "Table exceeds max rows (" ++ toString rows.length
                ++ " > " ++ toString lim.max_table_rows ++ ")",
              code := some "VAL_TABLE_EXCEEDS_MAX_ROWS",
              semantic_id := some semantic_id, spec := some spec }
    if columns.length * rows.length > lim.max_table_cells then
      throw { message := "Table exceeds max cells ("
                ++ toString (columns.length * rows.length)
                ++ " > " ++ toString lim.max_table_cells ++ ")",
              code := some "VAL_TABLE_EXCEEDS_MAX_CELLS",
              semantic_id := some semantic_id, spec := some spec }
  | none => pure ()
  validateTableRows rows 0 column_keys column_dtypes strict_keys semantic_id spec

/-- `validator.pandoc_walk.NodeContext` (module
`resolver/validators/pandoc_walk.py`). -/
inductive NodeContext where
  | BLOCK
  | INLINE
  | META
deriving DecidableEq, Repr

/-- `validator.pandoc_walk.WalkContext`. -/
structure WalkContext where
  semantic_id : String
  node_type : String
  context : NodeContext
  path : String
  depth : Nat
deriving DecidableEq, Repr

/-- Keys of `BLOCK_TYPES` (`ALL_BLOCK_TYPES`). -/
def ALL_BLOCK_TYPES : List String :=
  ["Plain", "Para", "LineBlock", "CodeBlock", "RawBlock", "BlockQuote",
   "OrderedList", "BulletList", "DefinitionList", "Header", "HorizontalRule",
   "Table", "Figure", "Div"]

/-- Keys of `INLINE_TYPES` (`ALL_INLINE_TYPES`). -/
def ALL_INLINE_TYPES : List String :=
  ["Str", "Emph", "Underline", "Strong", "Strikeout", "Superscript",
   "Subscript", "SmallCaps", "Quoted", "Cite", "Code", "Space", "SoftBreak",
   "LineBreak", "Math", "RawInline", "Link", "Image", "Note", "Span"]

/-- `node.get("t", "")` restricted to string tags; a non-string tag behaves
exactly like the empty tag in the walker and its callbacks (it matches no
recognised type), so it is mapped to `""`. -/
def jNodeType (node : JVal) : String :=
  match node.get "t" with
  | some (.str t) => t
  | _ => ""

/-- The `VAL_PANDOC_TOO_DEEP` error raised by the walker. -/
def tooDeepError (semantic_id path : String) : ValidationError :=
  { message := "AST nesting too deep (>100 levels)",
    code := some "VAL_PANDOC_TOO_DEEP",
    semantic_id := some semantic_id, ast_path := some path }

/-- Indexed iteration `for i, item in enumerate(items): f(item, pref + "[i]")`
used by the walker's per-type loops. -/
def walkIdx (items : List JVal) (pref : String)
    (f : JVal → String → Except ValidationError Unit) :
    Except ValidationError Unit :=
  items.enum.forM (fun p => f p.2 (pref ++ "[" ++ toString p.1 ++ "]"))

/-- `validator.pandoc_walk.walk_pandoc` with the remaining recursion budget
`budget = 101 - depth` made explicit: the source checks `depth > 100` at
entry, which is exactly `budget = 0` for every call produced from the
entry point (`walk_pandoc` below starts at depth 0 with budget 101, and
every child call increments depth while decrementing budget).  The
traversal performs the source's exhaustive per-type dispatch (the
`_walk_table` / `_walk_table_head_foot` / `_walk_table_body` / `_walk_row`
/ `_walk_cell` helpers are inlined into the corresponding branches, and
the per-item loops become `walkIdx`).  Where the source would raise
`TypeError` on a malformed node (iterating a non-list), the embedding
skips the node; no theorem below exercises those nodes. -/
def walkB (budget : Nat) (node : JVal)
    (cb : JVal → WalkContext → Except ValidationError Unit)
    (semantic_id : String) (context : NodeContext) (path : String)
    (depth : Nat) : Except ValidationError Unit := do
  match budget with
  | 0 =>
    throw (tooDeepError semantic_id path)
  | b + 1 =>
    match node with
    | .null => pure ()
    | .arr items =>
      walkIdx items path (fun item p =>
        walkB b item cb semantic_id context p (depth + 1))
    | .str _ => pure ()
    | .int _ => pure ()
    | .float _ => pure ()
    | .bool _ => pure ()
    | .obj fields => do
      let node_type := jNodeType (.obj fields)
      cb (.obj fields) { semantic_id, node_type, context, path, depth }
      match jLookup "c" fields with
      | none => pure ()
      | some content =>
        let content_path := if path ≠ "" then path ++ ".c" else "c"
        if node_type = "Plain" || node_type = "Para" then
          walkB b content cb semantic_id .INLINE content_path (depth + 1)
        else if node_type = "LineBlock" then
          match content with
          | .arr lines =>
            walkIdx lines content_path (fun line p =>
              walkB b line cb semantic_id .INLINE p (depth + 1))
          | _ => pure ()
        else if node_type = "BlockQuote" then
          walkB b content cb semantic_id .BLOCK content_path (depth + 1)
        else if node_type = "BulletList" then
          match content with
          | .arr items =>
            walkIdx items content_path (fun item p =>
              walkB b item cb semantic_id .BLOCK p (depth + 1))
          | _ => pure ()
        else if node_type = "OrderedList" then
          match content with
          | .arr l =>
            if h2 : l.length ≥ 2 then
              match l.get ⟨1, by omega⟩ with
              | .arr items =>
                walkIdx items (content_path ++ "[1]") (fun item p =>
                  walkB b item cb semantic_id .BLOCK p (depth + 1))
              | _ => pure ()
            else pure ()
          | _ => pure ()
        else if node_type = "DefinitionList" then
          match content with
          | .arr entries =>
            walkIdx entries content_path (fun entry p =>
              match entry with
              | .arr [term, defs] => do
                walkB b term cb semantic_id .INLINE (p ++ "[0]") (depth + 1)
                match defs with
                | .arr dl =>
                  walkIdx dl (p ++ "[1]") (fun db q =>
                    walkB b db cb semantic_id .BLOCK q (depth + 1))
                | _ => pure ()
              | _ => pure ())
          | _ => pure ()
        else if node_type = "Header" then
          match content with
          | .arr l =>
            if h3 : l.length ≥ 3 then
              walkB b (l.get ⟨2, by omega⟩) cb semantic_id .INLINE
                (content_path ++ "[2]") (depth + 1)
            else pure ()
          | _ => pure ()
        else if node_type = "Table" then
          -- `_walk_table`
          match content with
          | .arr l =>
            if h6 : l.length ≥ 6 then do
              match l.get ⟨1, by omega⟩ with
              | .arr capl =>
                if hc : capl.length ≥ 2 then
                  walkB b (capl.get ⟨1, by omega⟩) cb semantic_id .BLOCK
                    (content_path ++ "[1][1]") (depth + 1)
                else pure ()
              | _ => pure ()
              match l.get ⟨3, by omega⟩ with
              | .obj hf =>
                walkB b (.obj hf) cb semantic_id .BLOCK
                  (content_path ++ "[3]") (depth + 1)
              | _ => pure ()
              match l.get ⟨4, by omega⟩ with
              | .arr bodies =>
                walkIdx bodies (content_path ++ "[4]") (fun body p =>
                  walkB b body cb semantic_id .BLOCK p (depth + 1))
              | _ => pure ()
              match l.get ⟨5, by omega⟩ with
              | .obj ff =>
                walkB b (.obj ff) cb semantic_id .BLOCK
                  (content_path ++ "[5]") (depth + 1)
              | _ => pure ()
            else pure ()
          | _ => pure ()
        else if node_type = "Figure" then
          match content with
          | .arr l =>
            if h3 : l.length ≥ 3 then do
              match l.get ⟨1, by omega⟩ with
              | .arr capl =>
                if hc : capl.length ≥ 2 then
                  walkB b (capl.get ⟨1, by omega⟩) cb semantic_id .BLOCK
                    (content_path ++ "[1][1]") (depth + 1)
                else pure ()
              | _ => pure ()
              walkB b (l.get ⟨2, by omega⟩) cb semantic_id .BLOCK
                (content_path ++ "[2]") (depth + 1)
            else pure ()
          | _ => pure ()
        else if node_type = "Div" then
          match content with
          | .arr l =>
            if h2 : l.length ≥ 2 then
              walkB b (l.get ⟨1, by omega⟩) cb semantic_id .BLOCK
                (content_path ++ "[1]") (depth + 1)
            else pure ()
          | _ => pure ()
        else if node_type = "Emph" || node_type = "Underline" || node_type = "Strong"
            || node_type = "Strikeout" || node_type = "Superscript"
            || node_type = "Subscript" || node_type = "SmallCaps" then
          walkB b content cb semantic_id .INLINE content_path (depth + 1)
        else if node_type = "Quoted" || node_type = "Cite" then
          match content with
          | .arr l =>
            if h2 : l.length ≥ 2 then
              walkB b (l.get ⟨1, by omega⟩) cb semantic_id .INLINE
                (content_path ++ "[1]") (depth + 1)
            else pure ()
          | _ => pure ()
        else if node_type = "Link" || node_type = "Image" then
          match content with
          | .arr l =>
            if h2 : l.length ≥ 2 then
              walkB b (l.get ⟨1, by omega⟩) cb semantic_id .INLINE
                (content_path ++ "[1]") (depth + 1)
            else pure ()
          | _ => pure ()
        else if node_type = "Note" then
          walkB b content cb semantic_id .BLOCK content_path (depth + 1)
        else if node_type = "Span" then
          match content with
          | .arr l =>
            if h2 : l.length ≥ 2 then
              walkB b (l.get ⟨1, by omega⟩) cb semantic_id .INLINE
                (content_path ++ "[1]") (depth + 1)
            else pure ()
          | _ => pure ()
        else if node_type = "TableHead" || node_type = "TableFoot" then
          -- `_walk_table_head_foot`
          match content with
          | .arr l =>
            if h2 : l.length ≥ 2 then
              match l.get ⟨1, by omega⟩ with
              | .arr rows =>
                walkIdx rows (content_path ++ "[1]") (fun row p =>
                  walkB b row cb semantic_id .BLOCK p (depth + 1))
              | _ => pure ()
            else pure ()
          | _ => pure ()
        else if node_type = "TableBody" then
          -- `_walk_table_body`
          match content with
          | .arr l =>
            if h4 : l.length ≥ 4 then do
              match l.get ⟨2, by omega⟩ with
              | .arr irows =>
                walkIdx irows (content_path ++ "[2]") (fun row p =>
                  walkB b row cb semantic_id .BLOCK p (depth + 1))
              | _ => pure ()
              match l.get ⟨3, by omega⟩ with
              | .arr brows =>
                walkIdx brows (content_path ++ "[3]") (fun row p =>
                  walkB b row cb semantic_id .BLOCK p (depth + 1))
              | _ => pure ()
            else pure ()
          | _ => pure ()
        else if node_type = "Row" then
          -- `_walk_row`
          match content with
          | .arr l =>
            if h2 : l.length ≥ 2 then
              match l.get ⟨1, by omega⟩ with
              | .arr cells =>
                walkIdx cells (content_path ++ "[1]") (fun cell p =>
                  walkB b cell cb semantic_id .BLOCK p (depth + 1))
              | _ => pure ()
            else pure ()
          | _ => pure ()
        else if node_type = "Cell" then
          -- `_walk_cell`
          match content with
          | .arr l =>
            if h5 : l.length ≥ 5 then
              match l.get ⟨4, by omega⟩ with
              | .arr blocks =>
                walkB b (.arr blocks) cb semantic_id .BLOCK
                  (content_path ++ "[4]") (depth + 1)
              | _ => pure ()
            else pure ()
          | _ => pure ()
        else
          pure ()

/-- `walk_pandoc(node, callback, semantic_id, context, path, depth)`: the
source entry point; the budget starts at `101 - depth`, making the budget
guard coincide with the source's `depth > 100` check at every reachable
call. -/
def walk_pandoc (node : JVal)
    (cb : JVal → WalkContext → Except ValidationError Unit)
    (semantic_id : String) (context : NodeContext) (path : String)
    (depth : Nat) : Except ValidationError Unit :=
  walkB (101 - depth) node cb semantic_id context path depth


/-- `NEVER_ALLOWED_TYPES` from `validator/table_pandoc_v1.py`. -/
def NEVER_ALLOWED_TYPES : List String := ["Div"]

/-- `RAW_TYPES`. -/
def RAW_TYPES : List String := ["RawInline", "RawBlock"]

/-- `SAFE_INLINE_TYPES`. -/
def SAFE_INLINE_TYPES : List String :=
  ["Str", "Space", "SoftBreak", "LineBreak", "Emph", "Underline", "Strong",
   "Strikeout", "Superscript", "Subscript", "SmallCaps", "Code", "Math",
   "Link", "Image", "Span", "Quoted", "Cite", "Note"]

/-- `SAFE_BLOCK_TYPES` (Table and Figure deliberately excluded). -/
def SAFE_BLOCK_TYPES : List String :=
  ["Plain", "Para", "CodeBlock", "BlockQuote", "BulletList", "OrderedList",
   "DefinitionList", "Header", "HorizontalRule", "LineBlock"]

/-- Table structure types skipped by the safety callback. -/
def tableStructureTypes : List String :=
  ["Table", "TableHead", "TableBody", "TableFoot", "Row", "Cell"]

/-- Python `int(value)` view of a JSON value for the span checks:
`isinstance(v, int)` accepts booleans (`True` counts as 1, `False` as 0). -/
def JVal.asPyInt : JVal → Option Int
  | .int n => some n
  | .bool b => some (if b then 1 else 0)
  | _ => none

/-- The safety callback closed over the allow-lists
(`validate_table_pandoc_v1.safety_check`). -/
def safety_check (allowed_block_types allowed_inline_types : List String)
    (semantic_id spec : String) (_node : JVal) (ctx : WalkContext) :
    Except ValidationError Unit := do
  let node_type := ctx.node_type
  if node_type = "" then
    pure ()
  else if node_type ∈ tableStructureTypes then
    pure ()
  else do
    -- Never allow Div in payloads (prevents wrapper smuggling)
    if node_type ∈ NEVER_ALLOWED_TYPES then
      throw { message := node_type ++ " blocks not allowed in table payload",
              code := some ("VAL_PANDOC_" ++ pyUpper node_type ++ "_FORBIDDEN"),
              semantic_id := some semantic_id, spec := some spec,
              ast_path := some ctx.path,
              hint := some "Payloads must not contain Div blocks" }
    -- Raw content requires explicit permission
    if node_type ∈ RAW_TYPES then
      if node_type ∉ allowed_block_types ∧ node_type ∉ allowed_inline_types then
        throw { message := "Raw content (" ++ node_type ++ ") not allowed in table payload",
                code := some ("VAL_PANDOC_" ++ pyUpper node_type ++ "_FORBIDDEN"),
                semantic_id := some semantic_id, spec := some spec,
                ast_path := some ctx.path,
                hint := some "Set allow_raw_pandoc=True in config to allow raw content" }
    -- Context-specific allow-lists
    if ctx.context = .BLOCK then
      if node_type ∈ ALL_BLOCK_TYPES ∧ node_type ∉ allowed_block_types then
        throw { message := "Block type \x27" ++ node_type ++ "\x27 not allowed in table cells",
                code := some "VAL_PANDOC_BLOCK_NOT_ALLOWED",
                semantic_id := some semantic_id, spec := some spec,
                ast_path := some ctx.path }
    else if ctx.context = .INLINE then
      if node_type ∈ ALL_INLINE_TYPES ∧ node_type ∉ allowed_inline_types then
        throw { message := "Inline type \x27" ++ node_type ++ "\x27 not allowed in table cells",
                code := some "VAL_PANDOC_INLINE_NOT_ALLOWED",
                semantic_id := some semantic_id, spec := some spec,
                ast_path := some ctx.path }

/-- `_validate_cell`: returns (rowspan, colspan). -/
def _validate_cell (cell : JVal) (cell_idx : Nat) (context : String)
    (semantic_id spec : String) : Except ValidationError (Int × Int) := do
  if !cell.isObj then
    throw { message := context ++ ".cells[" ++ toString cell_idx ++ "] must be an object",
            code := some "VAL_PANDOC_CELL_TYPE",
            semantic_id := some semantic_id, spec := some spec }
  if jNodeType cell ≠ "Cell" then
    throw { message := "Expected Cell, got " ++ jNodeType cell,
            code := some "VAL_PANDOC_CELL_WRONG_TYPE",
            semantic_id := some semantic_id, spec := some spec }
  match cell.get "c" with
  | some (.arr l) =>
    if h5 : l.length ≥ 5 then do
      let rowspan ← match (l.get ⟨2, by omega⟩).asPyInt with
        | some n =>
          if n < 1 then
            throw { message := "Invalid RowSpan at " ++ context ++ ".cells["
                      ++ toString cell_idx ++ "]: " ++ toString n,
                    code := some "VAL_PANDOC_ROWSPAN_INVALID",
                    semantic_id := some semantic_id, spec := some spec,
                    hint := some "RowSpan must be a positive integer" }
          else pure n
        | none =>
          throw { message := "Invalid RowSpan at " ++ context ++ ".cells["
                    ++ toString cell_idx ++ "]",
                  code := some "VAL_PANDOC_ROWSPAN_INVALID",
                  semantic_id := some semantic_id, spec := some spec,
                  hint := some "RowSpan must be a positive integer" }
      let colspan ← match (l.get ⟨3, by omega⟩).asPyInt with
        | some n =>
          if n < 1 then
            throw { message := "Invalid ColSpan at " ++ context ++ ".cells["
                      ++ toString cell_idx ++ "]: " ++ toString n,
                    code := some "VAL_PANDOC_COLSPAN_INVALID",
                    semantic_id := some semantic_id, spec := some spec,
                    hint := some "ColSpan must be a positive integer" }
          else pure n
        | none =>
          throw { message := "Invalid ColSpan at " ++ context ++ ".cells["
                    ++ toString cell_idx ++ "]",
                  code := some "VAL_PANDOC_COLSPAN_INVALID",
                  semantic_id := some semantic_id, spec := some spec,
                  hint := some "ColSpan must be a positive integer" }
      pure (rowspan, colspan)
    else
      throw { message := "Invalid Cell structure at " ++ context ++ ".cells["
                ++ toString cell_idx ++ "]",
              code := some "VAL_PANDOC_CELL_STRUCTURE",
              semantic_id := some semantic_id, spec := some spec,
              hint := some "Cell.c should be [Attr, Alignment, RowSpan, ColSpan, [Block]]" }
  | _ =>
    throw { message := "Invalid Cell structure at " ++ context ++ ".cells["
              ++ toString cell_idx ++ "]",
            code := some "VAL_PANDOC_CELL_STRUCTURE",
            semantic_id := some semantic_id, spec := some spec,
            hint := some "Cell.c should be [Attr, Alignment, RowSpan, ColSpan, [Block]]" }

/-- Cell loop of `_validate_row` with the running column offset. -/
def validateRowCells (cells : List JVal) (i : Nat) (col_position : Int)
    (check_geometry : Bool) (num_cols : Nat) (context : String)
    (row_idx : Nat) (semantic_id spec : String) : Except ValidationError Unit := do
  match cells with
  | [] => pure ()
  | cell :: rest => do
    let (_rowspan, colspan) ← _validate_cell cell i
      (context ++ ".rows[" ++ toString row_idx ++ "]") semantic_id spec
    if check_geometry then do
      if col_position + colspan > (num_cols : Int) then
        throw { message := "Cell colspan exceeds table width at " ++ context
                  ++ ".rows[" ++ toString row_idx ++ "].cells[" ++ toString i ++ "]",
                code := some "VAL_PANDOC_COLSPAN_OVERFLOW",
                semantic_id := some semantic_id, spec := some spec,
                hint := some ("Cell at column " ++ toString col_position
                  ++ " has colspan=" ++ toString colspan ++ " but only "
                  ++ toString ((num_cols : Int) - col_position) ++ " columns remain") }
      validateRowCells rest (i + 1) (col_position + colspan) check_geometry
        num_cols context row_idx semantic_id spec
    else
      validateRowCells rest (i + 1) col_position check_geometry
        num_cols context row_idx semantic_id spec

/-- `_validate_row`: returns the cell count. -/
def _validate_row (row : JVal) (row_idx : Nat) (context : String)
    (num_cols : Nat) (semantic_id spec : String) (check_geometry : Bool) :
    Except ValidationError Nat := do
  if !row.isObj then
    throw { message := context ++ ".rows[" ++ toString row_idx ++ "] must be an object",
            code := some "VAL_PANDOC_ROW_TYPE",
            semantic_id := some semantic_id, spec := some spec }
  if jNodeType row ≠ "Row" then
    throw { message := "Expected Row, got " ++ jNodeType row,
            code := some "VAL_PANDOC_ROW_WRONG_TYPE",
            semantic_id := some semantic_id, spec := some spec }
  match row.get "c" with
  | some (.arr l) =>
    if h2 : l.length ≥ 2 then
      match l.get ⟨1, by omega⟩ with
      | .arr cells => do
        validateRowCells cells 0 0 check_geometry num_cols context row_idx
          semantic_id spec
        pure cells.length
      | _ =>
        throw { message := context ++ ".rows[" ++ toString row_idx
                  ++ "] cells must be an array",
                code := some "VAL_PANDOC_ROW_CELLS_TYPE",
                semantic_id := some semantic_id, spec := some spec }
    else
      throw { message := "Invalid Row structure at " ++ context ++ ".rows["
                ++ toString row_idx ++ "]",
              code := some "VAL_PANDOC_ROW_STRUCTURE",
              semantic_id := some semantic_id, spec := some spec }
  | _ =>
    throw { message := "Invalid Row structure at " ++ context ++ ".rows["
              ++ toString row_idx ++ "]",
            code := some "VAL_PANDOC_ROW_STRUCTURE",
            semantic_id := some semantic_id, spec := some spec }

/-- Row loop of `_validate_table_section`. -/
def validateSectionRows (rows : List JVal) (i : Nat) (section_name : String)
    (num_cols : Nat) (semantic_id spec : String) (check_geometry : Bool) :
    Except ValidationError Unit := do
  match rows with
  | [] => pure ()
  | row :: rest => do
    let _ ← _validate_row row i section_name num_cols semantic_id spec check_geometry
    validateSectionRows rest (i + 1) section_name num_cols semantic_id spec check_geometry

/-- `_validate_table_section` (TableHead / TableFoot). -/
def _validate_table_section (sectionV : JVal) (section_name : String)
    (num_cols : Nat) (semantic_id spec : String) (check_geometry : Bool) :
    Except ValidationError Unit := do
  if !sectionV.isObj then
    throw { message := section_name ++ " must be an object",
            code := some ("VAL_PANDOC_" ++ pyUpper section_name ++ "_TYPE"),
            semantic_id := some semantic_id, spec := some spec }
  if jNodeType sectionV ≠ section_name then
    throw { message := "Expected " ++ section_name ++ ", got " ++ jNodeType sectionV,
            code := some ("VAL_PANDOC_" ++ pyUpper section_name ++ "_WRONG_TYPE"),
            semantic_id := some semantic_id, spec := some spec }
  match sectionV.get "c" with
  | some (.arr l) =>
    if h2 : l.length ≥ 2 then
      match l.get ⟨1, by omega⟩ with
      | .arr rows =>
        validateSectionRows rows 0 section_name num_cols semantic_id spec check_geometry
      | _ =>
        throw { message := section_name ++ " rows must be an array",
                code := some ("VAL_PANDOC_" ++ pyUpper section_name ++ "_ROWS_TYPE"),
                semantic_id := some semantic_id, spec := some spec }
    else
      throw { message := "Invalid " ++ section_name ++ " structure",
              code := some ("VAL_PANDOC_" ++ pyUpper section_name ++ "_STRUCTURE"),
              semantic_id := some semantic_id, spec := some spec }
  | _ =>
    throw { message := "Invalid " ++ section_name ++ " structure",
            code := some ("VAL_PANDOC_" ++ pyUpper section_name ++ "_STRUCTURE"),
            semantic_id := some semantic_id, spec := some spec }

/-- Row loop of `_validate_table_body`: accumulates (row_count, cell_count). -/
def validateBodyRows (rows : List JVal) (i : Nat) (context : String)
    (num_cols : Nat) (semantic_id spec : String) (check_geometry : Bool)
    (row_count cell_count : Nat) : Except ValidationError (Nat × Nat) := do
  match rows with
  | [] => pure (row_count, cell_count)
  | row :: rest => do
    let cells ← _validate_row row i context num_cols semantic_id spec check_geometry
    validateBodyRows rest (i + 1) context num_cols semantic_id spec check_geometry
      (row_count + 1) (cell_count + cells)

/-- `_validate_table_body`: returns (row_count, cell_count). -/
def _validate_table_body (body : JVal) (body_idx : Nat) (num_cols : Nat)
    (semantic_id spec : String) (check_geometry : Bool) :
    Except ValidationError (Nat × Nat) := do
  if !body.isObj then
    throw { message := "TableBody[" ++ toString body_idx ++ "] must be an object",
            code := some "VAL_PANDOC_TABLEBODY_TYPE",
            semantic_id := some semantic_id, spec := some spec }
  if jNodeType body ≠ "TableBody" then
    throw { message := "Expected TableBody, got " ++ jNodeType body,
            code := some "VAL_PANDOC_TABLEBODY_WRONG_TYPE",
            semantic_id := some semantic_id, spec := some spec }
  match body.get "c" with
  | some (.arr l) =>
    if h4 : l.length ≥ 4 then do
      let (rc1, cc1) ← match l.get ⟨2, by omega⟩ with
        | .arr irows =>
          validateBodyRows irows 0 ("TableBody[" ++ toString body_idx ++ "].intermediate")
            num_cols semantic_id spec check_geometry 0 0
        | _ => pure (0, 0)
      let (rc2, cc2) ← match l.get ⟨3, by omega⟩ with
        | .arr brows =>
          validateBodyRows brows 0 ("TableBody[" ++ toString body_idx ++ "]")
            num_cols semantic_id spec check_geometry 0 0
        | _ => pure (0, 0)
      pure (rc1 + rc2, cc1 + cc2)
    else
      throw { message := "Invalid TableBody[" ++ toString body_idx ++ "] structure",
              code := some "VAL_PANDOC_TABLEBODY_STRUCTURE",
              semantic_id := some semantic_id, spec := some spec,
              hint := some "TableBody.c should be [Attr, RowHeadColumns, [Row], [Row]]" }
  | _ =>
    throw { message := "Invalid TableBody[" ++ toString body_idx ++ "] structure",
            code := some "VAL_PANDOC_TABLEBODY_STRUCTURE",
            semantic_id := some semantic_id, spec := some spec,
            hint := some "TableBody.c should be [Attr, RowHeadColumns, [Row], [Row]]" }

/-- Body loop of `_validate_table_structure`. -/
def validateTableBodies (bodies : List JVal) (i : Nat) (num_cols : Nat)
    (semantic_id spec : String) (check_geometry : Bool)
    (total_rows total_cells : Nat) : Except ValidationError (Nat × Nat) := do
  match bodies with
  | [] => pure (total_rows, total_cells)
  | body :: rest => do
    let (rows, cells) ← _validate_table_body body i num_cols semantic_id spec check_geometry
    validateTableBodies rest (i + 1) num_cols semantic_id spec check_geometry
      (total_rows + rows) (total_cells + cells)

/-- Counting pass over TableHead/TableFoot rows in `_validate_table_structure`
(`section.get("c", [None, []])[1]`, then rows and their cell lists are
counted).  At this point the section has already been structurally
validated, so the defensive `isinstance` checks of the source are mirrored
by the corresponding pattern matches. -/
def countSectionRowsCells (sectionV : JVal) : Nat × Nat :=
  match sectionV with
  | .obj fields =>
    match jLookup "c" fields with
    | some (.arr l) =>
      match l[1]? with
      | some (JVal.arr rows) =>
        (rows.length,
          (rows.map (fun row =>
            match row with
            | .obj rf =>
              match jLookup "c" rf with
              | some (.arr rl) =>
                match rl[1]? with
                | some (JVal.arr cells) => cells.length
                | _ => 0
              | _ => 0
            | _ => 0)).sum)
      | _ => (0, 0)
    | _ => (0, 0)
  | _ => (0, 0)

/-- `_validate_table_structure`: column count, head/bodies/foot validation,
row/cell totals and size limits. -/
def _validate_table_structure (content : List JVal) (semantic_id spec : String)
    (limits : Option ResolutionLimits) (check_geometry : Bool)
    (h6 : content.length ≥ 6) : Except ValidationError Unit := do
  let col_specs := content.get ⟨2, by omega⟩
  let table_head := content.get ⟨3, by omega⟩
  let table_bodies := content.get ⟨4, by omega⟩
  let table_foot := content.get ⟨5, by omega⟩
  let num_cols ← match col_specs with
    | .arr cs => pure cs.length
    | _ =>
      throw { message := "Table ColSpecs must be an array",
              code := some "VAL_PANDOC_COLSPECS_TYPE",
              semantic_id := some semantic_id, spec := some spec }
  if num_cols = 0 then
    throw { message := "Table must have at least one column",
            code := some "VAL_PANDOC_NO_COLUMNS",
            semantic_id := some semantic_id, spec := some spec }
  _validate_table_section table_head "TableHead" num_cols semantic_id spec check_geometry
  let bodies ← match table_bodies with
    | .arr bs => pure bs
    | _ =>
      throw { message := "Table bodies must be an array",
              code := some "VAL_PANDOC_BODIES_TYPE",
              semantic_id := some semantic_id, spec := some spec }
  let (body_rows, body_cells) ←
    validateTableBodies bodies 0 num_cols semantic_id spec check_geometry 0 0
  _validate_table_section table_foot "TableFoot" num_cols semantic_id spec check_geometry
  let (head_rows, head_cells) := countSectionRowsCells table_head
  let (foot_rows, foot_cells) := countSectionRowsCells table_foot
  let total_rows := body_rows + head_rows + foot_rows
  let total_cells := body_cells + head_cells + foot_cells
  match limits with
  | none => pure ()
  | some lim => do
    if num_cols > lim.max_table_cols then
      throw { message := "Table exceeds max columns (" ++ toString num_cols
                ++ " > " ++ toString lim.max_table_cols ++ ")",
              code := some "VAL_PANDOC_EXCEEDS_MAX_COLS",
              semantic_id := some semantic_id, spec := some spec }
    if total_rows > lim.max_table_rows then
      throw { message := "Table exceeds max rows (" ++ toString total_rows
                ++ " > " ++ toString lim.max_table_rows ++ ")",
              code := some "VAL_PANDOC_EXCEEDS_MAX_ROWS",
              semantic_id := some semantic_id, spec := some spec }
    if total_cells > lim.max_table_cells then
      throw { message := "Table exceeds max cells (" ++ toString total_cells
                ++ " > " ++ toString lim.max_table_cells ++ ")",
              code := some "VAL_PANDOC_EXCEEDS_MAX_CELLS",
              semantic_id := some semantic_id, spec := some spec }

/-- `validator.table_pandoc_v1.validate_table_pandoc_v1`
(`validator/table_pandoc_v1.py`): full safety + structure validation of a
`table.pandoc.json@v1` payload.  `allow_raw` comes from
`config.allow_raw_pandoc` (default `false`), the limits from
`config.limits`. -/
def validate_table_pandoc_v1 (payload : JVal) (semantic_id : String)
    (config : Option ResolutionConfig := none)
    (allow_nested_tables : Bool := false)
    (allow_figures_in_cells : Bool := false)
    (allow_images_in_cells : Bool := true)
    (check_geometry : Bool := true) : Except ValidationError Unit := do
  let spec := "table.pandoc.json@v1"
  let allow_raw := match config with
    | some c => c.allow_raw_pandoc
    | none => false
  let limits := config.map (fun c => c.limits)
  if !payload.isObj then
    throw { message := "Pandoc table payload must be an object",
            code := some "VAL_PANDOC_NOT_OBJECT",
            semantic_id := some semantic_id, spec := some spec }
  if jNodeType payload ≠ "Table" then
    throw { message := "Expected Table block, got " ++ jNodeType payload,
            code := some "VAL_PANDOC_NOT_TABLE",
            semantic_id := some semantic_id, spec := some spec }
  let content ← match payload.get "c" with
    | some (.arr l) =>
      if l.length < 6 then
        throw { message := "Invalid Table structure (expected 6-element array)",
                code := some "VAL_PANDOC_TABLE_STRUCTURE",
                semantic_id := some semantic_id, spec := some spec,
                hint := some "Table.c should be [Attr, Caption, ColSpecs, TableHead, [TableBody], TableFoot]" }
      else pure l
    | _ =>
      throw { message := "Invalid Table structure (expected 6-element array)",
              code := some "VAL_PANDOC_TABLE_STRUCTURE",
              semantic_id := some semantic_id, spec := some spec,
              hint := some "Table.c should be [Attr, Caption, ColSpecs, TableHead, [TableBody], TableFoot]" }
  -- Build allowed type sets from the flags
  let allowed_block_types := SAFE_BLOCK_TYPES
    ++ (if allow_nested_tables then ["Table"] else [])
    ++ (if allow_figures_in_cells then ["Figure"] else [])
    ++ (if allow_raw then ["RawBlock"] else [])
  let allowed_inline_types :=
    (if allow_images_in_cells then SAFE_INLINE_TYPES
     else SAFE_INLINE_TYPES.filter (fun t => t ≠ "Image"))
    ++ (if allow_raw then ["RawInline"] else [])
  -- Walk the entire payload with the safety callback
  walk_pandoc payload
    (safety_check allowed_block_types allowed_inline_types semantic_id spec)
    semantic_id .BLOCK "Table" 0
  -- Validate table structure
  if h6 : content.length ≥ 6 then
    _validate_table_structure content semantic_id spec limits check_geometry h6
  else
    pure ()

/-- Python `needle in hay` on strings. -/
def listHasSub (needle : List Char) : List Char → Bool
  | [] => decide (needle = [])
  | c :: rest => needle.isPrefixOf (c :: rest) || listHasSub needle rest

/-- `"://" in uri` and friends. -/
def strContainsSub (hay needle : String) : Bool :=
  listHasSub needle.toList hay.toList

/-- External Python runtime services, passed explicitly: `hashlib.sha256`
hexdigests (over file bytes and over UTF-8 encoded strings), the
filesystem (`open`/`Path.exists`; `none` = file does not exist),
`json.load`, and `format(x, ".15g")` float formatting. -/
structure PyEnv where
  sha256hex : List Nat → String
  strSha256hex : String → String
  readFile : String → Option (List Nat)
  parseJson : List Nat → Option JVal
  format15g : PyFloat → String

/-- `resolver.registry.RegistryEntry`. -/
structure RegistryEntry where
  id : String
  artifact_type : String
  format : String
  spec : String
  uri : String
  sha256 : String
  origin_producer : String
  meta_uri : Option String := none
  meta_sha256 : Option String := none
  meta_spec : Option String := none
deriving DecidableEq, Repr

/-- `resolver.registry.RegistrySnapshot`; the `entries` dict (semantic id →
entry, unique keys enforced at load time) is modelled as a finite-map
function, and `_base_path` as a path string. -/
structure RegistrySnapshot where
  registry_version : String
  generated_at : String
  artifact_root : String
  base_path : String
  entries : String → Option RegistryEntry

/-- `RegistrySnapshot.resolve_uri`: absolute URIs (leading `/` or containing
`://`) pass through; otherwise resolve against `artifact_root`, itself
absolute or relative to the registry file's directory.  `pathlib`'s `/` is
modelled as string concatenation with `/`. -/
def RegistrySnapshot.resolve_uri (reg : RegistrySnapshot) (uri : String) : String :=
  if pyStartsWith uri "/" || strContainsSub uri "://" then uri
  else
    (if pyStartsWith reg.artifact_root "/" then reg.artifact_root
     else reg.base_path ++ "/" ++ reg.artifact_root) ++ "/" ++ uri

/-- `RegistrySnapshot.resolve_entry_path`. -/
def RegistrySnapshot.resolve_entry_path (reg : RegistrySnapshot)
    (entry : RegistryEntry) : String :=
  reg.resolve_uri entry.uri

/-- `RegistrySnapshot.resolve_meta_path`. -/
def RegistrySnapshot.resolve_meta_path (reg : RegistrySnapshot)
    (entry : RegistryEntry) : Option String :=
  entry.meta_uri.map reg.resolve_uri

/-- The resolution error hierarchy of `resolver/errors.py` flattened into one
sum: `RegistryError`, `PlaceholderError`, `PayloadError`,
`HashMismatchError` (a `PayloadError` carrying expected/actual),
`KindMismatchError`, `ValidationError`, plus `pyError` for exceptions the
source would let escape (e.g. `FileNotFoundError`, `KeyError`). -/
inductive ResolutionErr where
  | registryError (message : String) (semantic_id : Option String)
  | placeholderError (message : String) (semantic_id : Option String)
  | payloadError (message : String) (semantic_id : Option String) (path : Option String)
  | hashMismatch (semantic_id : String) (expected : String) (actual : String) (path : Option String)
  | kindMismatch (semantic_id : String) (wrapper_kind : String) (registry_type : String)
  | validationErr (e : ValidationError)
  | pyError (message : String)
deriving DecidableEq, Repr

/-- `RegistrySnapshot.get`: entry lookup, `RegistryError` when missing. -/
def RegistrySnapshot.get (reg : RegistrySnapshot) (semantic_id : String) :
    Except ResolutionErr RegistryEntry :=
  match reg.entries semantic_id with
  | none => .error (.registryError
      ("Missing registry entry for \x27" ++ semantic_id ++ "\x27") (some semantic_id))
  | some e => .ok e

/-- `resolver.loaders.base.compute_sha256`: SHA-256 over the file bytes,
rendered as `"sha256:<hex>"`.  (A missing file would raise an uncaught
`FileNotFoundError` in the source; callers below check existence where the
source does.) -/
def compute_sha256 (env : PyEnv) (path : String) : Option String :=
  (env.readFile path).map (fun bytes => "sha256:" ++ env.sha256hex bytes)

/-- `resolver.loaders.base.verify_hash`: compare the computed digest to the
expected one, raising `HashMismatchError{expected, actual}` on mismatch. -/
def verify_hash (env : PyEnv) (path : String) (expected : String)
    (semantic_id : String) : Except ResolutionErr Unit :=
  match env.readFile path with
  | none => .error (.pyError ("FileNotFoundError: " ++ path))
  | some bytes =>
    let actual := "sha256:" ++ env.sha256hex bytes
    if actual ≠ expected then
      .error (.hashMismatch semantic_id expected actual (some path))
    else
      .ok ()

/-- `resolver.loaders.base.load_json_file`: existence check, then JSON
parse; failures raise `PayloadError`.  (The source interpolates the
`json.JSONDecodeError` text into the message; the parse model carries no
such text.) -/
def load_json_file (env : PyEnv) (path : String) (semantic_id : String) :
    Except ResolutionErr JVal :=
  match env.readFile path with
  | none => .error (.payloadError ("Payload file not found: " ++ path)
      (some semantic_id) (some path))
  | some bytes =>
    match env.parseJson bytes with
    | none => .error (.payloadError "Invalid JSON in payload"
        (some semantic_id) (some path))
    | some j => .ok j

/-- `resolver.loaders.metric_v1.load_metric_v1`: spec tag check, path
resolution, optional hash verification (before any parsing), then JSON
load. -/
def load_metric_v1 (env : PyEnv) (registry : RegistrySnapshot)
    (entry : RegistryEntry) (verify : Bool := true) :
    Except ResolutionErr JVal := do
  if entry.spec ≠ "metric.json@v1" then
    throw (.payloadError
      ("Expected spec \x27metric.json@v1\x27, got \x27" ++ entry.spec ++ "\x27")
      (some entry.id) none)
  let path := registry.resolve_entry_path entry
  if verify then
    verify_hash env path entry.sha256 entry.id
  load_json_file env path entry.id

/-- `resolver.loaders.table_simple_v1.load_table_simple_v1`. -/
def load_table_simple_v1 (env : PyEnv) (registry : RegistrySnapshot)
    (entry : RegistryEntry) (verify : Bool := true) :
    Except ResolutionErr JVal := do
  if entry.spec ≠ "table.simple.json@v1" then
    throw (.payloadError
      ("Expected spec \x27table.simple.json@v1\x27, got \x27" ++ entry.spec ++ "\x27")
      (some entry.id) none)
  let path := registry.resolve_entry_path entry
  if verify then
    verify_hash env path entry.sha256 entry.id
  load_json_file env path entry.id

/-- `resolver.loaders.table_pandoc_v1.load_table_pandoc_v1`: also checks the
payload is a Pandoc `Table` block. -/
def load_table_pandoc_v1 (env : PyEnv) (registry : RegistrySnapshot)
    (entry : RegistryEntry) (verify : Bool := true) :
    Except ResolutionErr JVal := do
  if entry.spec ≠ "table.pandoc.json@v1" then
    throw (.payloadError
      ("Expected spec \x27table.pandoc.json@v1\x27, got \x27" ++ entry.spec ++ "\x27")
      (some entry.id) none)
  let path := registry.resolve_entry_path entry
  if verify then
    verify_hash env path entry.sha256 entry.id
  let data ← load_json_file env path entry.id
  if jNodeType data ≠ "Table" then
    throw (.payloadError
      ("Expected Pandoc Table block, got type \x27" ++ jNodeType data ++ "\x27")
      (some entry.id) (some path))
  pure data

/-- `ALLOWED_FORMATS` for figures. -/
def ALLOWED_FORMATS : List String :=
  ["image.png", "image.jpg", "image.jpeg", "image.webp", "image.svg", "image.pdf"]

/-- `resolver.loaders.figure_v1.load_figure_v1`: format allow-list before
any I/O, existence check, optional hash verification; returns the path. -/
def load_figure_v1 (env : PyEnv) (registry : RegistrySnapshot)
    (entry : RegistryEntry) (verify : Bool := true) :
    Except ResolutionErr String := do
  if entry.spec ≠ "figure.binary@v1" then
    throw (.payloadError
      ("Expected spec \x27figure.binary@v1\x27, got \x27" ++ entry.spec ++ "\x27")
      (some entry.id) none)
  if entry.format ∉ ALLOWED_FORMATS then
    throw (.payloadError
      ("Figure format \x27" ++ entry.format ++ "\x27 not allowed")
      (some entry.id) none)
  let path := registry.resolve_entry_path entry
  if (env.readFile path).isNone then
    throw (.payloadError ("Figure file not found: " ++ path)
      (some entry.id) (some path))
  if verify then
    verify_hash env path entry.sha256 entry.id
  pure path

/-- `resolver.loaders.figure_v1.load_figure_meta_v1`: optional sidecar
metadata. -/
def load_figure_meta_v1 (env : PyEnv) (registry : RegistrySnapshot)
    (entry : RegistryEntry) (verify : Bool := true) :
    Except ResolutionErr (Option JVal) := do
  match entry.meta_uri with
  | none => pure none
  | some _ => do
    if entry.meta_spec ≠ some "figure.meta.json@v1" then
      throw (.payloadError
        ("Expected meta_spec \x27figure.meta.json@v1\x27")
        (some entry.id) none)
    match registry.resolve_meta_path entry with
    | none =>
      throw (.payloadError "Figure metadata file not found" (some entry.id) none)
    | some path => do
      if (env.readFile path).isNone then
        throw (.payloadError ("Figure metadata file not found: " ++ path)
          (some entry.id) (some path))
      if verify && entry.meta_sha256.isSome then
        verify_hash env path (entry.meta_sha256.getD "") entry.id
      let j ← load_json_file env path entry.id
      pure (some j)

/-- `resolver.validators.figure_v1.validate_figure_meta_v1`. -/
def validate_figure_meta_v1 (payload : Option JVal) (semantic_id : String) :
    Except ValidationError Unit := do
  let spec := "figure.meta.json@v1"
  match payload with
  | none => pure ()
  | some p => do
    if !p.isObj then
      throw { message := "Figure metadata must be an object",
              code := some "VAL_FIGURE_NOT_OBJECT",
              semantic_id := some semantic_id, spec := some spec }
    match p.get "caption" with
    | none => pure ()
    | some .null => pure ()
    | some c =>
      if !c.isStr then
        throw { message := "Figure.caption must be a string when present",
                code := some "VAL_FIGURE_CAPTION_TYPE",
                semantic_id := some semantic_id, spec := some spec }
    match p.get "alt" with
    | none => pure ()
    | some .null => pure ()
    | some a =>
      if !a.isStr then
        throw { message := "Figure.alt must be a string when present",
                code := some "VAL_FIGURE_ALT_TYPE",
                semantic_id := some semantic_id, spec := some spec }
    match p.get "notes" with
    | none => pure ()
    | some .null => pure ()
    | some nv =>
      match nv with
      | .arr notes =>
        for q in notes.enum do
          if !q.2.isStr then
            throw { message := "Figure.notes[" ++ toString q.1 ++ "] must be a string",
                    code := some "VAL_FIGURE_NOTES_ITEM_TYPE",
                    semantic_id := some semantic_id, spec := some spec,
                    hint := some "All items in notes array must be strings" }
      | _ =>
        throw { message := "Figure.notes must be an array when present",
                code := some "VAL_FIGURE_NOTES_TYPE",
                semantic_id := some semantic_id, spec := some spec }
    match p.get "meta" with
    | none => pure ()
    | some .null => pure ()
    | some m =>
      if !m.isObj then
        throw { message := "Figure.meta must be an object when present",
                code := some "VAL_FIGURE_META_TYPE",
                semantic_id := some semantic_id, spec := some spec }

/-- Pandoc `Attr`: `[identifier, [classes], [[key, val], ...]]` (spec §6:
wrapper = identifier + class-list + ordered key/value attribute-list). -/
structure Attr where
  id : String
  classes : List String
  kvs : List (String × String)
deriving DecidableEq, Repr

/-- Inline nodes of the document tree, with one constructor per inline type
the embedded pipeline code branches on, and `other` for the remaining
Pandoc inline types (whose content no embedded function inspects). -/
inductive Inl where
  | str (s : String)
  | space
  | softBreak
  | lineBreak
  | emph (xs : List Inl)
  | underline (xs : List Inl)
  | strong (xs : List Inl)
  | strikeout (xs : List Inl)
  | superscript (xs : List Inl)
  | subscript (xs : List Inl)
  | smallCaps (xs : List Inl)
  | code (attr : Attr) (text : String)
  | link (attr : Attr) (xs : List Inl) (target : String × String)
  | image (attr : Attr) (xs : List Inl) (target : String × String)
  | span (attr : Attr) (xs : List Inl)
  | other (tag : String)
deriving Repr

/-- Block nodes of the document tree (the normalized tree the planner and
filters operate on).  `Div` carries its full `[Attr, [Block]]` content;
`Table` and `Figure` blocks keep their entire JSON value (payload-shaped
content the filters never descend into); `other` covers the remaining
block types, whose content no embedded function inspects. -/
inductive Blk where
  | div (attr : Attr) (content : List Blk)
  | plain (inls : List Inl)
  | para (inls : List Inl)
  | codeBlock (attr : Attr) (text : String)
  | header (level : Int) (attr : Attr) (inls : List Inl)
  | bulletList (items : List (List Blk))
  | orderedList (listAttrs : JVal) (items : List (List Blk))
  | blockQuote (content : List Blk)
  | table (j : JVal)
  | figure (j : JVal)
  | other (tag : String)
deriving Repr

/-- The document AST: `{"blocks": [...]}` (the `meta` key, which no embedded
function reads or writes, is not modelled). -/
structure DocAst where
  blocks : List Blk
deriving Repr

/-- `block.get("t")` on a typed block. -/
def Blk.tag : Blk → String
  | .div _ _ => "Div"
  | .plain _ => "Plain"
  | .para _ => "Para"
  | .codeBlock _ _ => "CodeBlock"
  | .header _ _ _ => "Header"
  | .bulletList _ => "BulletList"
  | .orderedList _ _ => "OrderedList"
  | .blockQuote _ => "BlockQuote"
  | .table _ => "Table"
  | .figure _ => "Figure"
  | .other t => t

/-- `resolver.placeholders.Placeholder`. -/
structure Placeholder where
  kind : String
  token : String
deriving DecidableEq, Repr

/-- The `PLACEHOLDERS` table: recognised placeholder tokens. -/
def placeholderLookup (text : String) : Option Placeholder :=
  if text = "[[COMPUTED:METRIC]]" then some ⟨"METRIC", text⟩
  else if text = "[[COMPUTED:TABLE]]" then some ⟨"TABLE", text⟩
  else if text = "[[COMPUTED:FIGURE]]" then some ⟨"FIGURE", text⟩
  else none

/-- `KIND_TO_ARTIFACT_TYPE.get(k, "")`. -/
def KIND_TO_ARTIFACT_TYPE (k : String) : String :=
  if k = "METRIC" then "metric"
  else if k = "TABLE" then "table"
  else if k = "FIGURE" then "figure"
  else ""

/-- `ARTIFACT_TYPE_TO_KIND.get(t, "")`. -/
def ARTIFACT_TYPE_TO_KIND (t : String) : String :=
  if t = "metric" then "METRIC"
  else if t = "table" then "TABLE"
  else if t = "figure" then "FIGURE"
  else ""

/-- Text extraction loop of `extract_placeholder_text`: `Str` contributes
its text, `Space`/`SoftBreak` are ignored, any other inline type makes the
block a non-placeholder (`None`). -/
def extractTextParts : List Inl → Option (List String)
  | [] => some []
  | .str s :: rest => (extractTextParts rest).map (fun parts => s :: parts)
  | .space :: rest => extractTextParts rest
  | .softBreak :: rest => extractTextParts rest
  | _ => none

/-- `resolver.placeholders.extract_placeholder_text`: a placeholder-only
block is a `Para` whose inlines join (whitespace-stripped) to a non-empty
token string. -/
def extract_placeholder_text (block : Blk) : Option String :=
  match block with
  | .para [] => none
  | .para inls =>
    match extractTextParts inls with
    | none => none
    | some parts =>
      let text := pyStrip (String.join parts)
      if text = "" then none else some text
  | _ => none

/-- `resolver.placeholders.is_placeholder_block`. -/
def is_placeholder_block (block : Blk) : Option Placeholder :=
  match extract_placeholder_text block with
  | none => none
  | some text => placeholderLookup text

/-- `resolver.placeholders.find_placeholders_in_blocks`: all placeholder
blocks with their indices. -/
def find_placeholders_in_blocks (blocks : List Blk) : List (Placeholder × Nat) :=
  (blocks.enum.filterMap (fun p =>
    (is_placeholder_block p.2).map (fun ph => (ph, p.1))))

/-- `resolver.plan.ResolutionItem`. -/
structure ResolutionItem where
  semantic_id : String
  entry : RegistryEntry
  wrapper_index : Nat
  placeholder_index : Nat
  placeholder : Placeholder
deriving DecidableEq, Repr

/-- `resolver.plan.ResolutionPlan`. -/
structure ResolutionPlan where
  items : List ResolutionItem
deriving DecidableEq, Repr

/-- `resolver.plan._get_div_id`: the identifier of a `Div` block, `None`
when absent or empty. -/
def _get_div_id (block : Blk) : Option String :=
  match block with
  | .div a _ => if a.id ≠ "" then some a.id else none
  | _ => none

/-- `resolver.plan._get_div_attrs` as `dict` lookup material. -/
def _get_div_attrs (block : Blk) : List (String × String) :=
  match block with
  | .div a _ => a.kvs
  | _ => []

/-- `_get_div_attrs(div).get(key, "")` (dict semantics: last binding wins). -/
def getDivAttrD (block : Blk) (key : String) : String :=
  (lookupLast key (_get_div_attrs block)).getD ""

/-- `resolver.plan._get_div_content`. -/
def _get_div_content (block : Blk) : List Blk :=
  match block with
  | .div _ c => c
  | _ => []

/-- `resolver.plan._is_computed_wrapper`. -/
def _is_computed_wrapper (block : Blk) : Bool :=
  getDivAttrD block "role" = "computed"

/-- The per-block loop of `resolver.plan.build_plan`. -/
def buildPlanAux (blocks : List Blk) (wrapper_idx : Nat)
    (registry : RegistrySnapshot) (config : ResolutionConfig)
    (items : List ResolutionItem) :
    Except ResolutionErr (List ResolutionItem) :=
  match blocks with
  | [] => .ok items
  | block :: rest =>
    if block.tag ≠ "Div" then
      buildPlanAux rest (wrapper_idx + 1) registry config items
    else if !_is_computed_wrapper block then
      buildPlanAux rest (wrapper_idx + 1) registry config items
    else
      match _get_div_id block with
      | none => buildPlanAux rest (wrapper_idx + 1) registry config items
      | some semantic_id =>
        let wrapper_kind := getDivAttrD block "kind"
        let content := _get_div_content block
        let placeholders := find_placeholders_in_blocks content
        match placeholders with
        | [] =>
          .error (.placeholderError "No placeholder found in computed wrapper"
            (some semantic_id))
        | (placeholder, placeholder_idx) :: [] =>
          -- Registry lookup; a missing entry is skipped in non-strict mode
          (match registry.get semantic_id with
           | .error e =>
             if config.strict || config.is_strict_target then .error e
             else buildPlanAux rest (wrapper_idx + 1) registry config items
           | .ok entry =>
             -- Compatibility: registry artifact_type vs placeholder kind
             let expected_kind := ARTIFACT_TYPE_TO_KIND entry.artifact_type
             if placeholder.kind ≠ expected_kind then
               .error (.kindMismatch semantic_id wrapper_kind entry.artifact_type)
             else
               buildPlanAux rest (wrapper_idx + 1) registry config
                 (items ++ [{ semantic_id, entry, wrapper_index := wrapper_idx,
                              placeholder_index := placeholder_idx, placeholder }]))
        | _ :: _ :: _ =>
          .error (.placeholderError
            ("Multiple placeholders found in computed wrapper ("
              ++ toString placeholders.length ++ ")")
            (some semantic_id))

/-- `resolver.plan.build_plan`: find all computed wrapper Divs among the
top-level blocks, enforce the exactly-one-placeholder rule, match against
the registry and check kind compatibility. -/
def build_plan (ast : DocAst) (registry : RegistrySnapshot)
    (config : ResolutionConfig) : Except ResolutionErr ResolutionPlan :=
  (buildPlanAux ast.blocks 0 registry config []).map (fun items => ⟨items⟩)

/-- `pandoc_builders.make_str`. -/
def make_str (text : String) : JVal :=
  .obj [("t", .str "Str"), ("c", .str text)]

/-- `pandoc_builders.make_space`. -/
def make_space : JVal :=
  .obj [("t", .str "Space")]

/-- Python `text.split()`: split on whitespace runs, no empty parts. -/
def pySplitWs (text : String) : List String :=
  pySplitWsAux text.toList

/-- `pandoc_builders.make_inlines_from_text`: words separated by `Space`
nodes. -/
def make_inlines_from_text (text : String) : List JVal :=
  match pySplitWs text with
  | [] => []
  | w :: ws => make_str w :: ws.flatMap (fun w' => [make_space, make_str w'])

/-- `pandoc_builders.make_para`. -/
def make_para (inlines : List JVal) : JVal :=
  .obj [("t", .str "Para"), ("c", .arr inlines)]

/-- `pandoc_builders.make_plain`. -/
def make_plain (inlines : List JVal) : JVal :=
  .obj [("t", .str "Plain"), ("c", .arr inlines)]

/-- `pandoc_builders.make_attr`. -/
def make_attr (identifier : String := "") (classes : List String := [])
    (attrs : List (String × String) := []) : JVal :=
  .arr [.str identifier, .arr (classes.map JVal.str),
        .arr (attrs.map (fun p => .arr [.str p.1, .str p.2]))]

/-- `pandoc_builders.make_table_cell`. -/
def make_table_cell (content : List JVal) (align : String := "AlignDefault")
    (row_span : Int := 1) (col_span : Int := 1) : JVal :=
  .arr [make_attr, .obj [("t", .str align)], .int row_span, .int col_span,
        .arr content]

/-- `pandoc_builders.make_row`. -/
def make_row (cells : List JVal) : JVal :=
  .arr [make_attr, .arr cells]

/-- `pandoc_builders.make_table_head`. -/
def make_table_head (rows : List JVal) : JVal :=
  .arr [make_attr, .arr rows]

/-- `pandoc_builders.make_table_body`. -/
def make_table_body (rows : List JVal) : JVal :=
  .arr [make_attr, .int 0, .arr [], .arr rows]

/-- `pandoc_builders.make_table_foot`. -/
def make_table_foot : JVal :=
  .arr [make_attr, .arr []]

/-- `pandoc_builders.make_col_spec`. -/
def make_col_spec (align : String := "AlignDefault")
    (width : String := "ColWidthDefault") : JVal :=
  .arr [.obj [("t", .str align)], .obj [("t", .str width)]]

/-- `pandoc_builders.make_caption`. -/
def make_caption (text : Option String := none) : JVal :=
  match text with
  | some t =>
    if t ≠ "" then .arr [.null, .arr [make_para (make_inlines_from_text t)]]
    else .arr [.null, .arr []]
  | none => .arr [.null, .arr []]

/-- `pandoc_builders.make_table`: complete Table block (as its JSON value;
it enters the typed tree as `Blk.table`). -/
def make_table (col_specs : List JVal) (head_rows : List JVal)
    (body_rows : List JVal) (caption_text : Option String := none) : JVal :=
  .obj [("t", .str "Table"),
        ("c", .arr [make_attr, make_caption caption_text, .arr col_specs,
                    make_table_head head_rows, .arr [make_table_body body_rows],
                    make_table_foot])]

/-- `emitters.metric_v1._format_metric_value`: deterministic value
formatting (`str` for ints, `.15g` for floats), optional `{value}`/`{unit}`
format template.  Branches the source would crash on (non-string labels,
units or formats — unreachable for validated payloads) raise `pyError`. -/
def _format_metric_value (env : PyEnv) (payload : JVal) :
    Except ResolutionErr String := do
  let value ← match payload.get "value" with
    | some v => pure v
    | none => throw (.pyError "KeyError: value")
  let unitJ := (payload.get "unit").getD (.str "")
  let fmtJ := payload.get "format"
  let value_str ← match value with
    | .int n => pure (toString n)
    | .bool b => pure (if b then "True" else "False")
    | .float f => pure (env.format15g f)
    | _ => throw (.pyError "TypeError: unsupported format value")
  -- `if fmt:` — a non-empty format string
  match fmtJ with
  | some (.str fmt) =>
    if fmt ≠ "" then do
      let unitStr ← match unitJ with
        | .str u => pure u
        | _ => throw (.pyError "TypeError: replace expects str")
      let result := pyReplace (pyReplace fmt "\x7bvalue\x7d" value_str) "\x7bunit\x7d" unitStr
      pure (pyStrip result)
    else
      match unitJ with
      | .str "" => pure value_str
      | .str u => pure (value_str ++ " " ++ u)
      | .null => pure value_str
      | _ => throw (.pyError "TypeError: unmodelled unit rendering")
  | some .null | none =>
    match unitJ with
    | .str "" => pure value_str
    | .str u => pure (value_str ++ " " ++ u)
    | .null => pure value_str
    | _ => throw (.pyError "TypeError: unmodelled unit rendering")
  | some _ => throw (.pyError "AttributeError: replace on non-str format")

/-- `emitters.metric_v1.emit_metric_as_table`: a metric payload becomes a
2-column (Metric/Value), 1-row Pandoc table. -/
def emit_metric_as_table (env : PyEnv) (payload : JVal) :
    Except ResolutionErr Blk := do
  let label ← match payload.get "label" with
    | some (.str s) => pure s
    | some _ => throw (.pyError "TypeError: non-string label")
    | none => throw (.pyError "KeyError: label")
  let value_str ← _format_metric_value env payload
  let col_specs := [make_col_spec "AlignLeft", make_col_spec "AlignRight"]
  let header_row := make_row [
    make_table_cell [make_plain (make_inlines_from_text "Metric")],
    make_table_cell [make_plain (make_inlines_from_text "Value")]]
  let data_row := make_row [
    make_table_cell [make_plain (make_inlines_from_text label)],
    make_table_cell [make_plain (make_inlines_from_text value_str)]]
  pure (.table (make_table col_specs [header_row] [data_row] none))

/-- `emitters.table_simple_v1._format_cell_value`: `None` → `""`, booleans
→ `"true"`/`"false"`, ints via `str`, floats via `.15g`, strings as-is
(`str(value)`); other shapes are unreachable for validated payloads. -/
def _format_cell_value (env : PyEnv) (value : JVal) :
    Except ResolutionErr String :=
  match value with
  | .null => pure ""
  | .bool b => pure (if b then "true" else "false")
  | .int n => pure (toString n)
  | .float f => pure (env.format15g f)
  | .str s => pure s
  | _ => throw (.pyError "unmodelled str() rendering")

/-- Header-cell construction of `emit_simple_table` for one column. -/
def simpleTableHeaderCell (col : JVal) : Except ResolutionErr JVal := do
  let key ← match col.get "key" with
    | some (.str k) => pure k
    | some _ => throw (.pyError "TypeError: non-string key")
    | none => throw (.pyError "KeyError: key")
  let label ← match col.get "label" with
    | some (.str l) => pure l
    | some .null => throw (.pyError "TypeError: None label")
    | some _ => throw (.pyError "TypeError: non-string label")
    | none => pure key
  let unitOpt := col.get "unit"
  let label' ← match unitOpt with
    | some (.str u) => pure (if u ≠ "" then label ++ " (" ++ u ++ ")" else label)
    | some .null | none => pure label
    | some _ => throw (.pyError "TypeError: unmodelled unit rendering")
  pure (make_table_cell [make_plain (make_inlines_from_text label')])

/-- Body-cell construction of `emit_simple_table` for one column of one
row (`value = row_data.get(key)`). -/
def simpleTableBodyCell (env : PyEnv) (row_data col : JVal) :
    Except ResolutionErr JVal := do
  let key ← match col.get "key" with
    | some (.str k) => pure k
    | some _ => throw (.pyError "TypeError: non-string key")
    | none => throw (.pyError "KeyError: key")
  let value := (row_data.get key).getD .null
  let value_str ← _format_cell_value env value
  pure (make_table_cell [make_plain (make_inlines_from_text value_str)])

/-- `emitters.table_simple_v1.emit_simple_table`: generic table from the
declared columns and rows. -/
def emit_simple_table (env : PyEnv) (payload : JVal) :
    Except ResolutionErr Blk := do
  let columns ← match payload.get "columns" with
    | some (.arr cs) => pure cs
    | some _ => throw (.pyError "TypeError: non-list columns")
    | none => throw (.pyError "KeyError: columns")
  let rows ← match payload.get "rows" with
    | some (.arr rs) => pure rs
    | some _ => throw (.pyError "TypeError: non-list rows")
    | none => throw (.pyError "KeyError: rows")
  let caption ← match payload.get "caption" with
    | some (.str c) => pure (some c)
    | some .null | none => pure none
    | some _ => throw (.pyError "TypeError: unmodelled caption rendering")
  let col_specs := columns.map (fun _ => make_col_spec)
  let header_cells ← columns.mapM simpleTableHeaderCell
  let header_row := make_row header_cells
  let body_rows ← rows.mapM (fun row_data => do
    let cells ← columns.mapM (simpleTableBodyCell env row_data)
    pure (make_row cells))
  pure (.table (make_table col_specs [header_row] body_rows caption))

/-- `emitters.table_pandoc_v1.emit_pandoc_table`: pass-through — the
validated payload (a Pandoc `Table` block) is spliced unchanged. -/
def emit_pandoc_table (payload : JVal) : Blk :=
  .table payload

/-- `emitters.figure_v1.emit_figure`: captioned `Figure` block wrapping an
`Image` inline, caption/alt sourced from the sidecar metadata. -/
def emit_figure (image_path : String) (meta : Option JVal)
    (semantic_id : String := "") : Except ResolutionErr Blk := do
  let captionJ := match meta with
    | some m => m.getD "caption" (.str "")
    | none => .str ""
  let altJ := match meta with
    | some m => m.getD "alt" (.str "")
    | none => .str ""
  let alt_inlines ← match altJ with
    | .str "" => pure ([] : List JVal)
    | .str a => pure (make_inlines_from_text a)
    | .null => pure ([] : List JVal)
    | _ => throw (.pyError "TypeError: unmodelled alt rendering")
  let image_inline : JVal :=
    .obj [("t", .str "Image"),
          ("c", .arr [make_attr, .arr alt_inlines,
                      .arr [.str image_path, .str ""]])]
  let caption ← match captionJ with
    | .str "" => pure (JVal.arr [.null, .arr []])
    | .str c => pure (JVal.arr [.null, .arr [make_para (make_inlines_from_text c)]])
    | .null => pure (JVal.arr [.null, .arr []])
    | _ => throw (.pyError "TypeError: unmodelled caption rendering")
  pure (.figure (.obj [("t", .str "Figure"),
    ("c", .arr [make_attr semantic_id ["figure"], caption,
                .arr [make_para [image_inline]]])]))

/-- `resolver.apply._resolve_item`: load → validate → emit for one plan
item; every loader is called with `verify=config.strict`. -/
def _resolve_item (env : PyEnv) (item : ResolutionItem)
    (registry : RegistrySnapshot) (config : ResolutionConfig) :
    Except ResolutionErr Blk := do
  let entry := item.entry
  if entry.spec = "metric.json@v1" then do
    let payload ← load_metric_v1 env registry entry config.strict
    (validate_metric_v1 payload entry.id).mapError .validationErr
    emit_metric_as_table env payload
  else if entry.spec = "table.simple.json@v1" then do
    let payload ← load_table_simple_v1 env registry entry config.strict
    (validate_table_simple_v1 payload entry.id (some config.limits)).mapError .validationErr
    emit_simple_table env payload
  else if entry.spec = "table.pandoc.json@v1" then do
    let payload ← load_table_pandoc_v1 env registry entry config.strict
    (validate_table_pandoc_v1 payload entry.id (some config)).mapError .validationErr
    pure (emit_pandoc_table payload)
  else if entry.spec = "figure.binary@v1" then do
    let image_path ← load_figure_v1 env registry entry config.strict
    let meta ← load_figure_meta_v1 env registry entry config.strict
    (validate_figure_meta_v1 meta entry.id).mapError .validationErr
    emit_figure image_path meta entry.id
  else
    throw (.payloadError ("Unknown payload spec: " ++ entry.spec)
      (some entry.id) none)

/-- `resolver.apply._replace_placeholder_in_wrapper`: replace the block at
the placeholder index inside the wrapper Div's content (no-op when out of
range or not a Div, as in the source's defensive checks). -/
def _replace_placeholder_in_wrapper (wrapper : Blk) (placeholder_idx : Nat)
    (replacement : Blk) : Blk :=
  match wrapper with
  | .div a content =>
    if placeholder_idx < content.length then
      .div a (content.set placeholder_idx replacement)
    else
      .div a content
  | b => b

/-- `resolver.apply.apply_plan`: resolve each plan item in order and splice
the emitted block at the recorded wrapper/placeholder position (operating
on a copy of the input tree). -/
def apply_plan (env : PyEnv) (ast : DocAst) (plan : ResolutionPlan)
    (registry : RegistrySnapshot) (config : ResolutionConfig) :
    Except ResolutionErr DocAst :=
  plan.items.foldlM (fun (acc : DocAst) item => do
    let replacement ← _resolve_item env item registry config
    match acc.blocks[item.wrapper_index]? with
    | some wrapper =>
      pure ⟨acc.blocks.set item.wrapper_index
        (_replace_placeholder_in_wrapper wrapper item.placeholder_index replacement)⟩
    | none => pure acc) ast

/-- Generic Python `dict.get` over a key/value list (last binding wins). -/
def dictGet {α : Type} (key : String) : List (String × α) → Option α
  | [] => none
  | (k, v) :: rest =>
    match dictGet key rest with
    | some r => some r
    | none => if k = key then some v else none

/-- `filters.config.PresentationThresholds` (source defaults). -/
structure PresentationThresholds where
  pdf_code_max_lines : Nat := 50
  pdf_code_max_chars : Nat := 3000
  pdf_code_preview_lines : Nat := 5
  appendix_threshold_blocks : Nat := 5
  appendix_threshold_chars : Nat := 2000
  html_fold_threshold_blocks : Nat := 5
  html_fold_threshold_chars : Nat := 2000
deriving DecidableEq, Repr

/-- `filters.config.AppendixOptions` (`anchorPref` is the source's anchor
prefix field). -/
structure AppendixOptions where
  title : String := "Appendix"
  anchorPref : String := "appendix"
deriving DecidableEq, Repr

/-- `filters.config.FilterConfig` with the source's defaults; the dicts
become key/value lists, the frozensets become lists used for membership. -/
structure FilterConfig where
  visibility_order : List (String × Int) :=
    [("internal", 0), ("external", 1), ("dossier", 2)]
  forbidden_policies : List (String × List String) :=
    [("internal", []),
     ("external", ["internal-only", "draft", "wip"]),
     ("dossier", ["internal-only", "draft", "wip", "verbose"])]
  strip_attrs_external : List String :=
    ["producer", "run_id", "dataset_fingerprint", "config_fingerprint",
     "artifact_uri", "sha256", "source", "schema"]
  strip_attrs_dossier : List String :=
    ["producer", "run_id", "dataset_fingerprint", "config_fingerprint",
     "artifact_uri", "sha256", "source", "schema", "lock", "bind-to"]
  thresholds : PresentationThresholds := {}
  appendix : AppendixOptions := {}
  protected_attrs : List String := ["id", "role", "kind", "visibility", "policies"]
deriving DecidableEq, Repr

/-- `FilterConfig.get_forbidden_policies`. -/
def FilterConfig.get_forbidden_policies (cfg : FilterConfig) (target : String) :
    List String :=
  (dictGet target cfg.forbidden_policies).getD []

/-- `FilterConfig.get_strip_attrs`. -/
def FilterConfig.get_strip_attrs (cfg : FilterConfig) (target : String) :
    List String :=
  if target = "internal" then []
  else if target = "external" then cfg.strip_attrs_external
  else cfg.strip_attrs_dossier

/-- `FilterConfig.get_allowed_visibility_level`. -/
def FilterConfig.get_allowed_visibility_level (cfg : FilterConfig)
    (target : String) : Int :=
  (dictGet target cfg.visibility_order).getD 0

/-- `filters.context.BuildContext` (fields as stored after construction). -/
structure BuildContext where
  build_target : String := "internal"
  render_target : String := "pdf"
  strict : Bool := true
  project_root : String := "."
  artifact_base_url : Option String := none
deriving DecidableEq, Repr

/-- `BuildContext(...)` construction including `__post_init__`: external and
dossier targets force `strict=True` regardless of the requested value. -/
def BuildContext.make (build_target : String := "internal")
    (render_target : String := "pdf") (strict : Bool := true)
    (project_root : String := ".")
    (artifact_base_url : Option String := none) : BuildContext :=
  { build_target, render_target,
    strict :=
      if (build_target = "external" || build_target = "dossier") && !strict
      then true else strict,
    project_root, artifact_base_url }

/-- `filters.report.FilterReportEntry`. -/
structure FilterReportEntry where
  semantic_id : String
  action : String
  reason_code : String
  message : Option String := none
  path : Option String := none
  details : Option (List (String × JVal)) := none
deriving Repr

/-- `filters.report.FilterReport`: ordered list of entries. -/
structure FilterReport where
  entries : List FilterReportEntry := []
deriving Repr

/-- `FilterReport.merge`: concatenation preserving order. -/
def FilterReport.merge (a b : FilterReport) : FilterReport :=
  ⟨a.entries ++ b.entries⟩

/-- `filters.utils.wrappers.is_semantic_wrapper`: a `Div` with a non-empty
identifier (the structural length checks of the source always hold on
typed blocks). -/
def is_semantic_wrapper (block : Blk) : Bool :=
  match block with
  | .div a _ => a.id ≠ ""
  | _ => false

/-- `filters.utils.wrappers.get_wrapper_id`. -/
def get_wrapper_id (block : Blk) : Option String :=
  match block with
  | .div a _ => if a.id ≠ "" then some a.id else none
  | _ => none

/-- `filters.utils.wrappers.get_wrapper_attr` (via the attrs dict, last
binding wins). -/
def get_wrapper_attr (block : Blk) (key : String) : Option String :=
  match block with
  | .div a _ => lookupLast key a.kvs
  | _ => none

/-- `filters.utils.wrappers.get_visibility`: the `visibility` attribute,
`"internal"` when absent (or empty — Python `or`). -/
def get_visibility (block : Blk) : String :=
  match get_wrapper_attr block "visibility" with
  | some v => if v = "" then "internal" else v
  | none => "internal"

/-- `[p.strip() for p in s.split(",") if p.strip()]`. -/
def splitPolicies (s : String) : List String :=
  ((pySplitOnChar ',' s).map pyStrip).filter (fun p => p ≠ "")

/-- `filters.utils.wrappers.get_policies`: comma-separated `policies`
attribute values followed by the Div's classes. -/
def get_policies (block : Blk) : List String :=
  (match get_wrapper_attr block "policies" with
   | some pa => if pa ≠ "" then splitPolicies pa else []
   | none => []) ++
  (match block with
   | .div a _ => a.classes
   | _ => [])

/-- `filters.utils.wrappers.is_additional`. -/
def is_additional (block : Blk) : Bool :=
  "additional" ∈ get_policies block
    || get_wrapper_attr block "presentation" = some "additional"

mutual

/-- `filters.utils.wrappers.iter_wrappers` (with `include_nested=True`, as
every pipeline call site uses it): all semantic wrapper Divs in preorder
with their path strings; non-semantic Divs are descended but not
yielded. -/
def iterWrappersAux : List Blk → String → Nat → List (Blk × String)
  | [], _, _ => []
  | b :: bs, pref, i =>
    iterWrapperBlock b (pref ++ "[" ++ toString i ++ "]")
      ++ iterWrappersAux bs pref (i + 1)

/-- The per-block step of `iter_wrappers`: yield a semantic Div, descend
into any Div's content. -/
def iterWrapperBlock : Blk → String → List (Blk × String)
  | .div a content, path =>
    if a.id ≠ "" then
      (Blk.div a content, path) :: iterWrappersAux content (path ++ ".c[1]") 0
    else
      iterWrappersAux content (path ++ ".c[1]") 0
  | _, _ => []

end

/-- `iter_wrappers(ast)`. -/
def iterWrappers (ast : DocAst) : List (Blk × String) :=
  iterWrappersAux ast.blocks "blocks" 0

mutual

/-- Recursive filter of `filters.utils.ast_walk.remove_blocks_by_ids`:
drop blocks whose semantic id is in the set, recurse into every Div's
content. -/
def removeBlocksList (ids : List String) : List Blk → List Blk
  | [] => []
  | b :: bs =>
    match get_wrapper_id b with
    | some i =>
      if ids.contains i then removeBlocksList ids bs
      else removeBlockDescend ids b :: removeBlocksList ids bs
    | none => removeBlockDescend ids b :: removeBlocksList ids bs

/-- The per-block descent of `remove_blocks_by_ids`: rebuild a Div with
its content filtered, leave every other block unchanged. -/
def removeBlockDescend (ids : List String) : Blk → Blk
  | .div a c => .div a (removeBlocksList ids c)
  | x => x

end

/-- `filters.utils.ast_walk.remove_blocks_by_ids`. -/
def remove_blocks_by_ids (ast : DocAst) (ids_to_remove : List String) : DocAst :=
  ⟨removeBlocksList ids_to_remove ast.blocks⟩

/-- Per-wrapper decision of `filters.visibility.filter_visibility`: the id
and report entry for a wrapper whose visibility level is below the
target's. -/
def visibilityHit (cfg : FilterConfig) (ctx : BuildContext)
    (target_level : Int) (p : Blk × String) :
    Option (String × FilterReportEntry) :=
  match get_wrapper_id p.1 with
  | none => none
  | some wrapper_id =>
    let visibility := get_visibility p.1
    let vis_level := (dictGet visibility cfg.visibility_order).getD 0
    if vis_level < target_level then
      some (wrapper_id,
        if visibility = "internal" then
          { semantic_id := wrapper_id, action := "removed",
            reason_code := "VIS_REMOVED_INTERNAL_ONLY",
            message := some ("Wrapper \x27" ++ wrapper_id
              ++ "\x27 removed: internal-only content"),
            path := some p.2,
            details := some [("visibility", .str visibility),
                             ("target", .str ctx.build_target)] }
        else
          { semantic_id := wrapper_id, action := "removed",
            reason_code := "VIS_REMOVED_EXTERNAL_ONLY",
            message := some ("Wrapper \x27" ++ wrapper_id
              ++ "\x27 removed: not visible in " ++ ctx.build_target),
            path := some p.2,
            details := some [("visibility", .str visibility),
                             ("target", .str ctx.build_target)] })
    else none

/-- `filters.visibility.filter_visibility`: remove wrappers whose
visibility level is below the build target's minimum
(internal < external < dossier). -/
def filter_visibility (ast : DocAst) (cfg : FilterConfig)
    (ctx : BuildContext) : DocAst × FilterReport :=
  let target_level := cfg.get_allowed_visibility_level ctx.build_target
  let hits := (iterWrappers ast).filterMap (visibilityHit cfg ctx target_level)
  let ids_to_remove := hits.map Prod.fst
  (if ids_to_remove.isEmpty then ast else remove_blocks_by_ids ast ids_to_remove,
   ⟨hits.map Prod.snd⟩)

/-- Python `sorted` on strings (lexicographic by code point). -/
def sortedStrings (l : List String) : List String :=
  pySorted l

/-- Per-wrapper decision of `filters.policy.filter_policy`. -/
def policyHit (ctx : BuildContext) (forbidden : List String)
    (p : Blk × String) : Option (String × FilterReportEntry) :=
  match get_wrapper_id p.1 with
  | none => none
  | some wrapper_id =>
    let policies := get_policies p.1
    let matching := (policies.filter (fun t => t ∈ forbidden)).dedup
    match sortedStrings matching with
    | [] => none
    | primary_tag :: restTags =>
      some (wrapper_id,
        { semantic_id := wrapper_id, action := "removed",
          reason_code := "POL_REMOVED_TAG:" ++ primary_tag,
          message := some ("Wrapper \x27" ++ wrapper_id
            ++ "\x27 removed: forbidden policy tag(s)"),
          path := some p.2,
          details := some [("matching_policies",
                             .arr ((primary_tag :: restTags).map JVal.str)),
                           ("target", .str ctx.build_target)] })

/-- `filters.policy.filter_policy`: remove wrappers carrying any forbidden
policy tag for the build target. -/
def filter_policy (ast : DocAst) (cfg : FilterConfig) (ctx : BuildContext) :
    DocAst × FilterReport :=
  let forbidden := cfg.get_forbidden_policies ctx.build_target
  if forbidden.isEmpty then (ast, ⟨[]⟩)
  else
    let hits := (iterWrappers ast).filterMap (policyHit ctx forbidden)
    let ids_to_remove := hits.map Prod.fst
    (if ids_to_remove.isEmpty then ast else remove_blocks_by_ids ast ids_to_remove,
     ⟨hits.map Prod.snd⟩)

/-- `filters.utils.wrappers.del_wrapper_attr`: delete the first pair with
the key; returns the new list and whether a pair was deleted. -/
def delFirstAttr (key : String) : List (String × String) →
    List (String × String) × Bool
  | [] => ([], false)
  | kv :: rest =>
    if kv.1 = key then (rest, true)
    else
      let (r, found) := delFirstAttr key rest
      (kv :: r, found)

/-- The per-wrapper strip loop of `filter_metadata_strip`:
`for key in sorted(attrs.keys())`, delete keys in the strip set that are
not protected; returns the new attribute list and the stripped keys (in
sorted order, as reported). -/
def stripDivAttrs (kvs : List (String × String)) (strip_keys : List String)
    (protected_attrs : List String) : List (String × String) × List String :=
  (sortedStrings (kvs.map Prod.fst).dedup).foldl
    (fun (acc : List (String × String) × List String) key =>
      if key ∈ strip_keys ∧ key ∉ protected_attrs then
        let (kvs', found) := delFirstAttr key acc.1
        if found then (kvs', acc.2 ++ [key]) else (acc.1, acc.2)
      else acc)
    (kvs, [])

mutual

/-- Tree walk of `filters.metadata_strip.filter_metadata_strip`: mirrors
`iter_wrappers` preorder, stripping each semantic wrapper's attributes in
place and reporting per wrapper. -/
def stripWalk (cfg : FilterConfig) (ctx : BuildContext)
    (strip_keys : List String) :
    List Blk → String → Nat → List Blk × List FilterReportEntry
  | [], _, _ => ([], [])
  | b :: bs, pref, i =>
    let path := pref ++ "[" ++ toString i ++ "]"
    let (b', es) := stripBlock cfg ctx strip_keys b path
    let (bs', esRest) := stripWalk cfg ctx strip_keys bs pref (i + 1)
    (b' :: bs', es ++ esRest)

/-- The per-block step of `filter_metadata_strip`: strip a semantic Div's
attributes (after recursing into its content), pass other blocks
through. -/
def stripBlock (cfg : FilterConfig) (ctx : BuildContext)
    (strip_keys : List String) :
    Blk → String → Blk × List FilterReportEntry
  | .div a content, path =>
    let (content', esc) := stripWalk cfg ctx strip_keys content (path ++ ".c[1]") 0
    if a.id ≠ "" then
      let (kvs', stripped_keys) := stripDivAttrs a.kvs strip_keys cfg.protected_attrs
      let selfEntries :=
        if stripped_keys ≠ [] then
          [{ semantic_id := a.id, action := "stripped",
             reason_code := "META_STRIP_ATTRS",
             message := some ("Stripped " ++ toString stripped_keys.length
               ++ " attribute(s) from \x27" ++ a.id ++ "\x27"),
             path := some path,
             details := some [("stripped_keys", .arr (stripped_keys.map JVal.str)),
                              ("target", .str ctx.build_target)] }]
        else ([] : List FilterReportEntry)
      (Blk.div { a with kvs := kvs' } content', selfEntries ++ esc)
    else
      (Blk.div a content', esc)
  | x, _ => (x, [])

end

/-- `filters.metadata_strip.filter_metadata_strip`: strip the configured
provenance attributes (never the protected keys) for external/dossier
targets; internal strips nothing. -/
def filter_metadata_strip (ast : DocAst) (cfg : FilterConfig)
    (ctx : BuildContext) : DocAst × FilterReport :=
  let strip_keys := cfg.get_strip_attrs ctx.build_target
  if strip_keys.isEmpty then (ast, ⟨[]⟩)
  else
    let (blocks', entries) := stripWalk cfg ctx strip_keys ast.blocks "blocks" 0
    (⟨blocks'⟩, ⟨entries⟩)

/-- `filters.utils.text_metrics.count_codeblock_lines`. -/
def count_codeblock_lines (block : Blk) : Nat :=
  match block with
  | .codeBlock _ text => if text ≠ "" then text.toList.count '\n' + 1 else 0
  | _ => 0

/-- `filters.utils.text_metrics.count_codeblock_chars`. -/
def count_codeblock_chars (block : Blk) : Nat :=
  match block with
  | .codeBlock _ text => text.length
  | _ => 0

mutual

/-- `filters.utils.text_metrics._estimate_inlines_chars`.  `Image` is not
handled by the source and contributes 0. -/
def estimateInlinesChars : List Inl → Nat
  | [] => 0
  | inl :: rest => estimateInlineChars inl + estimateInlinesChars rest

/-- The per-inline contribution of `_estimate_inlines_chars`. -/
def estimateInlineChars : Inl → Nat
  | .str s => s.length
  | .space => 1
  | .softBreak => 1
  | .lineBreak => 1
  | .emph xs => estimateInlinesChars xs
  | .strong xs => estimateInlinesChars xs
  | .strikeout xs => estimateInlinesChars xs
  | .superscript xs => estimateInlinesChars xs
  | .subscript xs => estimateInlinesChars xs
  | .smallCaps xs => estimateInlinesChars xs
  | .underline xs => estimateInlinesChars xs
  | .link _ xs _ => estimateInlinesChars xs
  | .span _ xs => estimateInlinesChars xs
  | .code _ text => text.length
  | _ => 0

end

mutual

/-- `filters.utils.text_metrics.estimate_block_chars`.  On the positional
`OrderedList` layout `[ListAttributes, [[Block]]]` the source loop finds
no dict blocks to measure (the inner items are lists, not dicts), so an
`OrderedList` always contributes 0; `Figure` is unhandled and
contributes 0; `Table` is the source's fixed rough estimate. -/
def estimate_block_chars (block : Blk) : Nat :=
  match block with
  | .codeBlock a text => count_codeblock_chars (.codeBlock a text)
  | .para inls => estimateInlinesChars inls
  | .plain inls => estimateInlinesChars inls
  | .bulletList items => estimateItemsChars items
  | .orderedList _ _ => 0
  | .div _ content => estimateBlocksChars content
  | .blockQuote content => estimateBlocksChars content
  | .header _ _ inls => estimateInlinesChars inls
  | .table _ => 100
  | _ => 0

/-- Summed `estimate_block_chars` over a block list. -/
def estimateBlocksChars : List Blk → Nat
  | [] => 0
  | b :: bs => estimate_block_chars b + estimateBlocksChars bs

/-- Summed `estimate_block_chars` over a `BulletList`'s items. -/
def estimateItemsChars : List (List Blk) → Nat
  | [] => 0
  | bs :: rest => estimateBlocksChars bs + estimateItemsChars rest

end

/-- `filters.utils.text_metrics.estimate_div_blocks`. -/
def estimate_div_blocks (block : Blk) : Nat :=
  match block with
  | .div _ content => content.length
  | _ => 0

/-- `filters.utils.sectioning.slugify` (ASCII model of `str.lower`). -/
def slugify (text : String) : String :=
  let s := pyStrip (pyLower text)
  -- \s+ → "-" (s is already stripped, so runs are interior)
  let s := String.intercalate "-" (pySplitWsAux s.toList)
  -- remove [^a-z0-9-]
  let s := String.mk (s.toList.filter (fun c =>
    ('a' ≤ c ∧ c ≤ 'z') ∨ c.isDigit ∨ c = '-'))
  -- collapse -+ and strip leading/trailing hyphens
  let collapsed := s.toList.foldl
    (fun (acc : List Char) c =>
      if c = '-' ∧ acc.headD ' ' = '-' then acc else c :: acc)
    []
  String.mk (((collapsed.reverse.dropWhile (fun c => c = '-')).reverse.dropWhile
    (fun c => c = '-')).reverse)

/-- `filters.utils.sectioning.make_anchor_id`. -/
def make_anchor_id (semantic_id : String) (pref : String := "appendix") : String :=
  pref ++ "-" ++ slugify semantic_id

/-- `filters.utils.sectioning.make_header`. -/
def make_header (level : Int) (text : String)
    (anchor_id : Option String := none) : Blk :=
  .header level ⟨anchor_id.getD "", [], []⟩ [.str text]

mutual

/-- `filters.utils.sectioning.extract_text_from_inlines`. -/
def extract_text_from_inlines : List Inl → String
  | [] => ""
  | inl :: rest => extractTextFromInline inl ++ extract_text_from_inlines rest

/-- The per-inline contribution of `extract_text_from_inlines`. -/
def extractTextFromInline : Inl → String
  | .str s => s
  | .space => " "
  | .emph xs => extract_text_from_inlines xs
  | .strong xs => extract_text_from_inlines xs
  | .underline xs => extract_text_from_inlines xs
  | _ => ""

end

/-- `filters.utils.sectioning.find_appendix_index`. -/
def findAppendixIndexAux (blocks : List Blk) (title : String) (i : Nat) :
    Option Nat :=
  match blocks with
  | [] => none
  | b :: bs =>
    match b with
    | .header _ _ inls =>
      if pyLower (pyStrip (extract_text_from_inlines inls)) = pyLower title then some i
      else findAppendixIndexAux bs title (i + 1)
    | _ => findAppendixIndexAux bs title (i + 1)

/-- `find_appendix_index(blocks, title)`. -/
def find_appendix_index (blocks : List Blk) (title : String := "Appendix") :
    Option Nat :=
  findAppendixIndexAux blocks title 0

/-- `filters.utils.sectioning.ensure_appendix_section`.  When an appendix
header already exists the source evaluates `content[0][0]` — `content[0]`
is the header's integer level, so any existing appendix whose level is
truthy (non-zero) raises `TypeError`; a level-0 header falls back to the
fresh anchor id. -/
def ensure_appendix_section (ast : DocAst) (title : String := "Appendix")
    (anchorPref : String := "appendix") :
    Except String (DocAst × Nat × String) :=
  let anchor_id := anchorPref ++ "-section"
  match find_appendix_index ast.blocks title with
  | some existing_idx =>
    match ast.blocks[existing_idx]? with
    | some (.header lvl _ _) =>
      if lvl ≠ 0 then
        .error "TypeError: int object is not subscriptable"
      else
        .ok (ast, existing_idx, anchor_id)
    | _ => .ok (ast, existing_idx, anchor_id)
  | none =>
    let blocks' := ast.blocks ++ [make_header 1 title (some anchor_id)]
    .ok (⟨blocks'⟩, blocks'.length - 1, anchor_id)

/-- `filters.utils.sectioning.append_to_appendix`: appends the subsection
header and the content blocks at the end of the document. -/
def append_to_appendix (ast : DocAst) (_appendix_index : Nat)
    (subsection_title : String) (content_blocks : List Blk)
    (anchor_id : String) : DocAst :=
  ⟨ast.blocks ++ [make_header 2 subsection_title (some anchor_id)] ++ content_blocks⟩

/-- `filters.utils.sectioning.make_stub_para`. -/
def make_stub_para (text : String) (link_text : Option String := none)
    (link_target : Option String := none) : Blk :=
  let base : List Inl := [.str text]
  match link_text, link_target with
  | some lt, some tgt =>
    if lt ≠ "" ∧ tgt ≠ "" then
      .para (base ++ [.space, .link ⟨"", [], []⟩ [.str lt] (tgt, "")])
    else .para base
  | _, _ => .para base

/-- `filters.presentation._make_code_stub`: stub paragraph with a stable
link target derived from the code hash, plus a preview code block. -/
def _make_code_stub (env : PyEnv) (attr : Attr) (code_text : String)
    (cfg : FilterConfig) (ctx : BuildContext) : List Blk :=
  let th := cfg.thresholds
  let code_hash := (env.strSha256hex code_text).take 16
  let link_target := match ctx.artifact_base_url with
    | some u => if u ≠ "" then u ++ "/code_snippets/" ++ code_hash ++ ".txt"
                else "code_snippets/" ++ code_hash ++ ".txt"
    | none => "code_snippets/" ++ code_hash ++ ".txt"
  let stub := make_stub_para "Code snippet omitted from PDF. See:"
    (some link_target) (some link_target)
  if th.pdf_code_preview_lines > 0 then
    let allLines := pySplitOnChar '\n' code_text
    let preview0 := String.intercalate "\n" (allLines.take th.pdf_code_preview_lines)
    let preview := if allLines.length > th.pdf_code_preview_lines then
        preview0 ++ "\n# ... (truncated)"
      else preview0
    [stub, .codeBlock attr preview]
  else
    [stub]

mutual

/-- `filters.presentation._transform_pdf_code_blocks.process_blocks`:
externalize over-threshold code blocks (stub + preview), recursing into
Divs. -/
def pdfCodeWalk (env : PyEnv) (cfg : FilterConfig) (ctx : BuildContext) :
    List Blk → String → Nat → List Blk × List FilterReportEntry
  | [], _, _ => ([], [])
  | b :: bs, pref, i =>
    let (bl, es) := pdfCodeBlockStep env cfg ctx b (pref ++ "[" ++ toString i ++ "]")
    let (bs', esRest) := pdfCodeWalk env cfg ctx bs pref (i + 1)
    (bl ++ bs', es ++ esRest)

/-- The per-block step of `_transform_pdf_code_blocks.process_blocks`. -/
def pdfCodeBlockStep (env : PyEnv) (cfg : FilterConfig) (ctx : BuildContext) :
    Blk → String → List Blk × List FilterReportEntry
  | .codeBlock a code_text, path =>
    let th := cfg.thresholds
    let lines := count_codeblock_lines (.codeBlock a code_text)
    let chars := count_codeblock_chars (.codeBlock a code_text)
    if lines > th.pdf_code_max_lines ∨ chars > th.pdf_code_max_chars then
      let code_hash := (env.strSha256hex code_text).take 8
      (_make_code_stub env a code_text cfg ctx,
       [{ semantic_id := "codeblock-" ++ code_hash, action := "externalized",
          reason_code := "PRES_PDF_CODEBLOCK_EXTERNALIZED",
          message := some ("Code block externalized (" ++ toString lines
            ++ " lines, " ++ toString chars ++ " chars)"),
          path := some path,
          details := some [("lines", .int lines), ("chars", .int chars)] }])
    else ([.codeBlock a code_text], [])
  | .div a content, path =>
    let (content', esc) := pdfCodeWalk env cfg ctx content (path ++ ".c[1]") 0
    ([Blk.div a content'], esc)
  | x, _ => ([x], [])

end

/-- `filters.presentation._transform_pdf_code_blocks`. -/
def _transform_pdf_code_blocks (env : PyEnv) (ast : DocAst)
    (cfg : FilterConfig) (ctx : BuildContext) : DocAst × FilterReport :=
  let (blocks', entries) := pdfCodeWalk env cfg ctx ast.blocks "blocks" 0
  (⟨blocks'⟩, ⟨entries⟩)

mutual

/-- Stub replacement pass of `_transform_pdf_additional_to_appendix`
(`replace_with_stub`). -/
def replaceWithStub (cfg : FilterConfig) (ids : List String) :
    List Blk → List Blk
  | [] => []
  | b :: bs =>
    (match get_wrapper_id b with
     | some bid =>
       if ids.contains bid then
         make_stub_para ("[Moved to " ++ cfg.appendix.title ++ "]")
           (some bid) (some ("#" ++ make_anchor_id bid cfg.appendix.anchorPref))
       else replaceWithStubDescend cfg ids b
     | none => replaceWithStubDescend cfg ids b) :: replaceWithStub cfg ids bs

/-- The per-block descent of `replace_with_stub`. -/
def replaceWithStubDescend (cfg : FilterConfig) (ids : List String) :
    Blk → Blk
  | .div a c => Blk.div a (replaceWithStub cfg ids c)
  | x => x

end

/-- `filters.presentation._transform_pdf_additional_to_appendix`: move
over-threshold "additional" wrappers into a (lazily created) Appendix and
replace them with link stubs. -/
def _transform_pdf_additional_to_appendix (ast : DocAst) (cfg : FilterConfig)
    (ctx : BuildContext) : Except String (DocAst × FilterReport) := do
  let th := cfg.thresholds
  let wrappers_to_move := (iterWrappers ast).filterMap (fun p =>
    match get_wrapper_id p.1 with
    | none => none
    | some wrapper_id =>
      if !is_additional p.1 then none
      else
        let block_count := estimate_div_blocks p.1
        let char_count := estimate_block_chars p.1
        if block_count > th.appendix_threshold_blocks
            ∨ char_count > th.appendix_threshold_chars then
          some (wrapper_id, p.2, p.1)
        else none)
  if wrappers_to_move.isEmpty then
    pure (ast, ⟨[]⟩)
  else do
    let (ast1, appendix_idx, _anchor) ←
      ensure_appendix_section ast cfg.appendix.title cfg.appendix.anchorPref
    let (ast2, ids, entries) := wrappers_to_move.foldl
      (fun (acc : DocAst × List String × List FilterReportEntry) w =>
        let (wrapper_id, path, div) := w
        let anchor_id := make_anchor_id wrapper_id cfg.appendix.anchorPref
        let inner_blocks := _get_div_content div
        let ast' := append_to_appendix acc.1 appendix_idx
          ("Additional: " ++ wrapper_id) inner_blocks anchor_id
        let entry : FilterReportEntry :=
          { semantic_id := wrapper_id, action := "moved_to_appendix",
            reason_code := "PRES_PDF_MOVED_TO_APPENDIX",
            message := some ("Additional content \x27" ++ wrapper_id
              ++ "\x27 moved to Appendix"),
            path := some path,
            details := some [("anchor_id", .str anchor_id)] }
        (ast', acc.2.1 ++ [wrapper_id], acc.2.2 ++ [entry]))
      (ast1, [], [])
    pure (⟨replaceWithStub cfg ids ast2.blocks⟩, ⟨entries⟩)

/-- `_make_foldable`: add the `foldable` class and `data-*` attributes. -/
def _make_foldable (a : Attr) (title : String) : Attr :=
  { a with
    classes := if "foldable" ∈ a.classes then a.classes else a.classes ++ ["foldable"],
    kvs := a.kvs ++ [("data-title", title), ("data-collapsed", "true")] }

mutual

/-- Tree walk of `_transform_html_fold_additional`: fold over-threshold
"additional" wrappers in place (attributes only; content unchanged). -/
def htmlFoldWalk (cfg : FilterConfig) :
    List Blk → String → Nat → List Blk × List FilterReportEntry
  | [], _, _ => ([], [])
  | b :: bs, pref, i =>
    let (b', es) := htmlFoldBlock cfg b (pref ++ "[" ++ toString i ++ "]")
    let (bs', esRest) := htmlFoldWalk cfg bs pref (i + 1)
    (b' :: bs', es ++ esRest)

/-- The per-block step of `_transform_html_fold_additional`. -/
def htmlFoldBlock (cfg : FilterConfig) : Blk → String → Blk × List FilterReportEntry
  | .div a content, path =>
    let th := cfg.thresholds
    let (content', esc) := htmlFoldWalk cfg content (path ++ ".c[1]") 0
    if a.id ≠ "" ∧ is_additional (.div a content) then
      let block_count := estimate_div_blocks (.div a content)
      let char_count := estimate_block_chars (.div a content)
      if block_count > th.html_fold_threshold_blocks
          ∨ char_count > th.html_fold_threshold_chars then
        (Blk.div (_make_foldable a ("Additional: " ++ a.id)) content',
         [{ semantic_id := a.id, action := "folded",
            reason_code := "PRES_HTML_FOLDED",
            message := some ("Additional content \x27" ++ a.id ++ "\x27 folded"),
            path := some path,
            details := some [("blocks", .int block_count),
                             ("chars", .int char_count)] }] ++ esc)
      else (Blk.div a content', esc)
    else (Blk.div a content', esc)
  | x, _ => (x, [])

end

/-- `filters.presentation._transform_html_fold_additional`. -/
def _transform_html_fold_additional (ast : DocAst) (cfg : FilterConfig)
    (_ctx : BuildContext) : DocAst × FilterReport :=
  let (blocks', entries) := htmlFoldWalk cfg ast.blocks "blocks" 0
  (⟨blocks'⟩, ⟨entries⟩)

mutual

/-- Report walk of `_transform_html_fold_code_blocks` (the AST itself is
not modified; the source reuses the PDF code thresholds here). -/
def htmlCodeFoldWalk (env : PyEnv) (cfg : FilterConfig) :
    List Blk → String → Nat → List FilterReportEntry
  | [], _, _ => []
  | b :: bs, pref, i =>
    htmlCodeFoldBlock env cfg b (pref ++ "[" ++ toString i ++ "]")
      ++ htmlCodeFoldWalk env cfg bs pref (i + 1)

/-- The per-block step of `_transform_html_fold_code_blocks`. -/
def htmlCodeFoldBlock (env : PyEnv) (cfg : FilterConfig) :
    Blk → String → List FilterReportEntry
  | .codeBlock a code_text, path =>
    let th := cfg.thresholds
    let lines := count_codeblock_lines (.codeBlock a code_text)
    let chars := count_codeblock_chars (.codeBlock a code_text)
    if lines > th.pdf_code_max_lines ∨ chars > th.pdf_code_max_chars then
      let code_hash := (env.strSha256hex code_text).take 8
      [{ semantic_id := "codeblock-" ++ code_hash, action := "folded",
         reason_code := "PRES_HTML_CODEBLOCK_FOLDED",
         message := some ("Code block folded (" ++ toString lines ++ " lines)"),
         path := some path,
         details := some [("lines", .int lines), ("chars", .int chars)] }]
    else []
  | .div _ content, path => htmlCodeFoldWalk env cfg content (path ++ ".c[1]") 0
  | _, _ => []

end

/-- `filters.presentation._transform_html_fold_code_blocks`. -/
def _transform_html_fold_code_blocks (env : PyEnv) (ast : DocAst)
    (cfg : FilterConfig) (_ctx : BuildContext) : DocAst × FilterReport :=
  (ast, ⟨htmlCodeFoldWalk env cfg ast.blocks "blocks" 0⟩)

/-- `filters.presentation.filter_presentation`: PDF externalization /
appendix relocation, or HTML folding, by render target. -/
def filter_presentation (env : PyEnv) (ast : DocAst) (cfg : FilterConfig)
    (ctx : BuildContext) : Except String (DocAst × FilterReport) := do
  if ctx.render_target = "pdf" then do
    let (a1, code_report) := _transform_pdf_code_blocks env ast cfg ctx
    let (a2, appendix_report) ← _transform_pdf_additional_to_appendix a1 cfg ctx
    pure (a2, (FilterReport.mk []).merge code_report |>.merge appendix_report)
  else if ctx.render_target = "html" then do
    let (a1, fold_report) := _transform_html_fold_additional ast cfg ctx
    let (a2, code_fold_report) := _transform_html_fold_code_blocks env a1 cfg ctx
    pure (a2, (FilterReport.mk []).merge fold_report |>.merge code_fold_report)
  else
    pure (ast, ⟨[]⟩)

/-- `filters.api.apply_filters`: the fixed four-stage pipeline —
visibility, policy, metadata strip, presentation — with the merged,
order-preserving report. -/
def apply_filters (env : PyEnv) (ast : DocAst) (cfg : FilterConfig)
    (ctx : BuildContext) : Except String (DocAst × FilterReport) := do
  let (a1, vis_report) := filter_visibility ast cfg ctx
  let (a2, pol_report) := filter_policy a1 cfg ctx
  let (a3, meta_report) := filter_metadata_strip a2 cfg ctx
  let (a4, pres_report) ← filter_presentation env a3 cfg ctx
  pure (a4, ((((FilterReport.mk []).merge vis_report).merge pol_report).merge
    meta_report).merge pres_report)

/-! Auxiliary definitions used only to state and prove the theorems below
(not part of the source embedding). -/

mutual

/-- All semantic wrapper identifiers of a block forest, in the preorder of
`iter_wrappers`.  The spec's tree invariant "wrapper identifiers are unique
tree-wide" is `(wrapperIds blocks).Nodup`. -/
def wrapperIds : List Blk → List String
  | [] => []
  | b :: bs => wrapperIdsOne b ++ wrapperIds bs

/-- Per-block step of `wrapperIds`. -/
def wrapperIdsOne : Blk → List String
  | .div a content => (if a.id ≠ "" then [a.id] else []) ++ wrapperIds content
  | _ => []

end

/-- The visibility level of a block under a filter configuration (the value
`config.visibility_order.get(get_visibility(div), 0)` the visibility filter
computes per wrapper). -/
def visLevelOf (cfg : FilterConfig) (b : Blk) : Int :=
  (dictGet (get_visibility b) cfg.visibility_order).getD 0

mutual

/-- `(id, visibility level)` of every semantic wrapper in preorder. -/
def wrapperPairs (cfg : FilterConfig) : List Blk → List (String × Int)
  | [] => []
  | b :: bs => wrapperPairsOne cfg b ++ wrapperPairs cfg bs

/-- Per-block step of `wrapperPairs`. -/
def wrapperPairsOne (cfg : FilterConfig) : Blk → List (String × Int)
  | .div a content =>
    (if a.id ≠ "" then [(a.id, visLevelOf cfg (.div a content))] else [])
      ++ wrapperPairs cfg content
  | _ => []

end

mutual

/-- Removal of wrappers by their own visibility level (the semantic content
of `remove_blocks_by_ids` on the collected id set, when ids are unique);
mirrors the recursion structure of `removeBlocksList`. -/
def removeByLevel (cfg : FilterConfig) (L : Int) : List Blk → List Blk
  | [] => []
  | b :: bs =>
    match get_wrapper_id b with
    | some _ =>
      if visLevelOf cfg b < L then removeByLevel cfg L bs
      else removeByLevelDescend cfg L b :: removeByLevel cfg L bs
    | none => removeByLevelDescend cfg L b :: removeByLevel cfg L bs

/-- Per-block descent of `removeByLevel`. -/
def removeByLevelDescend (cfg : FilterConfig) (L : Int) : Blk → Blk
  | .div a c => Blk.div a (removeByLevel cfg L c)
  | x => x

end

mutual

/-- The key/value attribute list of every Div in preorder (used to state
that metadata stripping preserves protected attributes). -/
def divKvsList : List Blk → List (List (String × String))
  | [] => []
  | b :: bs => divKvsOne b ++ divKvsList bs

/-- Per-block step of `divKvsList`. -/
def divKvsOne : Blk → List (List (String × String))
  | .div a content => [a.kvs] ++ divKvsList content
  | _ => []

end

mutual

/-- Whether a JSON payload contains a `RawInline`/`RawBlock` node anywhere
(checker used to exhibit raw content inside a payload). -/
def hasRawNode : JVal → Bool
  | .obj fields =>
    decide (jNodeType (.obj fields) ∈ RAW_TYPES) || hasRawFields fields
  | .arr items => hasRawItems items
  | _ => false

def hasRawItems : List JVal → Bool
  | [] => false
  | v :: rest => hasRawNode v || hasRawItems rest

def hasRawFields : List (String × JVal) → Bool
  | [] => false
  | f :: rest => hasRawNode f.2 || hasRawFields rest

end

/-- An empty Pandoc Attr value. -/
def attr0J : JVal := .arr [.str "", .arr [], .arr []]

/-- `{"t": "AlignDefault"}`. -/
def alignDefaultJ : JVal := .obj [("t", .str "AlignDefault")]

/-- A raw HTML block (`RawBlock`). -/
def c4RawBlock : JVal :=
  .obj [("t", .str "RawBlock"),
        ("c", .arr [.str "html", .str "<script>alert(1)</script>"])]

/-- The raw block hidden inside a node of unrecognised type `"X"`: the
safety walker does not descend into unknown node types, so the raw content
is never visited. -/
def c4HiddenBlock : JVal :=
  .obj [("t", .str "X"), ("c", .arr [c4RawBlock])]

/-- A structurally valid one-cell `table.pandoc.json@v1` payload whose cell
contains the given blocks. -/
def c4TableWith (blocks : List JVal) : JVal :=
  .obj [("t", .str "Table"),
        ("c", .arr [attr0J, .arr [.null, .arr []],
          .arr [.arr [alignDefaultJ, .obj [("t", .str "ColWidthDefault")]]],
          .obj [("t", .str "TableHead"), ("c", .arr [attr0J, .arr []])],
          .arr [.obj [("t", .str "TableBody"),
                ("c", .arr [attr0J, .int 0, .arr [],
                  .arr [.obj [("t", .str "Row"),
                        ("c", .arr [attr0J,
                          .arr [.obj [("t", .str "Cell"),
                                ("c", .arr [attr0J, alignDefaultJ, .int 1,
                                  .int 1, .arr blocks])]]])]]])]],
          .obj [("t", .str "TableFoot"), ("c", .arr [attr0J, .arr []])]])]

/-- The payload with the hidden raw block (validation wrongly passes). -/
def c4Payload : JVal := c4TableWith [c4HiddenBlock]

/-- The payload with the raw block placed directly in the cell (validation
correctly rejects). -/
def c4DirectPayload : JVal := c4TableWith [c4RawBlock]

/-- C6 counterexample: a tree with duplicated wrapper id `"y"` — one
external-level wrapper nested inside an internal-level wrapper, and an
unrelated dossier-level top-level wrapper with the same id. -/
def c6NestedExternal : Blk := .div ⟨"y", [], [("visibility", "external")]⟩ []

def c6InternalWrapper : Blk :=
  .div ⟨"a", [], [("visibility", "internal")]⟩ [c6NestedExternal]

def c6DossierWrapper : Blk := .div ⟨"y", [], [("visibility", "dossier")]⟩ []

def c6DupAst : DocAst := ⟨[c6InternalWrapper, c6DossierWrapper]⟩

/-- Build contexts for the external and dossier targets. -/
def ctxExternal : BuildContext := { build_target := "external" }

def ctxDossier : BuildContext := { build_target := "dossier" }

/-- C6 witness tree: same shape as the counterexample but with unique ids. -/
def c6UniqAst : DocAst :=
  ⟨[.div ⟨"a", [], [("visibility", "internal")]⟩
      [.div ⟨"b", [], [("visibility", "external")]⟩ []],
    .div ⟨"c", [], [("visibility", "dossier")]⟩ []]⟩

/-- A concrete runtime environment for witnesses: constant hash, one-file
filesystem, constant parse result. -/
def c1Env : PyEnv :=
  { sha256hex := fun _ => "h", strSha256hex := fun _ => "",
    readFile := fun _ => some [0], parseJson := fun _ => some (.int 7),
    format15g := fun _ => "" }

/-- Witness registry (entry map unused by the loaders' path resolution). -/
def c1Reg : RegistrySnapshot :=
  { registry_version := "aarc-1.1", generated_at := "t",
    artifact_root := "/root", base_path := "/base", entries := fun _ => none }

/-- Witness entry whose digest matches the environment's. -/
def c1EntryGood : RegistryEntry :=
  { id := "m1", artifact_type := "metric", format := "metric.json",
    spec := "metric.json@v1", uri := "m.json", sha256 := "sha256:h",
    origin_producer := "p" }

/-- Witness entry whose recorded digest differs from the file's. -/
def c1EntryBad : RegistryEntry :=
  { id := "m1", artifact_type := "metric", format := "metric.json",
    spec := "metric.json@v1", uri := "m.json", sha256 := "sha256:other",
    origin_producer := "p" }

/-- C2 witness wrapper: computed, identified, zero placeholder children. -/
def c2Wrapper : Blk := .div ⟨"m0", [], [("role", "computed")]⟩ []

/-- C3 witness wrapper: computed, `kind="table"`, one TABLE placeholder. -/
def c3Wrapper : Blk :=
  .div ⟨"t1", [], [("role", "computed"), ("kind", "table")]⟩
    [.para [.str "[[COMPUTED:TABLE]]"]]

/-- C3 witness registry entry with `artifact_type="metric"`. -/
def c3Entry : RegistryEntry :=
  { id := "t1", artifact_type := "metric", format := "metric.json",
    spec := "metric.json@v1", uri := "t.json", sha256 := "sha256:h",
    origin_producer := "p" }

/-- C3 witness registry mapping `t1` to the metric-typed entry. -/
def c3Reg : RegistrySnapshot :=
  { registry_version := "aarc-1.1", generated_at := "t",
    artifact_root := "/root", base_path := "/base",
    entries := fun sid => if sid = "t1" then some c3Entry else none }

/-- Whether a resolution error is a `HashMismatchError` (the discriminator
used to state that non-strict resolution never hash-fails). -/
def ResolutionErr.isHashMismatch : ResolutionErr → Bool
  | .hashMismatch _ _ _ _ => true
  | _ => false

/-- A resolution outcome free of `HashMismatchError`. -/
def NoHashMismatch {α : Type} (r : Except ResolutionErr α) : Prop :=
  ∀ err, r = .error err → err.isHashMismatch = false

/-- C10 witness metric payload. -/
def c10Payload : JVal := .obj [("label", .str "M"), ("value", .int 1)]

/-- C10 witness environment: hashes to `"h"`, parses to the metric payload. -/
def c10Env : PyEnv :=
  { sha256hex := fun _ => "h", strSha256hex := fun _ => "",
    readFile := fun _ => some [0], parseJson := fun _ => some c10Payload,
    format15g := fun _ => "" }

/-- The table block emitted for the C10 witness payload. -/
def c10Blk : Blk :=
  (emit_metric_as_table c10Env c10Payload).toOption.getD (.other "")

/-- C10 witness plan item: the entry records a digest (`sha256:other`) that
differs from the environment file digest (`sha256:h`). -/
def c10Item : ResolutionItem :=
  { semantic_id := "m1", entry := c1EntryBad, wrapper_index := 0,
    placeholder_index := 0,
    placeholder := ⟨"METRIC", "[[COMPUTED:METRIC]]"⟩ }

/-- C10 entry with an unknown payload spec (drives a non-hash error). -/
def c10BogusEntry : RegistryEntry :=
  { id := "b1", artifact_type := "metric", format := "metric.json",
    spec := "bogus", uri := "b.json", sha256 := "sha256:h",
    origin_producer := "p" }

/-- C10 plan item with the unknown-spec entry. -/
def c10BogusItem : ResolutionItem :=
  { semantic_id := "b1", entry := c10BogusEntry, wrapper_index := 0,
    placeholder_index := 0,
    placeholder := ⟨"METRIC", "[[COMPUTED:METRIC]]"⟩ }

/-- C7 witness: the tree after dossier visibility filtering of
`c6UniqAst`. -/
def c7A1 : DocAst :=
  ⟨[Blk.div { id := "c", classes := [], kvs := [("visibility", "dossier")] } []]⟩

/-- C7 witness: the visibility report for that run. -/
def c7VisReport : FilterReport :=
  ⟨[{ semantic_id := "a", action := "removed",
      reason_code := "VIS_REMOVED_INTERNAL_ONLY",
      message := some "Wrapper \x27a\x27 removed: internal-only content",
      path := some "blocks[0]",
      details := some [("visibility", JVal.str "internal"),
                       ("target", JVal.str "dossier")] },
    { semantic_id := "b", action := "removed",
      reason_code := "VIS_REMOVED_EXTERNAL_ONLY",
      message := some "Wrapper \x27b\x27 removed: not visible in dossier",
      path := some "blocks[0].c[1][0]",
      details := some [("visibility", JVal.str "external"),
                       ("target", JVal.str "dossier")] }]⟩

/-- Projection of a key/value attribute list to the keys in a protected
set (used to state that metadata stripping preserves protected
attributes). -/
def protProj (prot : List String) (kvs : List (String × String)) :
    List (String × String) :=
  kvs.filter (fun kv => decide (kv.1 ∈ prot))

/-! ## Theorems -/

/-- A block that is not an identified computed wrapper is skipped by the
`build_plan` loop. -/
theorem buildPlanAux_skip (b : Blk) (rest : List Blk) (idx : Nat)
    (reg : RegistrySnapshot) (cfg : ResolutionConfig) (acc : List ResolutionItem)
    (h : ¬(_is_computed_wrapper b = true ∧ (_get_div_id b).isSome = true)) :
    buildPlanAux (b :: rest) idx reg cfg acc
      = buildPlanAux rest (idx + 1) reg cfg acc := by
  by_cases ht : b.tag = "Div"
  · by_cases hc : _is_computed_wrapper b = true
    · have hid : _get_div_id b = none := by
        cases hi : _get_div_id b with
        | none => rfl
        | some s => exact absurd ⟨hc, by simp [hi]⟩ h
      simp [buildPlanAux, ht, hc, hid]
    · simp [buildPlanAux, ht, hc]
  · simp [buildPlanAux, ht]

/-- C2: for every top-level wrapper with `role=computed` (and a semantic
identifier — per the glossary a wrapper carries one), if its immediate
children contain zero placeholder-only leaves or more than one,
`build_plan` raises `PlaceholderError` naming the wrapper — for every
registry and configuration, whatever the wrapper's kind, and with any
skipped (non-computed or unidentified) blocks before it. -/
theorem build_plan_placeholder_arity (reg : RegistrySnapshot)
    (cfg : ResolutionConfig) (pre : List Blk) (w : Blk) (rest : List Blk)
    (sid : String)
    (hpre : ∀ b ∈ pre, ¬(_is_computed_wrapper b = true ∧ (_get_div_id b).isSome = true))
    (hcomp : _is_computed_wrapper w = true)
    (hid : _get_div_id w = some sid)
    (hn : (find_placeholders_in_blocks (_get_div_content w)).length ≠ 1) :
    build_plan ⟨pre ++ w :: rest⟩ reg cfg = .error (.placeholderError
      (if (find_placeholders_in_blocks (_get_div_content w)).length = 0 then
        "No placeholder found in computed wrapper"
       else
        "Multiple placeholders found in computed wrapper ("
          ++ toString (find_placeholders_in_blocks (_get_div_content w)).length ++ ")")
      (some sid)) := by
  unfold build_plan
  suffices h : ∀ idx, buildPlanAux (pre ++ w :: rest) idx reg cfg []
      = .error (.placeholderError
        (if (find_placeholders_in_blocks (_get_div_content w)).length = 0 then
          "No placeholder found in computed wrapper"
         else
          "Multiple placeholders found in computed wrapper ("
            ++ toString (find_placeholders_in_blocks (_get_div_content w)).length ++ ")")
        (some sid)) by
    rw [h 0]
    rfl
  induction pre with
  | nil =>
    intro idx
    match w, hcomp, hid with
    | .div a content, hcomp, hid =>
      have htag : (Blk.div a content).tag = "Div" := rfl
      cases hp : find_placeholders_in_blocks content with
      | nil =>
        simp [buildPlanAux, htag, hcomp, hid, _get_div_content, hp]
      | cons x t =>
        cases t with
        | nil => simp [_get_div_content, hp] at hn
        | cons y t2 =>
          simp [buildPlanAux, htag, hcomp, hid, _get_div_content, hp]
  | cons b pre' ih =>
    intro idx
    rw [List.cons_append,
        buildPlanAux_skip b (pre' ++ w :: rest) idx reg cfg []
          (hpre b (List.mem_cons_self b pre'))]
    exact ih (fun b' hb' => hpre b' (List.mem_cons_of_mem b hb')) (idx + 1)

/-- Witness for C2: a computed wrapper with zero placeholders (behind one
skipped block) raises `PlaceholderError` naming it, whatever the registry
holds. -/
theorem build_plan_placeholder_arity_witness :
    build_plan ⟨[Blk.other "Para", c2Wrapper]⟩ c3Reg {} = .error
      (.placeholderError "No placeholder found in computed wrapper" (some "m0")) :=
  build_plan_placeholder_arity c3Reg {} [Blk.other "Para"] c2Wrapper [] "m0"
    (by decide) rfl rfl (by decide)

/-- C3: for every computed wrapper whose registry entry's `artifact_type`
does not map to the placeholder's kind (metric↔METRIC, table↔TABLE,
figure↔FIGURE), `build_plan` raises `KindMismatchError` — for every
configuration, in particular with `strict=false`. -/
theorem build_plan_kind_mismatch (reg : RegistrySnapshot)
    (cfg : ResolutionConfig) (pre : List Blk) (w : Blk) (rest : List Blk)
    (sid : String) (ph : Placeholder) (pidx : Nat) (entry : RegistryEntry)
    (hpre : ∀ b ∈ pre, ¬(_is_computed_wrapper b = true ∧ (_get_div_id b).isSome = true))
    (hcomp : _is_computed_wrapper w = true)
    (hid : _get_div_id w = some sid)
    (hph : find_placeholders_in_blocks (_get_div_content w) = [(ph, pidx)])
    (hentry : reg.entries sid = some entry)
    (hkind : ph.kind ≠ ARTIFACT_TYPE_TO_KIND entry.artifact_type) :
    build_plan ⟨pre ++ w :: rest⟩ reg cfg
      = .error (.kindMismatch sid (getDivAttrD w "kind") entry.artifact_type) := by
  unfold build_plan
  suffices h : ∀ idx, buildPlanAux (pre ++ w :: rest) idx reg cfg []
      = .error (.kindMismatch sid (getDivAttrD w "kind") entry.artifact_type) by
    rw [h 0]
    rfl
  induction pre with
  | nil =>
    intro idx
    match w, hcomp, hid, hph with
    | .div a content, hcomp, hid, hph =>
      have htag : (Blk.div a content).tag = "Div" := rfl
      simp only [List.nil_append]
      simp [buildPlanAux, htag, hcomp, hid, RegistrySnapshot.get, hentry]
      rw [show _get_div_content (Blk.div a content) = content from rfl] at hph ⊢
      rw [hph]
      simp [hkind]
  | cons b pre' ih =>
    intro idx
    rw [List.cons_append,
        buildPlanAux_skip b (pre' ++ w :: rest) idx reg cfg []
          (hpre b (List.mem_cons_self b pre'))]
    exact ih (fun b' hb' => hpre b' (List.mem_cons_of_mem b hb')) (idx + 1)

/-- Witness for C3: a `kind="table"` wrapper with a TABLE placeholder whose
entry has `artifact_type="metric"` raises `KindMismatchError` even with
`strict=false`. -/
theorem build_plan_kind_mismatch_witness :
    build_plan ⟨[c3Wrapper]⟩ c3Reg { strict := false }
      = .error (.kindMismatch "t1" "table" "metric") :=
  build_plan_kind_mismatch c3Reg { strict := false } [] c3Wrapper [] "t1"
    ⟨"TABLE", "[[COMPUTED:TABLE]]"⟩ 0 c3Entry (by decide) rfl rfl rfl rfl
    (by decide)

/-- C1: with verification requested, loading a metric payload whose file
bytes hash to a digest different from the registry entry's `sha256`
raises `HashMismatchError` carrying the expected and actual digests — and
it does so before any parsing (the conclusion holds for every environment,
in particular whatever `parseJson` does); when the digest matches (as it
does whenever the same bytes are re-hashed), the load succeeds and
returns the parsed payload. -/
theorem hash_verification_gate (env : PyEnv) (reg : RegistrySnapshot)
    (entry : RegistryEntry) :
    (∀ bytes : List Nat, entry.spec = "metric.json@v1" →
      env.readFile (reg.resolve_entry_path entry) = some bytes →
      "sha256:" ++ env.sha256hex bytes ≠ entry.sha256 →
      load_metric_v1 env reg entry true = .error (.hashMismatch entry.id
        entry.sha256 ("sha256:" ++ env.sha256hex bytes)
        (some (reg.resolve_entry_path entry))))
    ∧ (∀ (bytes : List Nat) (j : JVal), entry.spec = "metric.json@v1" →
      env.readFile (reg.resolve_entry_path entry) = some bytes →
      "sha256:" ++ env.sha256hex bytes = entry.sha256 →
      env.parseJson bytes = some j →
      load_metric_v1 env reg entry true = .ok j) := by
  constructor
  · intro bytes hspec hread hmis
    unfold load_metric_v1 verify_hash
    rw [hspec]
    simp [hread, hmis]
    rfl
  · intro bytes j hspec hread hmatch hparse
    unfold load_metric_v1 verify_hash load_json_file
    rw [hspec]
    simp [hread, hmatch, hparse]
    rfl

/-- Witness for C1: a mismatching entry fails with both digests recorded, a
matching entry loads successfully. -/
theorem hash_verification_gate_witness :
    load_metric_v1 c1Env c1Reg c1EntryBad true = .error (.hashMismatch "m1"
      "sha256:other" "sha256:h" (some "/root/m.json"))
    ∧ load_metric_v1 c1Env c1Reg c1EntryGood true = .ok (.int 7) :=
  ⟨(hash_verification_gate c1Env c1Reg c1EntryBad).1 [0] rfl rfl (by decide),
   (hash_verification_gate c1Env c1Reg c1EntryGood).2 [0] (.int 7) rfl rfl rfl rfl⟩

/-- C8: constructing a `BuildContext` whose `build_target` is `external` or
`dossier` always yields `strict = true`, regardless of the strict value
requested at construction; for any other target — in particular
`internal` — the requested value is kept. -/
theorem buildContext_strict_forced (bt rt : String) (s : Bool)
    (pr : String) (ab : Option String) :
    (BuildContext.make bt rt s pr ab).strict
      = (if bt = "external" ∨ bt = "dossier" then true else s) := by
  unfold BuildContext.make
  by_cases h1 : bt = "external" <;> by_cases h2 : bt = "dossier" <;>
    cases s <;> simp [h1, h2]

/-- C5: for a metric value and for table cells in columns of declared dtype
`int` or `float`, a boolean raises a `ValidationError` whose code
(`VAL_METRIC_VALUE_BOOL`, `VAL_TABLE_DTYPE_BOOL_AS_INT`,
`VAL_TABLE_DTYPE_BOOL_AS_FLOAT`) is distinct from the generic
type-mismatch codes (`VAL_METRIC_VALUE_TYPE`, `VAL_TABLE_DTYPE_MISMATCH`),
for both `true` and `false`; the boolean check precedes any numeric
acceptance (a boolean does pass the numeric `isinstance` checks, yet the
boolean-specific error is raised). -/
theorem boolean_guard_distinct_codes :
    (∀ (payload : JVal) (sid lbl : String) (b : Bool),
        payload.isObj = true →
        payload.get "label" = some (.str lbl) → pyStrip lbl ≠ "" →
        payload.get "value" = some (.bool b) →
        validate_metric_v1 payload sid = .error
          { message := "Metric.value must be a number, not a boolean",
            code := some "VAL_METRIC_VALUE_BOOL", semantic_id := some sid,
            spec := some "metric.json@v1",
            hint := some "Use a numeric value (int or float), not True/False" })
    ∧ (∀ (i : Nat) (key sid spec : String) (b : Bool),
        _validate_cell_dtype (.bool b) "int" i key sid spec = .error
          { message := "Table.rows[" ++ toString i ++ "]." ++ key
              ++ ": expected int, got bool",
            code := some "VAL_TABLE_DTYPE_BOOL_AS_INT",
            semantic_id := some sid, spec := some spec,
            hint := some "Use integer value, not True/False" }
        ∧ _validate_cell_dtype (.bool b) "float" i key sid spec = .error
          { message := "Table.rows[" ++ toString i ++ "]." ++ key
              ++ ": expected float, got bool",
            code := some "VAL_TABLE_DTYPE_BOOL_AS_FLOAT",
            semantic_id := some sid, spec := some spec,
            hint := some "Use numeric value, not True/False" })
    ∧ (∀ (sid : String) (b : Bool),
        validate_table_simple_v1
          (.obj [("columns", .arr [.obj [("key", .str "k"), ("dtype", .str "int")]]),
                 ("rows", .arr [.obj [("k", .bool b)]])]) sid = .error
          { message := "Table.rows[0].k: expected int, got bool",
            code := some "VAL_TABLE_DTYPE_BOOL_AS_INT",
            semantic_id := some sid, spec := some "table.simple.json@v1",
            hint := some "Use integer value, not True/False" }
        ∧ validate_table_simple_v1
          (.obj [("columns", .arr [.obj [("key", .str "k"), ("dtype", .str "float")]]),
                 ("rows", .arr [.obj [("k", .bool b)]])]) sid = .error
          { message := "Table.rows[0].k: expected float, got bool",
            code := some "VAL_TABLE_DTYPE_BOOL_AS_FLOAT",
            semantic_id := some sid, spec := some "table.simple.json@v1",
            hint := some "Use numeric value, not True/False" })
    ∧ (∀ b : Bool, JVal.isInstInt (.bool b) = true ∧ JVal.isInstNum (.bool b) = true)
    ∧ ("VAL_METRIC_VALUE_BOOL" ≠ "VAL_METRIC_VALUE_TYPE"
       ∧ "VAL_TABLE_DTYPE_BOOL_AS_INT" ≠ "VAL_TABLE_DTYPE_MISMATCH"
       ∧ "VAL_TABLE_DTYPE_BOOL_AS_FLOAT" ≠ "VAL_TABLE_DTYPE_MISMATCH") := by
  refine ⟨?_, ?_, ?_, ?_, ?_⟩
  · intro payload sid lbl b hobj hlbl hne hval
    unfold validate_metric_v1
    rw [hobj, hlbl, hval]
    simp [hne, JVal.isBool]
    rfl
  · intro i key sid spec b
    exact ⟨rfl, rfl⟩
  · intro sid b
    exact ⟨rfl, rfl⟩
  · intro b
    exact ⟨rfl, rfl⟩
  · refine ⟨by decide, by decide, by decide⟩

/-- Witness for C5 at concrete inputs (both boolean values). -/
theorem boolean_guard_distinct_codes_witness :
    validate_metric_v1 (.obj [("label", .str "Accuracy"), ("value", .bool true)])
      "m1" = .error
        { message := "Metric.value must be a number, not a boolean",
          code := some "VAL_METRIC_VALUE_BOOL", semantic_id := some "m1",
          spec := some "metric.json@v1",
          hint := some "Use a numeric value (int or float), not True/False" }
    ∧ validate_metric_v1 (.obj [("label", .str "Accuracy"), ("value", .bool false)])
      "m1" = .error
        { message := "Metric.value must be a number, not a boolean",
          code := some "VAL_METRIC_VALUE_BOOL", semantic_id := some "m1",
          spec := some "metric.json@v1",
          hint := some "Use a numeric value (int or float), not True/False" } :=
  ⟨boolean_guard_distinct_codes.1
      (.obj [("label", .str "Accuracy"), ("value", .bool true)]) "m1" "Accuracy"
      true rfl rfl (by decide) rfl,
   boolean_guard_distinct_codes.1
      (.obj [("label", .str "Accuracy"), ("value", .bool false)]) "m1" "Accuracy"
      false rfl rfl (by decide) rfl⟩

/-- C4: the claim fails on the code as written: `c4Payload` is a
`table.pandoc.json@v1` payload containing a `RawBlock` at nesting depth
(hidden under a node of unrecognised type `"X"` inside a cell), the
`allow_raw_pandoc` flag defaults to `false`, and yet
`validate_table_pandoc_v1` accepts the payload — the walker, despite its
stated guarantee that "no content can bypass validation by being nested in
untraversed nodes", does not descend into the `"c"` field of node types
outside its dispatch table, so the raw node is never shown to the safety
callback.  The same `RawBlock` placed directly in the cell is rejected
with `VAL_PANDOC_RAWBLOCK_FORBIDDEN`, confirming the check the hidden
node evades. -/
theorem raw_node_escapes_walker :
    hasRawNode c4Payload = true ∧
    ({} : ResolutionConfig).allow_raw_pandoc = false ∧
    validate_table_pandoc_v1 c4Payload "tbl-1" (some {}) = .ok () ∧
    validate_table_pandoc_v1 c4DirectPayload "tbl-1" (some {}) =
      .error { message := "Raw content (RawBlock) not allowed in table payload",
               code := some "VAL_PANDOC_RAWBLOCK_FORBIDDEN",
               semantic_id := some "tbl-1",
               spec := some "table.pandoc.json@v1",
               ast_path := some "Table.c[4][0].c[3][0].c[1][0].c[4][0]",
               hint := some "Set allow_raw_pandoc=True in config to allow raw content" } :=
  ⟨rfl, rfl, rfl, rfl⟩

theorem noHM_pure {α : Type} (a : α) :
    NoHashMismatch (pure a : Except ResolutionErr α) := by
  intro err h
  simp [pure, Except.pure] at h

theorem noHM_ok {α : Type} (a : α) :
    NoHashMismatch (Except.ok a : Except ResolutionErr α) := by
  intro err h
  simp at h

theorem noHM_throw {α : Type} (e : ResolutionErr) (he : e.isHashMismatch = false) :
    NoHashMismatch (throw e : Except ResolutionErr α) := by
  intro err h
  have h' : Except.error e = (Except.error err : Except ResolutionErr α) := h
  cases h'
  exact he

theorem noHM_error {α : Type} (e : ResolutionErr) (he : e.isHashMismatch = false) :
    NoHashMismatch (Except.error e : Except ResolutionErr α) := by
  intro err h
  cases h
  exact he

theorem noHM_bind {α β : Type} {x : Except ResolutionErr α}
    {f : α → Except ResolutionErr β}
    (hx : NoHashMismatch x) (hf : ∀ a, NoHashMismatch (f a)) :
    NoHashMismatch (x >>= f) := by
  intro err h
  cases x with
  | error e =>
    have hx' : (Except.error e : Except ResolutionErr α) >>= f = Except.error e := rfl
    rw [hx'] at h
    cases h
    exact hx _ rfl
  | ok a =>
    have hx' : (Except.ok a : Except ResolutionErr α) >>= f = f a := rfl
    rw [hx'] at h
    exact hf a err h

theorem noHM_ite {α : Type} (c : Prop) [Decidable c]
    {x y : Except ResolutionErr α}
    (hx : NoHashMismatch x) (hy : NoHashMismatch y) :
    NoHashMismatch (if c then x else y) := by
  split
  · exact hx
  · exact hy

theorem noHM_mapError_validation {α : Type} (x : Except ValidationError α) :
    NoHashMismatch (x.mapError ResolutionErr.validationErr) := by
  intro err h
  cases x with
  | error e =>
    have h' : Except.error (ResolutionErr.validationErr e)
        = (Except.error err : Except ResolutionErr α) := h
    cases h'
    rfl
  | ok a => simp [Except.mapError] at h

theorem noHM_mapM {α β : Type} (f : α → Except ResolutionErr β)
    (hf : ∀ a, NoHashMismatch (f a)) :
    ∀ l : List α, NoHashMismatch (l.mapM f) := by
  intro l
  induction l with
  | nil => exact noHM_pure _
  | cons a l ih =>
    rw [List.mapM_cons]
    exact noHM_bind (hf a) (fun b => noHM_bind ih (fun bs => noHM_pure _))

theorem noHM_foldlM {α β : Type} (f : β → α → Except ResolutionErr β)
    (hf : ∀ b a, NoHashMismatch (f b a)) :
    ∀ (l : List α) (init : β), NoHashMismatch (l.foldlM f init) := by
  intro l
  induction l with
  | nil => intro init; exact noHM_pure _
  | cons a l ih =>
    intro init
    rw [List.foldlM_cons]
    exact noHM_bind (hf init a) (fun b => ih b)

theorem noHM_load_json_file (env : PyEnv) (path sid : String) :
    NoHashMismatch (load_json_file env path sid) := by
  intro err h
  unfold load_json_file at h
  split at h
  · cases h; rfl
  · split at h
    · cases h; rfl
    · cases h

theorem noHM_load_metric_false (env : PyEnv) (reg : RegistrySnapshot)
    (entry : RegistryEntry) :
    NoHashMismatch (load_metric_v1 env reg entry false) := by
  unfold load_metric_v1
  dsimp only
  rw [if_neg (by simp : ¬(false = true))]
  split
  · exact noHM_bind (noHM_throw _ rfl)
      (fun y => noHM_bind (noHM_pure _) (fun z => noHM_load_json_file _ _ _))
  · exact noHM_bind (noHM_pure _)
      (fun y => noHM_bind (noHM_pure _) (fun z => noHM_load_json_file _ _ _))

theorem noHM_load_table_simple_false (env : PyEnv) (reg : RegistrySnapshot)
    (entry : RegistryEntry) :
    NoHashMismatch (load_table_simple_v1 env reg entry false) := by
  unfold load_table_simple_v1
  dsimp only
  rw [if_neg (by simp : ¬(false = true))]
  split
  · exact noHM_bind (noHM_throw _ rfl)
      (fun y => noHM_bind (noHM_pure _) (fun z => noHM_load_json_file _ _ _))
  · exact noHM_bind (noHM_pure _)
      (fun y => noHM_bind (noHM_pure _) (fun z => noHM_load_json_file _ _ _))

theorem noHM_load_table_pandoc_false (env : PyEnv) (reg : RegistrySnapshot)
    (entry : RegistryEntry) :
    NoHashMismatch (load_table_pandoc_v1 env reg entry false) := by
  unfold load_table_pandoc_v1
  dsimp only
  rw [if_neg (by simp : ¬(false = true))]
  apply noHM_ite
  · exact noHM_bind (noHM_throw _ rfl) (fun y => noHM_bind (noHM_pure _)
      (fun z => noHM_bind (noHM_load_json_file _ _ _) (fun d =>
        noHM_ite _ (noHM_bind (noHM_throw _ rfl) (fun w => noHM_pure _))
          (noHM_bind (noHM_pure _) (fun w => noHM_pure _)))))
  · exact noHM_bind (noHM_pure _) (fun y => noHM_bind (noHM_pure _)
      (fun z => noHM_bind (noHM_load_json_file _ _ _) (fun d =>
        noHM_ite _ (noHM_bind (noHM_throw _ rfl) (fun w => noHM_pure _))
          (noHM_bind (noHM_pure _) (fun w => noHM_pure _)))))

theorem noHM_load_figure_false (env : PyEnv) (reg : RegistrySnapshot)
    (entry : RegistryEntry) :
    NoHashMismatch (load_figure_v1 env reg entry false) := by
  unfold load_figure_v1
  dsimp only
  repeat' first
  | apply noHM_ite
  | apply noHM_pure
  | exact noHM_load_json_file _ _ _
  | (apply noHM_throw
     rfl)
  | apply noHM_bind
  | intro _

theorem noHM_load_figure_meta_false (env : PyEnv) (reg : RegistrySnapshot)
    (entry : RegistryEntry) :
    NoHashMismatch (load_figure_meta_v1 env reg entry false) := by
  unfold load_figure_meta_v1
  dsimp only
  simp only [Bool.false_and, Bool.false_eq_true, if_false]
  split
  · apply noHM_pure
  · apply noHM_ite <;>
    · apply noHM_bind
      · first
        | (apply noHM_throw
           rfl)
        | apply noHM_pure
      · intro u
        split
        · apply noHM_throw
          rfl
        · apply noHM_ite <;>
          · repeat' first
            | apply noHM_pure
            | exact noHM_load_json_file _ _ _
            | (apply noHM_throw
               rfl)
            | apply noHM_bind
            | intro _

theorem noHM_format_metric (env : PyEnv) (payload : JVal) :
    NoHashMismatch (_format_metric_value env payload) := by
  unfold _format_metric_value
  dsimp only
  repeat' first
  | apply noHM_pure
  | (apply noHM_throw
     rfl)
  | apply noHM_ite
  | apply noHM_bind
  | split
  | intro _

theorem noHM_emit_metric (env : PyEnv) (payload : JVal) :
    NoHashMismatch (emit_metric_as_table env payload) := by
  unfold emit_metric_as_table
  dsimp only
  repeat' first
  | apply noHM_pure
  | exact noHM_format_metric env payload
  | (apply noHM_throw
     rfl)
  | apply noHM_ite
  | apply noHM_bind
  | split
  | intro _

theorem noHM_format_cell (env : PyEnv) (value : JVal) :
    NoHashMismatch (_format_cell_value env value) := by
  unfold _format_cell_value
  split <;> first
  | apply noHM_pure
  | (apply noHM_throw
     rfl)

theorem noHM_header_cell (col : JVal) :
    NoHashMismatch (simpleTableHeaderCell col) := by
  unfold simpleTableHeaderCell
  dsimp only
  repeat' first
  | apply noHM_pure
  | (apply noHM_throw
     rfl)
  | apply noHM_ite
  | apply noHM_bind
  | split
  | intro _

theorem noHM_body_cell (env : PyEnv) (row_data col : JVal) :
    NoHashMismatch (simpleTableBodyCell env row_data col) := by
  unfold simpleTableBodyCell
  dsimp only
  repeat' first
  | apply noHM_pure
  | exact noHM_format_cell env _
  | (apply noHM_throw
     rfl)
  | apply noHM_ite
  | apply noHM_bind
  | split
  | intro _

theorem noHM_emit_simple (env : PyEnv) (payload : JVal) :
    NoHashMismatch (emit_simple_table env payload) := by
  unfold emit_simple_table
  dsimp only
  repeat' first
  | apply noHM_pure
  | exact noHM_mapM _ noHM_header_cell _
  | exact noHM_mapM _ (fun row_data => noHM_bind
      (noHM_mapM _ (noHM_body_cell env row_data) _)
      (fun cells => noHM_pure _)) _
  | (apply noHM_throw
     rfl)
  | apply noHM_ite
  | apply noHM_bind
  | split
  | intro _

theorem noHM_emit_figure (image_path : String) (meta : Option JVal)
    (sid : String) :
    NoHashMismatch (emit_figure image_path meta sid) := by
  unfold emit_figure
  dsimp only
  repeat' first
  | apply noHM_pure
  | (apply noHM_throw
     rfl)
  | apply noHM_ite
  | apply noHM_bind
  | split
  | intro _

theorem noHM_resolve_item (env : PyEnv) (item : ResolutionItem)
    (reg : RegistrySnapshot) (config : ResolutionConfig)
    (hs : config.strict = false) :
    NoHashMismatch (_resolve_item env item reg config) := by
  unfold _resolve_item
  dsimp only
  rw [hs]
  apply noHM_ite
  · exact noHM_bind (noHM_load_metric_false env reg item.entry)
      (fun p => noHM_bind (noHM_mapError_validation _)
        (fun u => noHM_emit_metric env p))
  · apply noHM_ite
    · exact noHM_bind (noHM_load_table_simple_false env reg item.entry)
        (fun p => noHM_bind (noHM_mapError_validation _)
          (fun u => noHM_emit_simple env p))
    · apply noHM_ite
      · exact noHM_bind (noHM_load_table_pandoc_false env reg item.entry)
          (fun p => noHM_bind (noHM_mapError_validation _)
            (fun u => noHM_pure _))
      · apply noHM_ite
        · exact noHM_bind (noHM_load_figure_false env reg item.entry)
            (fun ip => noHM_bind (noHM_load_figure_meta_false env reg item.entry)
              (fun meta => noHM_bind (noHM_mapError_validation _)
                (fun u => noHM_emit_figure ip meta item.entry.id)))
        · apply noHM_throw
          rfl

theorem noHM_apply_plan (env : PyEnv) (ast : DocAst) (plan : ResolutionPlan)
    (reg : RegistrySnapshot) (config : ResolutionConfig)
    (hs : config.strict = false) :
    NoHashMismatch (apply_plan env ast plan reg config) := by
  unfold apply_plan
  apply noHM_foldlM
  intro b a
  dsimp only
  apply noHM_bind
  · exact noHM_resolve_item env a reg config hs
  · intro repl
    split
    · apply noHM_pure
    · apply noHM_pure

theorem except_ok_bind {ε α β : Type} (a : α) (f : α → Except ε β) :
    (Except.ok a >>= f) = f a := rfl

theorem except_error_bind {ε α β : Type} (e : ε) (f : α → Except ε β) :
    ((Except.error e : Except ε α) >>= f) = Except.error e := rfl

theorem c10_part_b (env : PyEnv) (reg : RegistrySnapshot) (item : ResolutionItem)
    (config : ResolutionConfig) (bytes : List Nat)
    (hs : config.strict = true)
    (hspec : item.entry.spec = "metric.json@v1")
    (hread : env.readFile (reg.resolve_entry_path item.entry) = some bytes)
    (hmis : "sha256:" ++ env.sha256hex bytes ≠ item.entry.sha256) :
    _resolve_item env item reg config =
      .error (.hashMismatch item.entry.id item.entry.sha256
        ("sha256:" ++ env.sha256hex bytes)
        (some (reg.resolve_entry_path item.entry))) := by
  have hload : load_metric_v1 env reg item.entry true =
      .error (.hashMismatch item.entry.id item.entry.sha256
        ("sha256:" ++ env.sha256hex bytes)
        (some (reg.resolve_entry_path item.entry))) := by
    unfold load_metric_v1 verify_hash
    rw [hspec]
    simp [hread, hmis]
    rfl
  unfold _resolve_item
  dsimp only
  rw [hs, hspec]
  simp only [if_pos rfl, if_true, hload, except_error_bind]

theorem c10_part_c (env : PyEnv) (reg : RegistrySnapshot) (item : ResolutionItem)
    (config : ResolutionConfig) (bytes : List Nat) (payload : JVal) (blk : Blk)
    (a : Attr) (content : List Blk)
    (hs : config.strict = false)
    (hspec : item.entry.spec = "metric.json@v1")
    (hread : env.readFile (reg.resolve_entry_path item.entry) = some bytes)
    (hmis : "sha256:" ++ env.sha256hex bytes ≠ item.entry.sha256)
    (hparse : env.parseJson bytes = some payload)
    (hval : validate_metric_v1 payload item.entry.id = .ok ())
    (hemit : emit_metric_as_table env payload = .ok blk)
    (hw : item.wrapper_index = 0)
    (hp : item.placeholder_index < content.length) :
    apply_plan env ⟨[.div a content]⟩ ⟨[item]⟩ reg config =
      .ok ⟨[.div a (content.set item.placeholder_index blk)]⟩ := by
  have hload : load_metric_v1 env reg item.entry false = .ok payload := by
    unfold load_metric_v1 load_json_file
    rw [hspec]
    simp [hread, hparse]
  have hres : _resolve_item env item reg config = .ok blk := by
    unfold _resolve_item
    dsimp only
    rw [hs, hspec]
    simp only [if_pos rfl, if_true, hload, except_ok_bind, hval, hemit]
    rfl
  unfold apply_plan
  simp only [List.foldlM_cons, List.foldlM_nil]
  rw [hres, except_ok_bind, hw]
  simp only [List.getElem?_cons_zero]
  unfold _replace_placeholder_in_wrapper
  dsimp only
  rw [if_pos hp]
  rfl







/-- C10: during `apply_plan`, payload hash verification happens exactly when
`config.strict` is true (every loader receives `verify = config.strict`):
(1) with `strict = false` no run of `apply_plan` — whatever the tree, plan,
registry and environment — can fail with `HashMismatchError`; (2) with
`strict = true` a metric plan item whose file bytes hash to a digest other
than the registry entry's `sha256` makes `_resolve_item` fail with
`HashMismatchError` carrying both digests; and (3) with `strict = false`
the same mismatched payload loads, validates, and is spliced into the
wrapper at the placeholder position with no error. -/
theorem strict_gates_hash_verification :
    (∀ (env : PyEnv) (ast : DocAst) (plan : ResolutionPlan)
       (reg : RegistrySnapshot) (config : ResolutionConfig),
       config.strict = false →
       NoHashMismatch (apply_plan env ast plan reg config)) ∧
    (∀ (env : PyEnv) (reg : RegistrySnapshot) (item : ResolutionItem)
       (config : ResolutionConfig) (bytes : List Nat),
       config.strict = true →
       item.entry.spec = "metric.json@v1" →
       env.readFile (reg.resolve_entry_path item.entry) = some bytes →
       "sha256:" ++ env.sha256hex bytes ≠ item.entry.sha256 →
       _resolve_item env item reg config =
         .error (.hashMismatch item.entry.id item.entry.sha256
           ("sha256:" ++ env.sha256hex bytes)
           (some (reg.resolve_entry_path item.entry)))) ∧
    (∀ (env : PyEnv) (reg : RegistrySnapshot) (item : ResolutionItem)
       (config : ResolutionConfig) (bytes : List Nat) (payload : JVal)
       (blk : Blk) (a : Attr) (content : List Blk),
       config.strict = false →
       item.entry.spec = "metric.json@v1" →
       env.readFile (reg.resolve_entry_path item.entry) = some bytes →
       "sha256:" ++ env.sha256hex bytes ≠ item.entry.sha256 →
       env.parseJson bytes = some payload →
       validate_metric_v1 payload item.entry.id = .ok () →
       emit_metric_as_table env payload = .ok blk →
       item.wrapper_index = 0 →
       item.placeholder_index < content.length →
       apply_plan env ⟨[.div a content]⟩ ⟨[item]⟩ reg config =
         .ok ⟨[.div a (content.set item.placeholder_index blk)]⟩) :=
  ⟨noHM_apply_plan, c10_part_b, c10_part_c⟩

theorem strict_gates_hash_verification_witness :
    ResolutionErr.isHashMismatch
      (.payloadError "Unknown payload spec: bogus" (some "b1") none) = false ∧
    _resolve_item c1Env c10Item c1Reg {} =
      .error (.hashMismatch "m1" "sha256:other" "sha256:h"
        (some "/root/m.json")) ∧
    apply_plan c10Env ⟨[.div ⟨"m0", [], [("role", "computed")]⟩ [.para []]]⟩
        ⟨[c10Item]⟩ c1Reg { strict := false } =
      .ok ⟨[.div ⟨"m0", [], [("role", "computed")]⟩ [c10Blk]]⟩ :=
  ⟨strict_gates_hash_verification.1 c10Env ⟨[]⟩ ⟨[c10BogusItem]⟩ c1Reg
      { strict := false } rfl
      (.payloadError "Unknown payload spec: bogus" (some "b1") none) rfl,
   strict_gates_hash_verification.2.1 c1Env c1Reg c10Item {} [0]
      rfl rfl rfl (by decide),
   strict_gates_hash_verification.2.2 c10Env c1Reg c10Item { strict := false }
      [0] c10Payload c10Blk ⟨"m0", [], [("role", "computed")]⟩ [.para []]
      rfl rfl rfl (by decide) rfl rfl rfl rfl (by decide)⟩


/-- C7: the filter pipeline is deterministic — two runs of `apply_filters`
on equal inputs (the embedding of running it on deep copies of the same
tree, config and context) give the same result — and the pipeline report
is exactly the concatenation of the stage reports in stage order:
visibility entries, then policy entries, then metadata-strip entries,
then presentation entries. -/
theorem apply_filters_deterministic :
    (∀ (env : PyEnv) (ast : DocAst) (cfg : FilterConfig) (ctx : BuildContext),
      apply_filters env ast cfg ctx = apply_filters env ast cfg ctx) ∧
    (∀ (env : PyEnv) (ast : DocAst) (cfg : FilterConfig) (ctx : BuildContext)
       (a1 a2 a3 a4 : DocAst) (v p m pr : FilterReport),
      filter_visibility ast cfg ctx = (a1, v) →
      filter_policy a1 cfg ctx = (a2, p) →
      filter_metadata_strip a2 cfg ctx = (a3, m) →
      filter_presentation env a3 cfg ctx = .ok (a4, pr) →
      apply_filters env ast cfg ctx =
        .ok (a4, ⟨v.entries ++ p.entries ++ m.entries ++ pr.entries⟩)) := by
  constructor
  · intro env ast cfg ctx
    rfl
  · intro env ast cfg ctx a1 a2 a3 a4 v p m pr h1 h2 h3 h4
    unfold apply_filters
    rw [h1]
    dsimp only
    rw [h2]
    dsimp only
    rw [h3]
    dsimp only
    rw [h4]
    simp [FilterReport.merge, except_ok_bind]

/-- Witness for C7 at a concrete dossier run with a nonempty visibility
report. -/
theorem apply_filters_deterministic_witness :
    apply_filters c1Env c6UniqAst {} ctxDossier =
      .ok (c7A1, ⟨c7VisReport.entries ++ [] ++ [] ++ []⟩) :=
  apply_filters_deterministic.2 c1Env c6UniqAst {} ctxDossier
    c7A1 c7A1 c7A1 c7A1 c7VisReport ⟨[]⟩ ⟨[]⟩ ⟨[]⟩ (by rfl) (by rfl) (by rfl)
    (by rfl)

theorem delFirstAttr_proj (prot : List String) (key : String)
    (hk : key ∉ prot) :
    ∀ l : List (String × String),
      protProj prot (delFirstAttr key l).1 = protProj prot l
  | [] => rfl
  | kv :: rest => by
    unfold delFirstAttr
    by_cases h : kv.1 = key
    · simp only [if_pos h]
      have hm : kv.1 ∉ prot := by rw [h]; exact hk
      simp [protProj, List.filter_cons, hm]
    · simp only [if_neg h]
      have ih := delFirstAttr_proj prot key hk rest
      cases hd : delFirstAttr key rest with
      | mk r found =>
        rw [hd] at ih
        simp only [protProj, List.filter_cons] at ih ⊢
        by_cases hc : kv.1 ∈ prot <;> simp [hc, ih]

theorem stripFold_proj (prot strip : List String) :
    ∀ (keys : List String) (acc : List (String × String) × List String),
      protProj prot ((keys.foldl
        (fun (acc : List (String × String) × List String) key =>
          if key ∈ strip ∧ key ∉ prot then
            let (kvs', found) := delFirstAttr key acc.1
            if found then (kvs', acc.2 ++ [key]) else (acc.1, acc.2)
          else acc) acc).1) = protProj prot acc.1
  | [], _ => rfl
  | k :: keys, acc => by
    rw [List.foldl_cons]
    rw [stripFold_proj prot strip keys _]
    by_cases h : k ∈ strip ∧ k ∉ prot
    · simp only [if_pos h]
      cases hd : delFirstAttr k acc.1 with
      | mk kvs' found =>
        have hp := delFirstAttr_proj prot k h.2 acc.1
        rw [hd] at hp
        cases found <;> simp [hp]
    · simp only [if_neg h]

theorem stripDivAttrs_proj (prot strip : List String)
    (kvs : List (String × String)) :
    protProj prot (stripDivAttrs kvs strip prot).1 = protProj prot kvs := by
  unfold stripDivAttrs
  exact stripFold_proj prot strip _ (kvs, [])

mutual

theorem stripWalk_proj (cfg : FilterConfig) (ctx : BuildContext)
    (sk : List String) :
    ∀ (bs : List Blk) (pref : String) (i : Nat),
      (divKvsList (stripWalk cfg ctx sk bs pref i).1).map
          (protProj cfg.protected_attrs)
        = (divKvsList bs).map (protProj cfg.protected_attrs)
  | [], _, _ => rfl
  | b :: bs, pref, i => by
    unfold stripWalk
    cases hb : stripBlock cfg ctx sk b (pref ++ "[" ++ toString i ++ "]") with
    | mk b' es =>
      cases hbs : stripWalk cfg ctx sk bs pref (i + 1) with
      | mk bs' esRest =>
        have ih := stripWalk_proj cfg ctx sk bs pref (i + 1)
        rw [hbs] at ih
        have ihb := stripBlock_proj cfg ctx sk b (pref ++ "[" ++ toString i ++ "]")
        rw [hb] at ihb
        dsimp only at ih ihb
        simp only [hb, hbs, divKvsList, List.map_append, ih, ihb]

theorem stripBlock_proj (cfg : FilterConfig) (ctx : BuildContext)
    (sk : List String) :
    ∀ (b : Blk) (path : String),
      (divKvsOne (stripBlock cfg ctx sk b path).1).map
          (protProj cfg.protected_attrs)
        = (divKvsOne b).map (protProj cfg.protected_attrs)
  | .div a content, path => by
    unfold stripBlock
    cases hc : stripWalk cfg ctx sk content (path ++ ".c[1]") 0 with
    | mk content' esc =>
      have ih := stripWalk_proj cfg ctx sk content (path ++ ".c[1]") 0
      rw [hc] at ih
      by_cases hid : a.id ≠ ""
      · simp only [if_pos hid]
        cases hs : stripDivAttrs a.kvs sk cfg.protected_attrs with
        | mk kvs' stripped =>
          have hp := stripDivAttrs_proj cfg.protected_attrs sk a.kvs
          rw [hs] at hp
          simp only [divKvsOne, List.map_cons, List.map_append, ih, hp]
      · simp only [if_neg hid]
        simp [divKvsOne, ih]
  | .plain inls, _ => rfl
  | .para inls, _ => rfl
  | .codeBlock a t, _ => rfl
  | .header l a inls, _ => rfl
  | .bulletList items, _ => rfl
  | .orderedList la items, _ => rfl
  | .blockQuote c, _ => rfl
  | .table j, _ => rfl
  | .figure j, _ => rfl
  | .other t, _ => rfl

end

/-- C9: `filter_metadata_strip` never removes a protected attribute key
from any wrapper — for every tree, build target and configured strip set,
projecting every Div's attribute list to the configured protected keys
(whose default is exactly {id, role, kind, visibility, policies}) gives
the same result before and after the filter — and for
`build_target = "internal"` the filter strips nothing at all, returning
the input tree with an empty report. -/
theorem metadata_strip_preserves_protected :
    (∀ (ast : DocAst) (cfg : FilterConfig) (ctx : BuildContext),
      (divKvsList (filter_metadata_strip ast cfg ctx).1.blocks).map
          (protProj cfg.protected_attrs)
        = (divKvsList ast.blocks).map (protProj cfg.protected_attrs)) ∧
    (({} : FilterConfig).protected_attrs
        = ["id", "role", "kind", "visibility", "policies"]) ∧
    (∀ (ast : DocAst) (cfg : FilterConfig) (ctx : BuildContext),
      ctx.build_target = "internal" →
      filter_metadata_strip ast cfg ctx = (ast, ⟨[]⟩)) := by
  refine ⟨?_, rfl, ?_⟩
  · intro ast cfg ctx
    unfold filter_metadata_strip
    dsimp only
    split
    · rfl
    · cases hw : stripWalk cfg ctx (cfg.get_strip_attrs ctx.build_target)
          ast.blocks "blocks" 0 with
      | mk blocks' entries =>
        have hpw := stripWalk_proj cfg ctx (cfg.get_strip_attrs ctx.build_target)
          ast.blocks "blocks" 0
        rw [hw] at hpw
        dsimp only at hpw ⊢
        simpa [hw] using hpw
  · intro ast cfg ctx h
    unfold filter_metadata_strip FilterConfig.get_strip_attrs
    rw [h]
    simp

/-- Witness for C9 at a concrete dossier run and a concrete internal
run. -/
theorem metadata_strip_preserves_protected_witness :
    ((divKvsList (filter_metadata_strip c6UniqAst {} ctxDossier).1.blocks).map
        (protProj ({} : FilterConfig).protected_attrs)
      = (divKvsList c6UniqAst.blocks).map
          (protProj ({} : FilterConfig).protected_attrs)) ∧
    filter_metadata_strip c6UniqAst {} { build_target := "internal" }
      = (c6UniqAst, ⟨[]⟩) :=
  ⟨metadata_strip_preserves_protected.1 c6UniqAst {} ctxDossier,
   metadata_strip_preserves_protected.2.2 c6UniqAst {}
     { build_target := "internal" } rfl⟩

mutual

theorem wrapperPairs_map_fst (cfg : FilterConfig) :
    ∀ bs : List Blk, (wrapperPairs cfg bs).map Prod.fst = wrapperIds bs
  | [] => rfl
  | b :: bs => by
    simp only [wrapperPairs, wrapperIds, List.map_append,
      wrapperPairsOne_map_fst cfg b, wrapperPairs_map_fst cfg bs]

theorem wrapperPairsOne_map_fst (cfg : FilterConfig) :
    ∀ b : Blk, (wrapperPairsOne cfg b).map Prod.fst = wrapperIdsOne b
  | .div a content => by
    by_cases h : a.id ≠ "" <;>
      simp [wrapperPairsOne, wrapperIdsOne, h, wrapperPairs_map_fst cfg content]
  | .plain _ => rfl
  | .para _ => rfl
  | .codeBlock _ _ => rfl
  | .header _ _ _ => rfl
  | .bulletList _ => rfl
  | .orderedList _ _ => rfl
  | .blockQuote _ => rfl
  | .table _ => rfl
  | .figure _ => rfl
  | .other _ => rfl

end

mutual

theorem hitsIds_aux (cfg : FilterConfig) (ctx : BuildContext) (L : Int) :
    ∀ (bs : List Blk) (pref : String) (i : Nat),
      ((iterWrappersAux bs pref i).filterMap (visibilityHit cfg ctx L)).map
          Prod.fst
        = ((wrapperPairs cfg bs).filter (fun q => decide (q.2 < L))).map
            Prod.fst
  | [], _, _ => rfl
  | b :: bs, pref, i => by
    simp only [iterWrappersAux, wrapperPairs, List.filterMap_append,
      List.filter_append, List.map_append,
      hitsIds_one cfg ctx L b (pref ++ "[" ++ toString i ++ "]"),
      hitsIds_aux cfg ctx L bs pref (i + 1)]

theorem hitsIds_one (cfg : FilterConfig) (ctx : BuildContext) (L : Int) :
    ∀ (b : Blk) (path : String),
      ((iterWrapperBlock b path).filterMap (visibilityHit cfg ctx L)).map
          Prod.fst
        = ((wrapperPairsOne cfg b).filter (fun q => decide (q.2 < L))).map
            Prod.fst
  | .div a content, path => by
    by_cases h : a.id ≠ ""
    · simp only [iterWrapperBlock, wrapperPairsOne, if_pos h]
      rw [List.filterMap_cons]
      have hv : visibilityHit cfg ctx L (Blk.div a content, path) =
          if visLevelOf cfg (.div a content) < L then
            some (a.id,
              if get_visibility (Blk.div a content) = "internal" then
                { semantic_id := a.id, action := "removed",
                  reason_code := "VIS_REMOVED_INTERNAL_ONLY",
                  message := some ("Wrapper \x27" ++ a.id
                    ++ "\x27 removed: internal-only content"),
                  path := some path,
                  details := some [("visibility",
                                     .str (get_visibility (Blk.div a content))),
                                   ("target", .str ctx.build_target)] }
              else
                { semantic_id := a.id, action := "removed",
                  reason_code := "VIS_REMOVED_EXTERNAL_ONLY",
                  message := some ("Wrapper \x27" ++ a.id
                    ++ "\x27 removed: not visible in " ++ ctx.build_target),
                  path := some path,
                  details := some [("visibility",
                                     .str (get_visibility (Blk.div a content))),
                                   ("target", .str ctx.build_target)] })
          else none := by
        unfold visibilityHit get_wrapper_id
        dsimp only
        rw [if_pos h]
        rfl
      rw [hv]
      by_cases h2 : visLevelOf cfg (.div a content) < L
      · rw [if_pos h2]
        simp [List.singleton_append, List.filter_cons, h2,
          hitsIds_aux cfg ctx L content (path ++ ".c[1]") 0]
      · rw [if_neg h2]
        simp [List.singleton_append, List.filter_cons, h2,
          hitsIds_aux cfg ctx L content (path ++ ".c[1]") 0]
    · simp only [iterWrapperBlock, wrapperPairsOne, if_neg h]
      exact hitsIds_aux cfg ctx L content (path ++ ".c[1]") 0
  | .plain _, _ => rfl
  | .para _, _ => rfl
  | .codeBlock _ _, _ => rfl
  | .header _ _ _, _ => rfl
  | .bulletList _, _ => rfl
  | .orderedList _ _, _ => rfl
  | .blockQuote _, _ => rfl
  | .table _, _ => rfl
  | .figure _, _ => rfl
  | .other _, _ => rfl

end

theorem mem_ids_iff (P : List (String × Int)) (L : Int)
    (hnd : (P.map Prod.fst).Nodup) (i : String) (l : Int)
    (hm : (i, l) ∈ P) :
    ((P.filter (fun q => decide (q.2 < L))).map Prod.fst).contains i
      = decide (l < L) := by
  by_cases hl : l < L
  · simp only [decide_eq_true hl]
    have : i ∈ (P.filter (fun q => decide (q.2 < L))).map Prod.fst := by
      refine List.mem_map.mpr ⟨(i, l), ?_, rfl⟩
      exact List.mem_filter.mpr ⟨hm, by simpa using hl⟩
    simpa [List.contains, List.elem_iff] using this
  · simp only [decide_eq_false hl]
    by_contra hc
    rw [Bool.not_eq_false] at hc
    rw [show ((P.filter (fun q => decide (q.2 < L))).map Prod.fst).contains i
        = List.elem i ((P.filter (fun q => decide (q.2 < L))).map Prod.fst)
      from rfl, List.elem_iff] at hc
    obtain ⟨⟨i2, l2⟩, hmem, heq⟩ := List.mem_map.mp hc
    obtain ⟨hmemP, hlt⟩ := List.mem_filter.mp hmem
    have hinj := List.inj_on_of_nodup_map hnd
    have : (i, l) = (i2, l2) := hinj hm hmemP (by simpa using heq.symm)
    cases this
    exact hl (by simpa using hlt)

mutual

theorem removeList_eq_byLevel (cfg : FilterConfig) (L : Int)
    (P : List (String × Int)) (hnd : (P.map Prod.fst).Nodup) :
    ∀ bs : List Blk, (wrapperPairs cfg bs).Sublist P →
      removeBlocksList ((P.filter (fun q => decide (q.2 < L))).map Prod.fst) bs
        = removeByLevel cfg L bs
  | [], _ => rfl
  | b :: bs, hsub => by
    rw [show wrapperPairs cfg (b :: bs)
        = wrapperPairsOne cfg b ++ wrapperPairs cfg bs from rfl] at hsub
    have hsub1 : (wrapperPairsOne cfg b).Sublist P :=
      (List.sublist_append_left _ _).trans hsub
    have hsub2 : (wrapperPairs cfg bs).Sublist P :=
      (List.sublist_append_right _ _).trans hsub
    have ihbs := removeList_eq_byLevel cfg L P hnd bs hsub2
    have ihb := removeOne_eq_byLevel cfg L P hnd b hsub1
    unfold removeBlocksList removeByLevel
    cases hb : b with
    | div a content =>
      by_cases hid : a.id ≠ ""
      · simp only [get_wrapper_id, if_pos hid]
        have hmem : (a.id, visLevelOf cfg (Blk.div a content)) ∈ P := by
          apply hsub1.subset
          rw [hb]
          simp [wrapperPairsOne, hid]
        have hcont := mem_ids_iff P L hnd _ _ hmem
        rw [hcont, ihbs]
        rw [hb] at ihb
        by_cases hlt : visLevelOf cfg (Blk.div a content) < L
        · simp [hlt]
        · simp [hlt, ihb]
      · simp only [get_wrapper_id, if_neg hid]
        rw [ihbs]
        rw [hb] at ihb
        rw [ihb]
    | plain inls =>
      simp [get_wrapper_id, removeBlockDescend, removeByLevelDescend, ihbs]
    | para inls =>
      simp [get_wrapper_id, removeBlockDescend, removeByLevelDescend, ihbs]
    | codeBlock a t =>
      simp [get_wrapper_id, removeBlockDescend, removeByLevelDescend, ihbs]
    | header l2 a inls =>
      simp [get_wrapper_id, removeBlockDescend, removeByLevelDescend, ihbs]
    | bulletList items =>
      simp [get_wrapper_id, removeBlockDescend, removeByLevelDescend, ihbs]
    | orderedList la items =>
      simp [get_wrapper_id, removeBlockDescend, removeByLevelDescend, ihbs]
    | blockQuote c =>
      simp [get_wrapper_id, removeBlockDescend, removeByLevelDescend, ihbs]
    | table j =>
      simp [get_wrapper_id, removeBlockDescend, removeByLevelDescend, ihbs]
    | figure j =>
      simp [get_wrapper_id, removeBlockDescend, removeByLevelDescend, ihbs]
    | other t =>
      simp [get_wrapper_id, removeBlockDescend, removeByLevelDescend, ihbs]

theorem removeOne_eq_byLevel (cfg : FilterConfig) (L : Int)
    (P : List (String × Int)) (hnd : (P.map Prod.fst).Nodup) :
    ∀ b : Blk, (wrapperPairsOne cfg b).Sublist P →
      removeBlockDescend
          ((P.filter (fun q => decide (q.2 < L))).map Prod.fst) b
        = removeByLevelDescend cfg L b
  | .div a content, hsub => by
    have hsubc : (wrapperPairs cfg content).Sublist P := by
      refine List.Sublist.trans ?_ hsub
      by_cases hid : a.id ≠ ""
      · simp only [wrapperPairsOne, if_pos hid, List.singleton_append]
        exact List.sublist_cons_self _ _
      · simp only [wrapperPairsOne, if_neg hid, List.nil_append]
        exact List.Sublist.refl _
    unfold removeBlockDescend removeByLevelDescend
    rw [removeList_eq_byLevel cfg L P hnd content hsubc]
  | .plain _, _ => rfl
  | .para _, _ => rfl
  | .codeBlock _ _, _ => rfl
  | .header _ _ _, _ => rfl
  | .bulletList _, _ => rfl
  | .orderedList _ _, _ => rfl
  | .blockQuote _, _ => rfl
  | .table _, _ => rfl
  | .figure _, _ => rfl
  | .other _, _ => rfl

end

mutual

theorem removeByLevel_id (cfg : FilterConfig) (L : Int) :
    ∀ bs : List Blk, (∀ q ∈ wrapperPairs cfg bs, ¬(q.2 < L)) →
      removeByLevel cfg L bs = bs
  | [], _ => rfl
  | b :: bs, h => by
    have h1 : ∀ q ∈ wrapperPairsOne cfg b, ¬(q.2 < L) := by
      intro q hq
      exact h q (by
        rw [show wrapperPairs cfg (b :: bs)
            = wrapperPairsOne cfg b ++ wrapperPairs cfg bs from rfl]
        exact List.mem_append.mpr (Or.inl hq))
    have h2 : ∀ q ∈ wrapperPairs cfg bs, ¬(q.2 < L) := by
      intro q hq
      exact h q (by
        rw [show wrapperPairs cfg (b :: bs)
            = wrapperPairsOne cfg b ++ wrapperPairs cfg bs from rfl]
        exact List.mem_append.mpr (Or.inr hq))
    have ihbs := removeByLevel_id cfg L bs h2
    have ihb := removeByLevelDescend_id cfg L b h1
    unfold removeByLevel
    cases hb : b with
    | div a content =>
      by_cases hid : a.id ≠ ""
      · simp only [get_wrapper_id, if_pos hid]
        have hlt : ¬(visLevelOf cfg (Blk.div a content) < L) := by
          refine h1 (a.id, visLevelOf cfg (Blk.div a content)) ?_
          rw [hb]
          simp [wrapperPairsOne, hid]
        rw [hb] at ihb
        simp only [if_neg hlt, ihbs, ihb]
      · simp only [get_wrapper_id, if_neg hid]
        rw [hb] at ihb
        simp [ihb, ihbs]
    | plain inls => simp [get_wrapper_id, removeByLevelDescend, ihbs]
    | para inls => simp [get_wrapper_id, removeByLevelDescend, ihbs]
    | codeBlock a t => simp [get_wrapper_id, removeByLevelDescend, ihbs]
    | header l2 a inls => simp [get_wrapper_id, removeByLevelDescend, ihbs]
    | bulletList items => simp [get_wrapper_id, removeByLevelDescend, ihbs]
    | orderedList la items => simp [get_wrapper_id, removeByLevelDescend, ihbs]
    | blockQuote c => simp [get_wrapper_id, removeByLevelDescend, ihbs]
    | table j => simp [get_wrapper_id, removeByLevelDescend, ihbs]
    | figure j => simp [get_wrapper_id, removeByLevelDescend, ihbs]
    | other t => simp [get_wrapper_id, removeByLevelDescend, ihbs]

theorem removeByLevelDescend_id (cfg : FilterConfig) (L : Int) :
    ∀ b : Blk, (∀ q ∈ wrapperPairsOne cfg b, ¬(q.2 < L)) →
      removeByLevelDescend cfg L b = b
  | .div a content, h => by
    have hc : ∀ q ∈ wrapperPairs cfg content, ¬(q.2 < L) := by
      intro q hq
      refine h q ?_
      by_cases hid : a.id ≠ ""
      · simp [wrapperPairsOne, hid, hq]
      · simp [wrapperPairsOne, hid, hq]
    unfold removeByLevelDescend
    rw [removeByLevel_id cfg L content hc]
  | .plain _, _ => rfl
  | .para _, _ => rfl
  | .codeBlock _ _, _ => rfl
  | .header _ _ _, _ => rfl
  | .bulletList _, _ => rfl
  | .orderedList _ _, _ => rfl
  | .blockQuote _, _ => rfl
  | .table _, _ => rfl
  | .figure _, _ => rfl
  | .other _, _ => rfl

end

theorem fvisChar (ast : DocAst) (cfg : FilterConfig) (ctx : BuildContext)
    (hnd : (wrapperIds ast.blocks).Nodup) :
    (filter_visibility ast cfg ctx).1
      = ⟨removeByLevel cfg (cfg.get_allowed_visibility_level ctx.build_target)
           ast.blocks⟩ := by
  unfold filter_visibility
  dsimp only
  rw [show iterWrappers ast = iterWrappersAux ast.blocks "blocks" 0 from rfl]
  rw [hitsIds_aux cfg ctx (cfg.get_allowed_visibility_level ctx.build_target)
    ast.blocks "blocks" 0]
  have hndP : ((wrapperPairs cfg ast.blocks).map Prod.fst).Nodup := by
    rw [wrapperPairs_map_fst]
    exact hnd
  split
  · next hE =>
    have hfil : (wrapperPairs cfg ast.blocks).filter
        (fun q => decide (q.2 < cfg.get_allowed_visibility_level ctx.build_target))
        = [] := by
      have := List.isEmpty_iff.mp hE
      exact List.map_eq_nil_iff.mp this
    have hnone : ∀ q ∈ wrapperPairs cfg ast.blocks,
        ¬(q.2 < cfg.get_allowed_visibility_level ctx.build_target) := by
      intro q hq
      have := List.filter_eq_nil_iff.mp hfil q hq
      simpa using this
    rw [removeByLevel_id cfg _ ast.blocks hnone]
  · rw [show remove_blocks_by_ids ast
        (((wrapperPairs cfg ast.blocks).filter
          (fun q => decide (q.2 < cfg.get_allowed_visibility_level ctx.build_target))).map
            Prod.fst)
        = ⟨removeBlocksList
            (((wrapperPairs cfg ast.blocks).filter
              (fun q => decide (q.2 < cfg.get_allowed_visibility_level ctx.build_target))).map
                Prod.fst) ast.blocks⟩ from rfl]
    rw [removeList_eq_byLevel cfg _ (wrapperPairs cfg ast.blocks) hndP ast.blocks
      (List.Sublist.refl _)]

mutual

theorem wrapperPairs_removeByLevel_sublist (cfg : FilterConfig) (L : Int) :
    ∀ bs : List Blk,
      (wrapperPairs cfg (removeByLevel cfg L bs)).Sublist (wrapperPairs cfg bs)
  | [] => List.Sublist.refl _
  | b :: bs => by
    have ihbs := wrapperPairs_removeByLevel_sublist cfg L bs
    have ihb := wrapperPairsOne_removeDescend_sublist cfg L b
    rw [show wrapperPairs cfg (b :: bs)
        = wrapperPairsOne cfg b ++ wrapperPairs cfg bs from rfl]
    unfold removeByLevel
    cases hb : b with
    | div a content =>
      by_cases hid : a.id ≠ ""
      · simp only [get_wrapper_id, if_pos hid]
        by_cases hlt : visLevelOf cfg (Blk.div a content) < L
        · simp only [if_pos hlt]
          exact ihbs.trans (List.sublist_append_right _ _)
        · simp only [if_neg hlt]
          rw [show wrapperPairs cfg
              (removeByLevelDescend cfg L (Blk.div a content)
                :: removeByLevel cfg L bs)
              = wrapperPairsOne cfg (removeByLevelDescend cfg L (Blk.div a content))
                ++ wrapperPairs cfg (removeByLevel cfg L bs) from rfl]
          rw [hb] at ihb
          exact List.Sublist.append ihb ihbs
      · simp only [get_wrapper_id, if_neg hid]
        rw [show wrapperPairs cfg
            (removeByLevelDescend cfg L (Blk.div a content)
              :: removeByLevel cfg L bs)
            = wrapperPairsOne cfg (removeByLevelDescend cfg L (Blk.div a content))
              ++ wrapperPairs cfg (removeByLevel cfg L bs) from rfl]
        rw [hb] at ihb
        exact List.Sublist.append ihb ihbs
    | plain inls =>
      simpa [get_wrapper_id, removeByLevelDescend, wrapperPairsOne] using ihbs
    | para inls =>
      simpa [get_wrapper_id, removeByLevelDescend, wrapperPairsOne] using ihbs
    | codeBlock a t =>
      simpa [get_wrapper_id, removeByLevelDescend, wrapperPairsOne] using ihbs
    | header l2 a inls =>
      simpa [get_wrapper_id, removeByLevelDescend, wrapperPairsOne] using ihbs
    | bulletList items =>
      simpa [get_wrapper_id, removeByLevelDescend, wrapperPairsOne] using ihbs
    | orderedList la items =>
      simpa [get_wrapper_id, removeByLevelDescend, wrapperPairsOne] using ihbs
    | blockQuote c =>
      simpa [get_wrapper_id, removeByLevelDescend, wrapperPairsOne] using ihbs
    | table j =>
      simpa [get_wrapper_id, removeByLevelDescend, wrapperPairsOne] using ihbs
    | figure j =>
      simpa [get_wrapper_id, removeByLevelDescend, wrapperPairsOne] using ihbs
    | other t =>
      simpa [get_wrapper_id, removeByLevelDescend, wrapperPairsOne] using ihbs

theorem wrapperPairsOne_removeDescend_sublist (cfg : FilterConfig) (L : Int) :
    ∀ b : Blk,
      (wrapperPairsOne cfg (removeByLevelDescend cfg L b)).Sublist
        (wrapperPairsOne cfg b)
  | .div a content => by
    have ih := wrapperPairs_removeByLevel_sublist cfg L content
    unfold removeByLevelDescend
    by_cases hid : a.id ≠ ""
    · simp only [wrapperPairsOne, if_pos hid]
      -- visLevelOf of the rebuilt div equals that of the original:
      -- get_visibility only reads the attributes.
      have hvl : visLevelOf cfg (Blk.div a (removeByLevel cfg L content))
          = visLevelOf cfg (Blk.div a content) := rfl
      rw [hvl]
      simp only [List.singleton_append]
      exact List.Sublist.cons₂ _ ih
    · simp only [wrapperPairsOne, if_neg hid, List.nil_append]
      exact ih
  | .plain _ => List.Sublist.refl _
  | .para _ => List.Sublist.refl _
  | .codeBlock _ _ => List.Sublist.refl _
  | .header _ _ _ => List.Sublist.refl _
  | .bulletList _ => List.Sublist.refl _
  | .orderedList _ _ => List.Sublist.refl _
  | .blockQuote _ => List.Sublist.refl _
  | .table _ => List.Sublist.refl _
  | .figure _ => List.Sublist.refl _
  | .other _ => List.Sublist.refl _

end

mutual

theorem removeByLevel_comp (cfg : FilterConfig) (L L2 : Int) (hle : L ≤ L2) :
    ∀ bs : List Blk,
      removeByLevel cfg L2 (removeByLevel cfg L bs) = removeByLevel cfg L2 bs
  | [] => rfl
  | b :: bs => by
    have ihbs := removeByLevel_comp cfg L L2 hle bs
    have ihb := removeByLevelDescend_comp cfg L L2 hle b
    conv_rhs => unfold removeByLevel
    cases hb : b with
    | div a content =>
      by_cases hid : a.id ≠ ""
      · by_cases hlt : visLevelOf cfg (Blk.div a content) < L
        · have hlt2 : visLevelOf cfg (Blk.div a content) < L2 := lt_of_lt_of_le hlt hle
          conv_lhs => rw [show removeByLevel cfg L (Blk.div a content :: bs)
            = removeByLevel cfg L bs from by
              conv_lhs => unfold removeByLevel
              simp [get_wrapper_id, if_pos hid, hlt]]
          simp only [get_wrapper_id, if_pos hid, if_pos hlt2, ihbs]
        · conv_lhs => rw [show removeByLevel cfg L (Blk.div a content :: bs)
            = removeByLevelDescend cfg L (Blk.div a content)
                :: removeByLevel cfg L bs from by
              conv_lhs => unfold removeByLevel
              simp [get_wrapper_id, if_pos hid, hlt]]
          by_cases hlt2 : visLevelOf cfg (Blk.div a content) < L2
          · simp only [get_wrapper_id, if_pos hid, if_pos hlt2]
            conv_lhs => unfold removeByLevel
            have hgid2 : get_wrapper_id (removeByLevelDescend cfg L (Blk.div a content))
                = some a.id := by
              unfold removeByLevelDescend
              simp [get_wrapper_id, hid]
            rw [hgid2]
            have hvl : visLevelOf cfg (removeByLevelDescend cfg L (Blk.div a content))
                = visLevelOf cfg (Blk.div a content) := rfl
            dsimp only
            rw [hvl]
            simp only [if_pos hlt2, ihbs]
          · simp only [get_wrapper_id, if_pos hid, if_neg hlt2]
            conv_lhs => unfold removeByLevel
            have hgid2 : get_wrapper_id (removeByLevelDescend cfg L (Blk.div a content))
                = some a.id := by
              unfold removeByLevelDescend
              simp [get_wrapper_id, hid]
            rw [hgid2]
            have hvl : visLevelOf cfg (removeByLevelDescend cfg L (Blk.div a content))
                = visLevelOf cfg (Blk.div a content) := rfl
            dsimp only
            rw [hvl]
            simp only [if_neg hlt2, ihbs]
            rw [hb] at ihb
            rw [ihb]
      · conv_lhs => rw [show removeByLevel cfg L (Blk.div a content :: bs)
            = removeByLevelDescend cfg L (Blk.div a content)
                :: removeByLevel cfg L bs from by
              conv_lhs => unfold removeByLevel
              simp [get_wrapper_id, hid]]
        conv_lhs => unfold removeByLevel
        have hgid2 : get_wrapper_id (removeByLevelDescend cfg L (Blk.div a content))
            = none := by
          unfold removeByLevelDescend
          simp [get_wrapper_id, hid]
        rw [hgid2]
        simp only [get_wrapper_id, if_neg hid]
        rw [hb] at ihb
        rw [ihb, ihbs]
    | plain inls =>
      simp [removeByLevel, get_wrapper_id, removeByLevelDescend, ihbs]
    | para inls =>
      simp [removeByLevel, get_wrapper_id, removeByLevelDescend, ihbs]
    | codeBlock a t =>
      simp [removeByLevel, get_wrapper_id, removeByLevelDescend, ihbs]
    | header l2x a inls =>
      simp [removeByLevel, get_wrapper_id, removeByLevelDescend, ihbs]
    | bulletList items =>
      simp [removeByLevel, get_wrapper_id, removeByLevelDescend, ihbs]
    | orderedList la items =>
      simp [removeByLevel, get_wrapper_id, removeByLevelDescend, ihbs]
    | blockQuote c =>
      simp [removeByLevel, get_wrapper_id, removeByLevelDescend, ihbs]
    | table j =>
      simp [removeByLevel, get_wrapper_id, removeByLevelDescend, ihbs]
    | figure j =>
      simp [removeByLevel, get_wrapper_id, removeByLevelDescend, ihbs]
    | other t =>
      simp [removeByLevel, get_wrapper_id, removeByLevelDescend, ihbs]

theorem removeByLevelDescend_comp (cfg : FilterConfig) (L L2 : Int)
    (hle : L ≤ L2) :
    ∀ b : Blk,
      removeByLevelDescend cfg L2 (removeByLevelDescend cfg L b)
        = removeByLevelDescend cfg L2 b
  | .div a content => by
    have ih := removeByLevel_comp cfg L L2 hle content
    rw [show removeByLevelDescend cfg L (Blk.div a content)
        = Blk.div a (removeByLevel cfg L content) from rfl,
      show removeByLevelDescend cfg L2 (Blk.div a (removeByLevel cfg L content))
        = Blk.div a (removeByLevel cfg L2 (removeByLevel cfg L content)) from rfl,
      show removeByLevelDescend cfg L2 (Blk.div a content)
        = Blk.div a (removeByLevel cfg L2 content) from rfl, ih]
  | .plain _ => rfl
  | .para _ => rfl
  | .codeBlock _ _ => rfl
  | .header _ _ _ => rfl
  | .bulletList _ => rfl
  | .orderedList _ _ => rfl
  | .blockQuote _ => rfl
  | .table _ => rfl
  | .figure _ => rfl
  | .other _ => rfl

end

/-- C6 (counterexample): the claim as stated fails on trees with
duplicated wrapper identifiers: on `c6DupAst` (two wrappers share id
`"y"`) filtering for `external` and then re-filtering for the stricter
`dossier` leaves one block, while filtering once for `dossier` leaves
none — removal is by collected id, and a duplicated id makes the
one-shot pass delete an unrelated wrapper whose duplicate has already
been removed in the two-step run. -/
theorem visibility_narrowing_counterexample :
    (filter_visibility (filter_visibility c6DupAst {} ctxExternal).1 {}
        ctxDossier).1.blocks.length = 1 ∧
    (filter_visibility c6DupAst {} ctxDossier).1.blocks.length = 0 :=
  ⟨rfl, rfl⟩

/-- C6 (amended): when the tree's wrapper identifiers are unique — the
spec's own tree invariant — and the second target's allowed visibility
level is at least the first's (`T'` stricter than `T`), re-filtering the
filtered tree for `T'` equals filtering once for `T'`. -/
theorem visibility_narrowing (ast : DocAst) (cfg : FilterConfig)
    (ctxT ctxU : BuildContext)
    (hnd : (wrapperIds ast.blocks).Nodup)
    (hle : cfg.get_allowed_visibility_level ctxT.build_target
      ≤ cfg.get_allowed_visibility_level ctxU.build_target) :
    (filter_visibility (filter_visibility ast cfg ctxT).1 cfg ctxU).1
      = (filter_visibility ast cfg ctxU).1 := by
  have hnd2 : (wrapperIds (removeByLevel cfg
      (cfg.get_allowed_visibility_level ctxT.build_target) ast.blocks)).Nodup := by
    rw [← wrapperPairs_map_fst cfg]
    refine List.Nodup.sublist
      (List.Sublist.map Prod.fst
        (wrapperPairs_removeByLevel_sublist cfg _ ast.blocks)) ?_
    rw [wrapperPairs_map_fst cfg]
    exact hnd
  rw [fvisChar ast cfg ctxT hnd]
  rw [fvisChar ⟨removeByLevel cfg
      (cfg.get_allowed_visibility_level ctxT.build_target) ast.blocks⟩
    cfg ctxU hnd2]
  rw [fvisChar ast cfg ctxU hnd]
  dsimp only
  rw [removeByLevel_comp cfg _ _ hle ast.blocks]

/-- Witness for the amended C6 statement on a concrete unique-id tree. -/
theorem visibility_narrowing_witness :
    (filter_visibility (filter_visibility c6UniqAst {} ctxExternal).1 {}
        ctxDossier).1
      = (filter_visibility c6UniqAst {} ctxDossier).1 :=
  visibility_narrowing c6UniqAst {} ctxExternal ctxDossier (by decide)
    (by decide)
